import Mathlib

/-!
# ESPixelStick output manager: a shallow embedding of `c_OutputMgr`

The definitions below follow `src/output/OutputMgr.cpp`, method by method.  What the manager
takes from its header `OutputMgr.hpp`, from the board definitions and from the driver classes
(enumerator values, slot ranges, the `SUPPORT_*` switches, the size of `OutputBuffer`, the
behaviour of the drivers' virtual functions) is a parameter of the development (`Board`,
`DriverModel`).  The file manager is a configuration file that holds a document or none, and
a flag that says whether saving succeeds.

Conventions:
* `uint16_t` values are natural numbers reduced modulo `65536` where the source assigns them;
* an operation that dereferences a null driver pointer, or indexes `pOutputChannelDrivers`
  outside the array, returns `none`;
* every call that leaves the manager (driver constructor, destructor and virtual calls,
  `logcon`, the file manager, the input manager) is appended to `trace` in program order.
-/

namespace ESPixelStick

/-! ## Data model -/

/-- Enumerators of `c_OutputMgr::e_OutputType` that OutputMgr.cpp names.  `OutputType_Other`
stands for every other value of the enumeration type, a value that has no `case` label in
the factory. -/
inductive e_OutputType where
  | OutputType_WS2811
  | OutputType_GECE
  | OutputType_DMX
  | OutputType_Renard
  | OutputType_Serial
  | OutputType_Relay
  | OutputType_Servo_PCA9685
  | OutputType_Disabled
  | OutputType_UCS1903
  | OutputType_TM1814
  | OutputType_WS2801
  | OutputType_APA102
  | OutputType_Other (code : Nat)
  deriving DecidableEq, Repr

/-- The driver classes the factory constructs with `new`. -/
inductive DriverClass where
  | c_OutputDisabled
  | c_OutputSerial
  | c_OutputGECE
  | c_OutputRelay
  | c_OutputServoPCA9685
  | c_OutputWS2811Rmt
  | c_OutputWS2811Uart
  | c_OutputUCS1903Rmt
  | c_OutputUCS1903Uart
  | c_OutputTM1814Rmt
  | c_OutputTM1814Uart
  | c_OutputWS2801Spi
  | c_OutputAPA102Spi
  deriving DecidableEq, Repr

/-- Content of a driver's own configuration: key and value pairs the manager never looks
into ("At this level we have no idea what is in it"). -/
abbrev DriverParams := List (Nat × Int)

/-- The object `channels[<slot>][<type code>]`: the entry `type` (the driver name that
`CreateJsonConfig` writes) and the driver's own keys. -/
structure JsonSection where
  driverName : Option DriverClass
  params : DriverParams
  deriving DecidableEq, Repr

/-- The object `channels[<slot>]`: the entry `type` (as the `uint32_t` that `setFromJSON`
reads) and the nested objects keyed by type code. -/
structure JsonChannel where
  type : Option Nat
  byType : List (Nat × JsonSection)
  deriving DecidableEq, Repr

/-- The object stored under the key `output_config`. -/
structure JsonOutputConfig where
  cfgver : Option Nat
  MaxChannels : Option Nat
  channels : Option (List (Nat × JsonChannel))
  deriving DecidableEq, Repr

/-- A configuration document: it may or may not have the key `output_config`. -/
structure JsonDocument where
  output_config : Option JsonOutputConfig
  deriving DecidableEq, Repr

/-- Build-time constants of the firmware that OutputMgr.cpp reads from headers and board
definitions: enumerator values, slot ranges, the `SUPPORT_*` switches and the size of the
shared buffer. -/
structure Board where
  /-- Number of entries of `pOutputChannelDrivers`. -/
  OutputChannelId_End : Nat
  OutputChannelId_UART_FIRST : Nat
  OutputChannelId_UART_LAST : Nat
  OutputChannelId_SPI_1 : Nat
  OutputChannelId_Relay : Nat
  /-- The macro `OM_IS_UART` as a predicate on `ChannelIndex`. -/
  OM_IS_UART : Nat → Bool
  /-- The macro `OM_IS_RMT` as a predicate on `ChannelIndex`. -/
  OM_IS_RMT : Nat → Bool
  SUPPORT_RELAY_OUTPUT : Bool
  SUPPORT_RMT_OUTPUT : Bool
  SUPPORT_RMT : Bool
  SUPPORT_OutputType_UCS1903 : Bool
  SUPPORT_OutputType_TM1814 : Bool
  SUPPORT_OutputType_WS2801 : Bool
  SUPPORT_OutputType_APA102 : Bool
  OutputType_Start : Nat
  OutputType_End : Nat
  /-- The conversion `e_OutputType (n)`. -/
  toOutputType : Nat → e_OutputType
  /-- The conversion `int (t)`. -/
  toInt : e_OutputType → Nat
  CurrentConfigVersion : Nat
  /-- The value of `sizeof (OutputBuffer)`. -/
  OutputBufferSize : Nat
  /-- The table `OutputChannelIdToGpioAndPort`: data pin and UART id of every slot. -/
  OutputChannelIdToGpioAndPort : List (Int × Int)

/-- Behaviour of the drivers' virtual functions, as far as the manager depends on it. -/
structure DriverModel where
  /-- Configuration a driver of the class holds after construction. -/
  initialConfig : DriverClass → DriverParams
  /-- Configuration after `SetConfig (section)`. -/
  SetConfig : DriverClass → DriverParams → JsonSection → DriverParams
  /-- What `GetConfig (section)` leaves in the section. -/
  GetConfig : DriverClass → DriverParams → JsonSection → JsonSection
  /-- Channel count the driver asks for under its configuration. -/
  NumChannelsNeeded : DriverClass → DriverParams → Nat

/-- One driver object (`c_OutputCommon` and its subclasses), with the fields the manager
sets through the common interface. -/
structure c_OutputCommon where
  /-- Identity of the heap object. -/
  instanceId : Nat
  driverClass : DriverClass
  OutputChannelId : Nat
  DataPin : Int
  UartId : Int
  /-- What `GetOutputType ()` reports. -/
  OutputType : e_OutputType
  config : DriverParams
  /-- Number of calls of `Begin ()` on this object. -/
  BeginCalls : Nat
  /-- Offset into `OutputBuffer` given to `SetOutputBufferAddress`, `none` before. -/
  pOutputBuffer : Option Nat
  /-- Value given to `SetOutputBufferSize`. -/
  OutputBufferSize : Nat
  deriving DecidableEq, Repr

/-- Messages the manager hands to `logcon`. -/
inductive LogMsg where
  | CreatingNewConfig
  | ShuttingDown (driver : DriverClass) (ChannelIndex : Nat)
  | CannotStart (requested : e_OutputType) (ChannelIndex : Nat)
  | UnknownOutputType (requested : e_OutputType) (ChannelIndex : Nat)
  | Initialization (driver : DriverClass) (ChannelIndex : Nat)
  | ErrorLoadingConfigFile
  | NoOutputInterfaceSettings
  | IncorrectVersion
  | NoOutputChannelSettings
  | NoOutputSettingsForChannel (ChannelIndex : Nat)
  | InvalidChannelType (ChannelType : Nat) (ChannelIndex : Nat)
  | ErrorSavingConfigFile
  | TooManyOutputChannels (ChannelsNeeded : Nat)
  deriving DecidableEq, Repr

/-- Calls that leave the manager, in program order.  Driver events carry the slot and the
identity of the object they are made on.  Addresses are offsets into the array
`OutputBuffer`, so the array itself (its start) is offset `0`. -/
inductive Event where
  | Log (msg : LogMsg)
  | New (ChannelIndex : Nat) (instanceId : Nat) (driver : DriverClass) (type : e_OutputType)
  | Delete (ChannelIndex : Nat) (instanceId : Nat)
  | DriverBegin (ChannelIndex : Nat) (instanceId : Nat)
  | DriverSetConfig (ChannelIndex : Nat) (instanceId : Nat) (config : JsonSection)
  | DriverRender (ChannelIndex : Nat) (instanceId : Nat)
  | DriverPauseOutput (ChannelIndex : Nat) (instanceId : Nat)
  | SetOutputBufferAddress (ChannelIndex : Nat) (instanceId : Nat) (offset : Nat)
  | SetOutputBufferSize (ChannelIndex : Nat) (instanceId : Nat) (size : Nat)
  | LoadConfigFile
  | SaveConfigFile (ConfigData : Option JsonDocument)
  | SetBufferInfo (BufferStart : Nat) (BufferSize : Nat)
  deriving DecidableEq, Repr

/-- The manager object together with the global state it reads and writes: the `IsBooting`
flag, the configuration file kept by the file manager, and the trace of outgoing calls. -/
structure c_OutputMgr where
  HasBeenInitialized : Bool
  ConfigLoadNeeded : Bool
  IsOutputPaused : Bool
  BuildingNewConfig : Bool
  UsedBufferSize : Nat
  pOutputChannelDrivers : List (Option c_OutputCommon)
  IsBooting : Bool
  /-- Content of the configuration file: `none` when the file is absent or does not hold a
  JSON document, in which case `LoadConfigFile` returns false. -/
  ConfigFile : Option JsonDocument
  /-- Whether `SaveConfigFile` succeeds. -/
  FileSystemWritable : Bool
  /-- Identity the next constructed driver object receives. -/
  nextInstanceId : Nat
  trace : List Event
  deriving DecidableEq, Repr

/-- Appends one outgoing call to the trace. -/
def emit (e : Event) (s : c_OutputMgr) : c_OutputMgr :=
  { s with trace := s.trace ++ [e] }

/-- The call `logcon (msg)`. -/
def logcon (msg : LogMsg) (s : c_OutputMgr) : c_OutputMgr :=
  emit (Event.Log msg) s

/-- The virtual call `GetNumChannelsNeeded ()`, a `uint16_t`. -/
def GetNumChannelsNeeded (m : DriverModel) (d : c_OutputCommon) : Nat :=
  m.NumChannelsNeeded d.driverClass d.config % 65536

/-! ## `UpdateDisplayBufferReferences` -/

/-- Body of the loop of `UpdateDisplayBufferReferences` over the remaining entries of
`pOutputChannelDrivers`; `OutputBufferOffset` is the `uint16_t` running offset.  The
subtraction `sizeof (OutputBuffer) - OutputBufferOffset` is carried out in `size_t` and
stored in a `uint16_t`, hence taken modulo `65536`. -/
def UpdateDisplayBufferLoop (b : Board) (m : DriverModel) :
    List (Option c_OutputCommon) → Nat → List Event →
      Option (List (Option c_OutputCommon) × Nat × List Event)
  | [], OutputBufferOffset, tr => some ([], OutputBufferOffset, tr)
  | none :: _, _, _ => none
  | some d :: rest, OutputBufferOffset, tr =>
    let ChannelsNeeded := GetNumChannelsNeeded m d
    let AvailableChannels := (b.OutputBufferSize + 65536 - OutputBufferOffset) % 65536
    let ChannelsToAllocate := min ChannelsNeeded AvailableChannels
    let d1 := { d with pOutputBuffer := some OutputBufferOffset,
                       OutputBufferSize := ChannelsToAllocate }
    let tr1 := tr ++ [Event.SetOutputBufferAddress d.OutputChannelId d.instanceId
                        OutputBufferOffset,
                      Event.SetOutputBufferSize d.OutputChannelId d.instanceId
                        ChannelsToAllocate]
    let tr2 := if AvailableChannels < ChannelsNeeded
      then tr1 ++ [Event.Log (LogMsg.TooManyOutputChannels ChannelsNeeded)] else tr1
    match UpdateDisplayBufferLoop b m rest ((OutputBufferOffset + ChannelsToAllocate) % 65536)
        tr2 with
    | none => none
    | some (rest1, off1, tr3) => some (some d1 :: rest1, off1, tr3)

/-- The method `c_OutputMgr::UpdateDisplayBufferReferences`. -/
def UpdateDisplayBufferReferences (b : Board) (m : DriverModel) (s : c_OutputMgr) :
    Option c_OutputMgr :=
  match UpdateDisplayBufferLoop b m s.pOutputChannelDrivers 0 s.trace with
  | none => none
  | some (drivers, OutputBufferOffset, tr) =>
    some (emit (Event.SetBufferInfo 0 OutputBufferOffset)
      { s with pOutputChannelDrivers := drivers,
               UsedBufferSize := OutputBufferOffset,
               trace := tr })

/-! ## The driver factory -/

/-- Which diagnostic the `switch` of the factory reaches before it constructs the driver:
none, the `Cannot Start ...` line of a `case` (logged unless `BuildingNewConfig`), or the
`Unknown output type` line of `default` (logged unless `IsBooting`). -/
inductive FactoryDiagnostic where
  | Quiet
  | CannotStart
  | UnknownType
  deriving DecidableEq, Repr

/-- The `new` expression a branch of the `switch` evaluates: the class and the type passed
as fourth constructor argument. -/
structure FactoryChoice where
  driverClass : DriverClass
  OutputType : e_OutputType
  diagnostic : FactoryDiagnostic
  deriving DecidableEq, Repr

/-- The branch `new c_OutputDisabled (..., OutputType_Disabled)` after a `Cannot Start` line. -/
def FactoryRefused : FactoryChoice :=
  ⟨DriverClass.c_OutputDisabled, e_OutputType.OutputType_Disabled, FactoryDiagnostic.CannotStart⟩

/-- The `default:` branch. -/
def FactoryDefault : FactoryChoice :=
  ⟨DriverClass.c_OutputDisabled, e_OutputType.OutputType_Disabled, FactoryDiagnostic.UnknownType⟩

/-- The `switch (NewOutputChannelType)` of `InstantiateNewOutputChannel`, with the `#ifdef`
blocks decided by the switches of the board. -/
def FactorySwitch (b : Board) (ChannelIndex : Nat) (NewOutputChannelType : e_OutputType) :
    FactoryChoice :=
  match NewOutputChannelType with
  | e_OutputType.OutputType_Disabled =>
    ⟨DriverClass.c_OutputDisabled, e_OutputType.OutputType_Disabled, FactoryDiagnostic.Quiet⟩
  | e_OutputType.OutputType_DMX =>
    if b.OutputChannelId_UART_FIRST ≤ ChannelIndex ∧ ChannelIndex ≤ b.OutputChannelId_UART_LAST
    then ⟨DriverClass.c_OutputSerial, e_OutputType.OutputType_DMX, FactoryDiagnostic.Quiet⟩
    else FactoryRefused
  | e_OutputType.OutputType_GECE =>
    if b.OutputChannelId_UART_FIRST ≤ ChannelIndex ∧ ChannelIndex ≤ b.OutputChannelId_UART_LAST
    then ⟨DriverClass.c_OutputGECE, e_OutputType.OutputType_GECE, FactoryDiagnostic.Quiet⟩
    else FactoryRefused
  | e_OutputType.OutputType_Serial =>
    if b.OM_IS_UART ChannelIndex
    then ⟨DriverClass.c_OutputSerial, e_OutputType.OutputType_Serial, FactoryDiagnostic.Quiet⟩
    else FactoryRefused
  | e_OutputType.OutputType_Renard =>
    if b.OM_IS_UART ChannelIndex
    then ⟨DriverClass.c_OutputSerial, e_OutputType.OutputType_Renard, FactoryDiagnostic.Quiet⟩
    else FactoryRefused
  | e_OutputType.OutputType_Relay =>
    if b.SUPPORT_RELAY_OUTPUT then
      if ChannelIndex = b.OutputChannelId_Relay
      then ⟨DriverClass.c_OutputRelay, e_OutputType.OutputType_Relay, FactoryDiagnostic.Quiet⟩
      else FactoryRefused
    else FactoryDefault
  | e_OutputType.OutputType_Servo_PCA9685 =>
    if b.SUPPORT_RELAY_OUTPUT then
      if ChannelIndex = b.OutputChannelId_Relay
      then ⟨DriverClass.c_OutputServoPCA9685, e_OutputType.OutputType_Servo_PCA9685,
        FactoryDiagnostic.Quiet⟩
      else FactoryRefused
    else FactoryDefault
  | e_OutputType.OutputType_WS2811 =>
    if b.SUPPORT_RMT_OUTPUT && b.OM_IS_RMT ChannelIndex
    then ⟨DriverClass.c_OutputWS2811Rmt, e_OutputType.OutputType_WS2811, FactoryDiagnostic.Quiet⟩
    else if b.OM_IS_UART ChannelIndex
    then ⟨DriverClass.c_OutputWS2811Uart, e_OutputType.OutputType_WS2811, FactoryDiagnostic.Quiet⟩
    else FactoryRefused
  | e_OutputType.OutputType_UCS1903 =>
    if b.SUPPORT_OutputType_UCS1903 then
      if b.SUPPORT_RMT && b.OM_IS_RMT ChannelIndex
      then ⟨DriverClass.c_OutputUCS1903Rmt, e_OutputType.OutputType_UCS1903,
        FactoryDiagnostic.Quiet⟩
      else if b.OM_IS_UART ChannelIndex
      then ⟨DriverClass.c_OutputUCS1903Uart, e_OutputType.OutputType_UCS1903,
        FactoryDiagnostic.Quiet⟩
      else FactoryRefused
    else FactoryDefault
  | e_OutputType.OutputType_TM1814 =>
    if b.SUPPORT_OutputType_TM1814 then
      if b.SUPPORT_RMT && b.OM_IS_RMT ChannelIndex
      then ⟨DriverClass.c_OutputTM1814Rmt, e_OutputType.OutputType_TM1814,
        FactoryDiagnostic.Quiet⟩
      else if b.OM_IS_UART ChannelIndex
      then ⟨DriverClass.c_OutputTM1814Uart, e_OutputType.OutputType_TM1814,
        FactoryDiagnostic.Quiet⟩
      else FactoryRefused
    else FactoryDefault
  | e_OutputType.OutputType_WS2801 =>
    if b.SUPPORT_OutputType_WS2801 then
      if ChannelIndex = b.OutputChannelId_SPI_1
      then ⟨DriverClass.c_OutputWS2801Spi, e_OutputType.OutputType_WS2801,
        FactoryDiagnostic.Quiet⟩
      else FactoryRefused
    else FactoryDefault
  | e_OutputType.OutputType_APA102 =>
    if b.SUPPORT_OutputType_APA102 then
      if ChannelIndex = b.OutputChannelId_SPI_1
      then ⟨DriverClass.c_OutputAPA102Spi, e_OutputType.OutputType_APA102,
        FactoryDiagnostic.Quiet⟩
      else FactoryRefused
    else FactoryDefault
  | e_OutputType.OutputType_Other _ => FactoryDefault

/-- The diagnostic line of the chosen branch, under the flag that guards it. -/
def FactoryLog (ChannelIndex : Nat) (NewOutputChannelType : e_OutputType)
    (c : FactoryChoice) (s : c_OutputMgr) : c_OutputMgr :=
  match c.diagnostic with
  | FactoryDiagnostic.Quiet => s
  | FactoryDiagnostic.CannotStart =>
    if s.BuildingNewConfig then s
    else logcon (LogMsg.CannotStart NewOutputChannelType ChannelIndex) s
  | FactoryDiagnostic.UnknownType =>
    if s.IsBooting then s
    else logcon (LogMsg.UnknownOutputType NewOutputChannelType ChannelIndex) s

/-- The object a constructor call `new <class> (ChannelIndex, dataPin, UartId, type)` yields.
The object reports the type it was constructed with. -/
def NewDriver (b : Board) (m : DriverModel) (ChannelIndex : Nat) (c : FactoryChoice)
    (instanceId : Nat) : c_OutputCommon :=
  { instanceId := instanceId
    driverClass := c.driverClass
    OutputChannelId := ChannelIndex
    DataPin := (b.OutputChannelIdToGpioAndPort.getD ChannelIndex (0, 0)).1
    UartId := (b.OutputChannelIdToGpioAndPort.getD ChannelIndex (0, 0)).2
    OutputType := c.OutputType
    config := m.initialConfig c.driverClass
    BeginCalls := 0
    pOutputBuffer := none
    OutputBufferSize := 0 }

/-- The part of `InstantiateNewOutputChannel` from the `switch` to the end: construct the
driver, store it in the slot, log, and start it when asked to. -/
def CreateDriver (b : Board) (m : DriverModel) (ChannelIndex : Nat)
    (NewOutputChannelType : e_OutputType) (StartDriver : Bool) (s : c_OutputMgr) : c_OutputMgr :=
  let c := FactorySwitch b ChannelIndex NewOutputChannelType
  let s1 := FactoryLog ChannelIndex NewOutputChannelType c s
  let d := NewDriver b m ChannelIndex c s1.nextInstanceId
  let s2 := emit (Event.New ChannelIndex d.instanceId d.driverClass d.OutputType)
    { s1 with nextInstanceId := s1.nextInstanceId + 1 }
  let s3 := if s2.IsBooting then s2 else logcon (LogMsg.Initialization d.driverClass ChannelIndex) s2
  if StartDriver then
    let d1 := { d with BeginCalls := d.BeginCalls + 1 }
    emit (Event.DriverBegin ChannelIndex d.instanceId)
      { s3 with pOutputChannelDrivers := s3.pOutputChannelDrivers.set ChannelIndex (some d1) }
  else
    { s3 with pOutputChannelDrivers := s3.pOutputChannelDrivers.set ChannelIndex (some d) }

/-- The method `c_OutputMgr::InstantiateNewOutputChannel`.  Callers that give no third
argument get `StartDriver = true`. -/
def InstantiateNewOutputChannel (b : Board) (m : DriverModel) (ChannelIndex : Nat)
    (NewOutputChannelType : e_OutputType) (StartDriver : Bool) (s : c_OutputMgr) :
    Option c_OutputMgr :=
  if ChannelIndex < s.pOutputChannelDrivers.length then
    match s.pOutputChannelDrivers.getD ChannelIndex none with
    | some d =>
      if d.OutputType = NewOutputChannelType then some s
      else
        let s1 := if s.IsBooting then s else logcon (LogMsg.ShuttingDown d.driverClass ChannelIndex) s
        let s2 := emit (Event.Delete ChannelIndex d.instanceId) s1
        let s3 := { s2 with pOutputChannelDrivers := s2.pOutputChannelDrivers.set ChannelIndex none }
        some (CreateDriver b m ChannelIndex NewOutputChannelType StartDriver s3)
    | none => some (CreateDriver b m ChannelIndex NewOutputChannelType StartDriver s)
  else none

/-- A loop `for (auto CurrentOutput : pOutputChannelDrivers)` whose body is
`InstantiateNewOutputChannel (e_OutputChannelIds (ChannelIndex++), type, StartDriver)`, over
the slot indices still to visit. -/
def InstantiateLoop (b : Board) (m : DriverModel) (NewOutputChannelType : e_OutputType)
    (StartDriver : Bool) : List Nat → c_OutputMgr → Option c_OutputMgr
  | [], s => some s
  | ChannelIndex :: rest, s =>
    match InstantiateNewOutputChannel b m ChannelIndex NewOutputChannelType StartDriver s with
    | none => none
    | some s1 => InstantiateLoop b m NewOutputChannelType StartDriver rest s1

/-- The loop over the whole array `pOutputChannelDrivers`. -/
def InstantiateAll (b : Board) (m : DriverModel) (NewOutputChannelType : e_OutputType)
    (StartDriver : Bool) (s : c_OutputMgr) : Option c_OutputMgr :=
  InstantiateLoop b m NewOutputChannelType StartDriver
    (List.range s.pOutputChannelDrivers.length) s

/-! ## Writing the configuration document -/

/-- First value stored under a key of a JSON object. -/
def JsonLookup {α : Type} (key : Nat) : List (Nat × α) → Option α
  | [] => none
  | (k, v) :: rest => if k = key then some v else JsonLookup key rest

/-- Assignment to a member of a JSON object: the first entry with the key is replaced in
place, a new key is appended. -/
def JsonStore {α : Type} (key : Nat) (v : α) : List (Nat × α) → List (Nat × α)
  | [] => [(key, v)]
  | (k, w) :: rest => if k = key then (k, v) :: rest else (k, w) :: JsonStore key v rest

/-- Body of the loop of `CreateJsonConfig` for one driver: the record of the driver's slot
gets the driver's type code under `type` and a section keyed by the type code, into which
the driver name and the driver's own configuration are written. -/
def CreateJsonChannel (b : Board) (m : DriverModel) (d : c_OutputCommon)
    (OutputMgrChannelsData : List (Nat × JsonChannel)) : List (Nat × JsonChannel) :=
  let ChannelConfigData : JsonChannel :=
    (JsonLookup d.OutputChannelId OutputMgrChannelsData).getD ⟨none, []⟩
  let DriverTypeId := b.toInt d.OutputType
  let ChannelConfigByTypeData : JsonSection :=
    (JsonLookup DriverTypeId ChannelConfigData.byType).getD ⟨none, []⟩
  let Section := m.GetConfig d.driverClass d.config
    { ChannelConfigByTypeData with driverName := some d.driverClass }
  JsonStore d.OutputChannelId
    { type := some DriverTypeId, byType := JsonStore DriverTypeId Section ChannelConfigData.byType }
    OutputMgrChannelsData

/-- The loop of `CreateJsonConfig` over the remaining entries of `pOutputChannelDrivers`. -/
def CreateJsonLoop (b : Board) (m : DriverModel) :
    List (Option c_OutputCommon) → List (Nat × JsonChannel) → Option (List (Nat × JsonChannel))
  | [], data => some data
  | none :: _, _ => none
  | some d :: rest, data => CreateJsonLoop b m rest (CreateJsonChannel b m d data)

/-- The method `c_OutputMgr::CreateJsonConfig`, on the object `jsonConfig` it is given. -/
def CreateJsonConfig (b : Board) (m : DriverModel) (s : c_OutputMgr)
    (jsonConfig : JsonOutputConfig) : Option JsonOutputConfig :=
  match CreateJsonLoop b m s.pOutputChannelDrivers (jsonConfig.channels.getD []) with
  | none => none
  | some data => some { jsonConfig with channels := some data }

/-- The method `c_OutputMgr::SetConfig`; `ConfigData` is `none` for a text that is not a JSON
document. -/
def SetConfig (ConfigData : Option JsonDocument) (s : c_OutputMgr) : c_OutputMgr :=
  let s1 := emit (Event.SaveConfigFile ConfigData) s
  if s1.FileSystemWritable then
    { s1 with ConfigFile := ConfigData, ConfigLoadNeeded := true }
  else logcon LogMsg.ErrorSavingConfigFile s1

/-- The loop `for each output type` of `CreateNewConfig`, over the type codes still to
visit: every slot is given the type without being started, then the configuration of the
drivers is collected. -/
def CreateNewConfigLoop (b : Board) (m : DriverModel) :
    List Nat → c_OutputMgr → JsonOutputConfig → Option (c_OutputMgr × JsonOutputConfig)
  | [], s, JsonConfig => some (s, JsonConfig)
  | outputTypeId :: rest, s, JsonConfig =>
    match InstantiateAll b m (b.toOutputType outputTypeId) false s with
    | none => none
    | some s1 =>
      match CreateJsonConfig b m s1 JsonConfig with
      | none => none
      | some JsonConfig1 => CreateNewConfigLoop b m rest s1 JsonConfig1

/-- The method `c_OutputMgr::CreateNewConfig`. -/
def CreateNewConfig (b : Board) (m : DriverModel) (s : c_OutputMgr) : Option c_OutputMgr :=
  let s1 := if s.IsBooting then s else logcon LogMsg.CreatingNewConfig s
  let s2 := { s1 with BuildingNewConfig := true }
  let JsonConfig : JsonOutputConfig :=
    { cfgver := some b.CurrentConfigVersion, MaxChannels := some b.OutputBufferSize,
      channels := none }
  match CreateNewConfigLoop b m
      (List.range' b.OutputType_Start (b.OutputType_End - b.OutputType_Start)) s2 JsonConfig with
  | none => none
  | some (s3, JsonConfig1) =>
    match InstantiateAll b m e_OutputType.OutputType_Disabled true s3 with
    | none => none
    | some s4 =>
      match CreateJsonConfig b m s4 JsonConfig1 with
      | none => none
      | some JsonConfig2 =>
        let s5 := SetConfig (some { output_config := some JsonConfig2 }) s4
        some { s5 with BuildingNewConfig := true }

/-! ## Reading the configuration document -/

/-- The call `pOutputChannelDrivers[ChannelIndex]->SetConfig (OutputChannelDriverConfig)`. -/
def DriverSetConfig (m : DriverModel) (ChannelIndex : Nat) (OutputChannelDriverConfig : JsonSection)
    (s : c_OutputMgr) : Option c_OutputMgr :=
  match s.pOutputChannelDrivers.getD ChannelIndex none with
  | none => none
  | some d =>
    let d1 := { d with config := m.SetConfig d.driverClass d.config OutputChannelDriverConfig }
    some (emit (Event.DriverSetConfig ChannelIndex d.instanceId OutputChannelDriverConfig)
      { s with pOutputChannelDrivers := s.pOutputChannelDrivers.set ChannelIndex (some d1) })

/-- The loop `for each output channel` of `ProcessJsonConfig`, over the slot indices still to
visit.  A slot without an entry in the document ends the loop (`break`); an invalid type
code or a missing section disables the slot and goes on with the next one (`continue`). -/
def ProcessChannelLoop (b : Board) (m : DriverModel) (OutputChannelArray : List (Nat × JsonChannel)) :
    List Nat → c_OutputMgr → Option c_OutputMgr
  | [], s => some s
  | ChannelIndex :: rest, s =>
    match JsonLookup ChannelIndex OutputChannelArray with
    | none => some (logcon (LogMsg.NoOutputSettingsForChannel ChannelIndex) s)
    | some OutputChannelConfig =>
      let ChannelType := OutputChannelConfig.type.getD b.OutputType_End
      if b.OutputType_End ≤ ChannelType then
        match InstantiateNewOutputChannel b m ChannelIndex e_OutputType.OutputType_Disabled true
            (logcon (LogMsg.InvalidChannelType ChannelType ChannelIndex) s) with
        | none => none
        | some s1 => ProcessChannelLoop b m OutputChannelArray rest s1
      else
        match JsonLookup ChannelType OutputChannelConfig.byType with
        | none =>
          match InstantiateNewOutputChannel b m ChannelIndex e_OutputType.OutputType_Disabled true
              (logcon (LogMsg.NoOutputSettingsForChannel ChannelIndex) s) with
          | none => none
          | some s1 => ProcessChannelLoop b m OutputChannelArray rest s1
        | some OutputChannelDriverConfig =>
          match InstantiateNewOutputChannel b m ChannelIndex (b.toOutputType ChannelType) true s with
          | none => none
          | some s1 =>
            match DriverSetConfig m ChannelIndex OutputChannelDriverConfig s1 with
            | none => none
            | some s2 => ProcessChannelLoop b m OutputChannelArray rest s2

/-- The `do ... while (false)` block of `ProcessJsonConfig`: the value of `Response` it
leaves and the state.  The loop over the slots runs from `OutputChannelId_Start`, which is
slot 0, to `OutputChannelId_End`. -/
def ProcessJsonConfigBody (b : Board) (m : DriverModel) (jsonConfig : JsonDocument)
    (s : c_OutputMgr) : Option (Bool × c_OutputMgr) :=
  match jsonConfig.output_config with
  | none => some (false, logcon LogMsg.NoOutputInterfaceSettings s)
  | some OutputChannelMgrData =>
    let TempVersion : Nat :=
      OutputChannelMgrData.cfgver.getD (if b.CurrentConfigVersion = 0 then 1 else 0)
    let s1 := if TempVersion ≠ b.CurrentConfigVersion then logcon LogMsg.IncorrectVersion s else s
    match OutputChannelMgrData.channels with
    | none => some (false, logcon LogMsg.NoOutputChannelSettings s1)
    | some OutputChannelArray =>
      match ProcessChannelLoop b m OutputChannelArray (List.range b.OutputChannelId_End) s1 with
      | none => none
      | some s2 => some (true, s2)

/-- The method `c_OutputMgr::ProcessJsonConfig`: its return value and the state it leaves. -/
def ProcessJsonConfig (b : Board) (m : DriverModel) (jsonConfig : JsonDocument)
    (s : c_OutputMgr) : Option (Bool × c_OutputMgr) :=
  match ProcessJsonConfigBody b m jsonConfig s with
  | none => none
  | some (Response, s1) =>
    match (if Response then some s1 else CreateNewConfig b m s1) with
    | none => none
    | some s2 =>
      match UpdateDisplayBufferReferences b m s2 with
      | none => none
      | some s3 => some (Response, s3)

/-- The method `c_OutputMgr::LoadConfig`: `LoadConfigFile` either hands the parsed document
to the handler, which runs `ProcessJsonConfig` and drops its result, and returns true; or it
returns false, upon which a new configuration is created. -/
def LoadConfig (b : Board) (m : DriverModel) (s : c_OutputMgr) : Option c_OutputMgr :=
  let s1 := emit Event.LoadConfigFile s
  match s1.ConfigFile with
  | some JsonConfig =>
    match ProcessJsonConfig b m JsonConfig s1 with
    | none => none
    | some (_, s2) => some s2
  | none =>
    CreateNewConfig b m (if s1.IsBooting then s1 else logcon LogMsg.ErrorLoadingConfigFile s1)

/-! ## Life cycle -/

/-- The state the constructor `c_OutputMgr::c_OutputMgr` leaves: every slot holds `nullptr`.
The state of the file system and the boot flag are those of the surroundings. -/
def Constructed (b : Board) (IsBooting : Bool) (ConfigFile : Option JsonDocument)
    (FileSystemWritable : Bool) : c_OutputMgr :=
  { HasBeenInitialized := false
    ConfigLoadNeeded := false
    IsOutputPaused := false
    BuildingNewConfig := false
    UsedBufferSize := 0
    pOutputChannelDrivers := List.replicate b.OutputChannelId_End none
    IsBooting := IsBooting
    ConfigFile := ConfigFile
    FileSystemWritable := FileSystemWritable
    nextInstanceId := 0
    trace := [] }

/-- The method `c_OutputMgr::Begin` (the set-up of the flash LED pin left aside). -/
def Begin (b : Board) (m : DriverModel) (s : c_OutputMgr) : Option c_OutputMgr :=
  if s.HasBeenInitialized then some s
  else
    match InstantiateAll b m e_OutputType.OutputType_Disabled true
        { s with HasBeenInitialized := true } with
    | none => none
    | some s1 => LoadConfig b m s1

/-- A loop over `pOutputChannelDrivers` whose body is one virtual call without arguments
on the driver of the slot. -/
def DriverCallLoop (call : Nat → Nat → Event) : List (Option c_OutputCommon) → List Event →
    Option (List Event)
  | [], tr => some tr
  | none :: _, _ => none
  | some d :: rest, tr => DriverCallLoop call rest (tr ++ [call d.OutputChannelId d.instanceId])

/-- The method `c_OutputMgr::Render`. -/
def Render (b : Board) (m : DriverModel) (s : c_OutputMgr) : Option c_OutputMgr :=
  match (if s.ConfigLoadNeeded then LoadConfig b m { s with ConfigLoadNeeded := false }
         else some s) with
  | none => none
  | some s1 =>
    if s1.IsOutputPaused = false then
      match DriverCallLoop Event.DriverRender s1.pOutputChannelDrivers s1.trace with
      | none => none
      | some tr => some { s1 with trace := tr }
    else some s1

/-- The method `c_OutputMgr::PauseOutputs`. -/
def PauseOutputs (s : c_OutputMgr) : Option c_OutputMgr :=
  match DriverCallLoop Event.DriverPauseOutput s.pOutputChannelDrivers s.trace with
  | none => none
  | some tr => some { s with trace := tr }

/-- The method `c_OutputMgr::GetStatus`: one entry of the array `output` per slot, made by
the driver of the slot (here: the slot and the identity of the driver that wrote it). -/
def GetStatus : List (Option c_OutputCommon) → Option (List (Nat × Nat))
  | [] => some []
  | none :: _ => none
  | some d :: rest =>
    match GetStatus rest with
    | none => none
    | some OutputStatus => some ((d.OutputChannelId, d.instanceId) :: OutputStatus)

/-! ## Observations of a manager state, example boards and example states -/

/-- Value given to `SetOutputBufferSize` for the driver of a slot (0 for an empty slot). -/
def GrantedOf : Option c_OutputCommon → Nat
  | some d => d.OutputBufferSize
  | none => 0

/-- Channel count the driver of a slot asks for (0 for an empty slot). -/
def NeededOf (m : DriverModel) : Option c_OutputCommon → Nat
  | some d => GetNumChannelsNeeded m d
  | none => 0

/-- Granted slice lengths in slot order. -/
def Granted (l : List (Option c_OutputCommon)) : List Nat := l.map GrantedOf

/-- Needed channel counts in slot order. -/
def Needed (m : DriverModel) (l : List (Option c_OutputCommon)) : List Nat := l.map (NeededOf m)


/-- Every slot holds a driver (no entry of `pOutputChannelDrivers` is `nullptr`). -/
def AllBound (l : List (Option c_OutputCommon)) : Prop := ∀ x ∈ l, x ≠ none

instance (l : List (Option c_OutputCommon)) : Decidable (AllBound l) := by
  unfold AllBound; infer_instance

/-- A driver model for examples: a driver keeps the keys of the section it was configured
with, reports them back, and asks for as many channels as the first key's value says. -/
def DemoDrivers : DriverModel :=
  { initialConfig := fun _ => []
    SetConfig := fun _ _ config => config.params
    GetConfig := fun _ config json => { json with params := config }
    NumChannelsNeeded := fun _ config =>
      match config with
      | [] => 0
      | (_, v) :: _ => v.toNat }

/-- The generic ESP32 board (GPIO_Defs_ESP32_generic.hpp): two serial slots, four pulse-train
slots and the relay slot; relay output and UCS1903 are supported, SPI output and TM1814 are
not; `SUPPORT_RMT` is defined nowhere.  Type codes follow the order of `OutputTypeXlateMap`. -/
def GenericESP32 : Board :=
  { OutputChannelId_End := 7
    OutputChannelId_UART_FIRST := 0
    OutputChannelId_UART_LAST := 1
    OutputChannelId_SPI_1 := 7
    OutputChannelId_Relay := 6
    OM_IS_UART := fun ChannelIndex => decide (ChannelIndex ≤ 1)
    OM_IS_RMT := fun ChannelIndex => decide (2 ≤ ChannelIndex ∧ ChannelIndex ≤ 5)
    SUPPORT_RELAY_OUTPUT := true
    SUPPORT_RMT_OUTPUT := true
    SUPPORT_RMT := false
    SUPPORT_OutputType_UCS1903 := true
    SUPPORT_OutputType_TM1814 := false
    SUPPORT_OutputType_WS2801 := false
    SUPPORT_OutputType_APA102 := false
    OutputType_Start := 0
    OutputType_End := 9
    toOutputType := fun n =>
      match n with
      | 0 => e_OutputType.OutputType_WS2811
      | 1 => e_OutputType.OutputType_GECE
      | 2 => e_OutputType.OutputType_DMX
      | 3 => e_OutputType.OutputType_Renard
      | 4 => e_OutputType.OutputType_Serial
      | 5 => e_OutputType.OutputType_Relay
      | 6 => e_OutputType.OutputType_Servo_PCA9685
      | 7 => e_OutputType.OutputType_Disabled
      | 8 => e_OutputType.OutputType_UCS1903
      | k => e_OutputType.OutputType_Other k
    toInt := fun t =>
      match t with
      | e_OutputType.OutputType_WS2811 => 0
      | e_OutputType.OutputType_GECE => 1
      | e_OutputType.OutputType_DMX => 2
      | e_OutputType.OutputType_Renard => 3
      | e_OutputType.OutputType_Serial => 4
      | e_OutputType.OutputType_Relay => 5
      | e_OutputType.OutputType_Servo_PCA9685 => 6
      | e_OutputType.OutputType_Disabled => 7
      | e_OutputType.OutputType_UCS1903 => 8
      | e_OutputType.OutputType_TM1814 => 9
      | e_OutputType.OutputType_WS2801 => 10
      | e_OutputType.OutputType_APA102 => 11
      | e_OutputType.OutputType_Other k => k
    CurrentConfigVersion := 1
    OutputBufferSize := 9000
    OutputChannelIdToGpioAndPort := [(2, 1), (13, 2), (12, 0), (14, 1), (32, 2), (33, 3), (10, -1)] }

/-- A board with the given buffer size and number of slots, otherwise like `GenericESP32`. -/
def BoardWith (OutputBufferSize slots : Nat) : Board :=
  { GenericESP32 with OutputBufferSize := OutputBufferSize, OutputChannelId_End := slots }

/-- A WS2811 serial driver in a slot, configured to ask for `need` channels. -/
def DemoDriver (ChannelIndex need : Nat) : c_OutputCommon :=
  { instanceId := ChannelIndex
    driverClass := DriverClass.c_OutputWS2811Uart
    OutputChannelId := ChannelIndex
    DataPin := 2
    UartId := 1
    OutputType := e_OutputType.OutputType_WS2811
    config := [(0, (need : Int))]
    BeginCalls := 1
    pOutputBuffer := none
    OutputBufferSize := 0 }

/-- A running manager whose slot `k` holds `DemoDriver k (needs[k])`. -/
def DemoManager (needs : List Nat) : c_OutputMgr :=
  { HasBeenInitialized := true
    ConfigLoadNeeded := false
    IsOutputPaused := false
    BuildingNewConfig := false
    UsedBufferSize := 0
    pOutputChannelDrivers := (List.range needs.length).map
      (fun k => some (DemoDriver k (needs.getD k 0)))
    IsBooting := false
    ConfigFile := none
    FileSystemWritable := true
    nextInstanceId := needs.length
    trace := [] }

/-- Start offset and length of the slice of every slot, in slot order. -/
def Slices (s : c_OutputMgr) : List (Option Nat × Nat) :=
  s.pOutputChannelDrivers.map (fun x =>
    match x with
    | some d => (d.pOutputBuffer, d.OutputBufferSize)
    | none => (none, 0))

/-- The calls `CreateDriver` appends to the trace, in program order. -/
def CreateDriverEvents (b : Board) (ChannelIndex : Nat) (t : e_OutputType) (StartDriver : Bool)
    (s : c_OutputMgr) : List Event :=
  let c := FactorySwitch b ChannelIndex t
  (match c.diagnostic with
    | FactoryDiagnostic.Quiet => []
    | FactoryDiagnostic.CannotStart =>
      if s.BuildingNewConfig then [] else [Event.Log (LogMsg.CannotStart t ChannelIndex)]
    | FactoryDiagnostic.UnknownType =>
      if s.IsBooting then [] else [Event.Log (LogMsg.UnknownOutputType t ChannelIndex)])
  ++ [Event.New ChannelIndex s.nextInstanceId c.driverClass c.OutputType]
  ++ (if s.IsBooting then [] else [Event.Log (LogMsg.Initialization c.driverClass ChannelIndex)])
  ++ (if StartDriver then [Event.DriverBegin ChannelIndex s.nextInstanceId] else [])

/-- The driver `CreateDriver` leaves in the slot. -/
def CreatedDriver (b : Board) (m : DriverModel) (ChannelIndex : Nat) (t : e_OutputType)
    (StartDriver : Bool) (s : c_OutputMgr) : c_OutputCommon :=
  { NewDriver b m ChannelIndex (FactorySwitch b ChannelIndex t) s.nextInstanceId with
    BeginCalls := if StartDriver then 1 else 0 }

/-- The calls by which `InstantiateNewOutputChannel` shuts down the driver a slot holds. -/
def ShutdownEvents (ChannelIndex : Nat) (s : c_OutputMgr) : List Event :=
  match s.pOutputChannelDrivers.getD ChannelIndex none with
  | some d =>
    (if s.IsBooting then [] else [Event.Log (LogMsg.ShuttingDown d.driverClass ChannelIndex)])
      ++ [Event.Delete ChannelIndex d.instanceId]
  | none => []
/-- Whether a call is `Render ()` on a driver. -/
def Event.isRender : Event → Bool
  | Event.DriverRender _ _ => true
  | _ => false

/-- What every operation of the manager but `Render` and `Begin` leaves as it is: the number
of slots, the flags `HasBeenInitialized` and `IsOutputPaused`, the boot flag and the state
of the file system; the trace only grows, and by no call of `Render ()` on a driver. -/
def Evolves (s s1 : c_OutputMgr) : Prop :=
  s1.pOutputChannelDrivers.length = s.pOutputChannelDrivers.length ∧
  s1.HasBeenInitialized = s.HasBeenInitialized ∧
  s1.IsOutputPaused = s.IsOutputPaused ∧
  s1.IsBooting = s.IsBooting ∧
  s1.FileSystemWritable = s.FileSystemWritable ∧
  ∃ evs, s1.trace = s.trace ++ evs ∧ ∀ e ∈ evs, e.isRender = false

/-- Every driver bound to a slot satisfies `Q` (of the slot index and the driver). -/
def SlotsSatisfy (Q : Nat → c_OutputCommon → Prop) (l : List (Option c_OutputCommon)) : Prop :=
  ∀ (j : Nat) (d : c_OutputCommon), l[j]? = some (some d) → Q j d

/-- A property of the driver of a slot that the factory establishes and that neither
`SetConfig` nor the assignment of a buffer slice disturbs. -/
structure SlotInvariant (b : Board) (m : DriverModel) (Q : Nat → c_OutputCommon → Prop) :
    Prop where
  created : ∀ (i : Nat) (t : e_OutputType) (st : Bool) (s : c_OutputMgr),
    Q i (CreatedDriver b m i t st s)
  config : ∀ (j : Nat) (d : c_OutputCommon) (c : DriverParams), Q j d → Q j { d with config := c }
  buffer : ∀ (j : Nat) (d : c_OutputCommon) (p : Option Nat) (n : Nat),
    Q j d → Q j { d with pOutputBuffer := p, OutputBufferSize := n }

/-- Whether the factory grants the type on the slot: Relay and Servo_PCA9685 on the relay
slot, WS2801 and APA102 on the SPI slot, DMX and GECE on the slots of the UART range (each
where the build supports the type at all); the pixel and the other serial types on the slots
whose peripheral can drive them; Disabled everywhere; a type without a `case` nowhere. -/
def LegalOn (b : Board) (ChannelIndex : Nat) : e_OutputType → Bool
  | e_OutputType.OutputType_Relay =>
    b.SUPPORT_RELAY_OUTPUT && decide (ChannelIndex = b.OutputChannelId_Relay)
  | e_OutputType.OutputType_Servo_PCA9685 =>
    b.SUPPORT_RELAY_OUTPUT && decide (ChannelIndex = b.OutputChannelId_Relay)
  | e_OutputType.OutputType_WS2801 =>
    b.SUPPORT_OutputType_WS2801 && decide (ChannelIndex = b.OutputChannelId_SPI_1)
  | e_OutputType.OutputType_APA102 =>
    b.SUPPORT_OutputType_APA102 && decide (ChannelIndex = b.OutputChannelId_SPI_1)
  | e_OutputType.OutputType_DMX =>
    decide (b.OutputChannelId_UART_FIRST ≤ ChannelIndex ∧
      ChannelIndex ≤ b.OutputChannelId_UART_LAST)
  | e_OutputType.OutputType_GECE =>
    decide (b.OutputChannelId_UART_FIRST ≤ ChannelIndex ∧
      ChannelIndex ≤ b.OutputChannelId_UART_LAST)
  | e_OutputType.OutputType_Serial => b.OM_IS_UART ChannelIndex
  | e_OutputType.OutputType_Renard => b.OM_IS_UART ChannelIndex
  | e_OutputType.OutputType_WS2811 =>
    (b.SUPPORT_RMT_OUTPUT && b.OM_IS_RMT ChannelIndex) || b.OM_IS_UART ChannelIndex
  | e_OutputType.OutputType_UCS1903 =>
    b.SUPPORT_OutputType_UCS1903 &&
      ((b.SUPPORT_RMT && b.OM_IS_RMT ChannelIndex) || b.OM_IS_UART ChannelIndex)
  | e_OutputType.OutputType_TM1814 =>
    b.SUPPORT_OutputType_TM1814 &&
      ((b.SUPPORT_RMT && b.OM_IS_RMT ChannelIndex) || b.OM_IS_UART ChannelIndex)
  | e_OutputType.OutputType_Disabled => true
  | e_OutputType.OutputType_Other _ => false

/-- The driver of slot `j` knows its slot and reports a type that is legal on the slot. -/
def SlotOK (b : Board) (j : Nat) (d : c_OutputCommon) : Prop :=
  d.OutputChannelId = j ∧ LegalOn b j d.OutputType = true

/-- State of a running manager: the array has its `OutputChannelId_End` entries, every slot
holds a driver, and every driver satisfies `SlotOK`. -/
def WellFormed (b : Board) (s : c_OutputMgr) : Prop :=
  s.pOutputChannelDrivers.length = b.OutputChannelId_End ∧
  AllBound s.pOutputChannelDrivers ∧
  SlotsSatisfy (SlotOK b) s.pOutputChannelDrivers

instance (b : Board) (j : Nat) (d : c_OutputCommon) : Decidable (SlotOK b j d) := by
  unfold SlotOK; infer_instance

/-- The check of `SlotsSatisfy (SlotOK b)` slot by slot. -/
def SlotsOKCheck (b : Board) (l : List (Option c_OutputCommon)) : Bool :=
  (List.range l.length).all fun j =>
    match l[j]? with
    | some (some d) => decide (SlotOK b j d)
    | _ => true

instance (b : Board) (l : List (Option c_OutputCommon)) :
    Decidable (SlotsSatisfy (SlotOK b) l) :=
  decidable_of_iff (SlotsOKCheck b l = true) (by
    unfold SlotsOKCheck
    rw [List.all_eq_true]
    constructor
    · intro h j d hj
      have hlt : j < l.length := (List.getElem?_eq_some_iff.mp hj).1
      have := h j (List.mem_range.mpr hlt)
      rw [hj] at this
      exact of_decide_eq_true this
    · intro h j _
      split
      · next d hd => exact decide_eq_true (h j d hd)
      · rfl)

instance (b : Board) (s : c_OutputMgr) : Decidable (WellFormed b s) := by
  unfold WellFormed; infer_instance

/-- The slot whose driver a call constructs, destroys, starts or configures; `none` for
every other call. -/
def Event.binding : Event → Option Nat
  | Event.New ChannelIndex _ _ _ => some ChannelIndex
  | Event.Delete ChannelIndex _ => some ChannelIndex
  | Event.DriverBegin ChannelIndex _ => some ChannelIndex
  | Event.DriverSetConfig ChannelIndex _ _ => some ChannelIndex
  | _ => none

/-- The calls of a trace that construct, destroy, start or configure the driver of slot `k`. -/
def BindingCalls (k : Nat) (evs : List Event) : List Event :=
  evs.filter (fun e => decide (e.binding = some k))

/-- A document in which slot 0 has no entry and slot 1 is given the type code 999. -/
def DocumentWithoutSlot0 : JsonDocument :=
  { output_config := some
      { cfgver := some 1
        MaxChannels := none
        channels := some [(1, { type := some 999, byType := [] })] } }

/-- A document that gives slots 0 and 1 the type code 0 (WS2811) with a section each. -/
def DocumentWS2811 : JsonDocument :=
  { output_config := some
      { cfgver := some 1
        MaxChannels := none
        channels := some
          [(0, { type := some 0, byType := [(0, { driverName := none, params := [(0, 30)] })] }),
           (1, { type := some 0, byType := [(0, { driverName := none, params := [(0, 40)] })] })] } }

/-- The types the drivers of the slots report, in slot order. -/
def BoundTypes (s : c_OutputMgr) : List (Option e_OutputType) :=
  s.pOutputChannelDrivers.map (Option.map c_OutputCommon.OutputType)

/-- A document that asks for WS2811 (type code 0) on slot 0 and for the relay driver (type
code 5) on slot 1. -/
def DocumentRelayOnSlot1 : JsonDocument :=
  { output_config := some
      { cfgver := some 1
        MaxChannels := none
        channels := some
          [(0, { type := some 0, byType := [(0, { driverName := none, params := [(0, 30)] })] }),
           (1, { type := some 5, byType := [(5, { driverName := none, params := [(0, 8)] })] })] } }

/-- The log lines by which the factory reports that it binds `Disabled` in place of the
requested type. -/
def Event.isDiagnostic : Event → Bool
  | Event.Log (LogMsg.CannotStart _ _) => true
  | Event.Log (LogMsg.UnknownOutputType _ _) => true
  | _ => false

/-- First boot without a configuration file, then one pass of `Render`, which reloads the
default document that the boot saved.  The result is a running manager with every slot
disabled. -/
def FirstBoot (b : Board) (m : DriverModel) : Option c_OutputMgr :=
  match Begin b m (Constructed b false none true) with
  | none => none
  | some s => Render b m s

/-- A document is saved with `SetConfig` and the next pass of `Render` applies it.  The
result holds the events of that pass and the state it leaves. -/
def ApplyConfig (b : Board) (m : DriverModel) (doc : JsonDocument) (s : c_OutputMgr) :
    Option (List Event × c_OutputMgr) :=
  match Render b m (SetConfig (some doc) s) with
  | none => none
  | some s1 => some (s1.trace.drop s.trace.length, s1)

/-- A document with a complete entry for slot 0 (type code 0, WS2811) and no entry for
slot 1. -/
def DocumentWithoutSlot1 : JsonDocument :=
  { output_config := some
      { cfgver := some 1
        MaxChannels := none
        channels := some
          [(0, { type := some 0,
                 byType := [(0, { driverName := none, params := [(0, 30)] })] })] } }

/-- A document whose entry for slot 0 has no type code and whose entry for slot 1 has the
type code 0 (WS2811) but no section for that type. -/
def DocumentWithoutTypeAndSection : JsonDocument :=
  { output_config := some
      { cfgver := some 1
        MaxChannels := none
        channels := some
          [(0, { type := none,
                 byType := [(0, { driverName := none, params := [(0, 30)] })] }),
           (1, { type := some 0, byType := [] })] } }

/-- The calls that replace the driver of a slot: a constructor or a destructor. -/
def Event.isReplacement : Event → Bool
  | Event.New _ _ _ _ => true
  | Event.Delete _ _ => true
  | _ => false

/-- What the declaration of `e_OutputType` gives for the types of the bound drivers: each is
an enumerator below `OutputType_End`, and the cast to `int` and back gives the type again. -/
def TypeCodesValid (b : Board) (l : List (Option c_OutputCommon)) : Prop :=
  ∀ d ∈ l.reduceOption, b.toInt d.OutputType < b.OutputType_End ∧
    b.toOutputType (b.toInt d.OutputType) = d.OutputType

instance (b : Board) (l : List (Option c_OutputCommon)) : Decidable (TypeCodesValid b l) := by
  unfold TypeCodesValid; infer_instance

/-- An empty JSON object, into which a configuration is written. -/
def EmptyOutputConfig : JsonOutputConfig :=
  { cfgver := none, MaxChannels := none, channels := none }

/-! ## The UCS1903 serial driver -/

/-- The identifiers of `c_OutputUart::UartDataBitTranslationId_t` that the table of the
UCS1903 serial driver names: one for each value of a group of two intensity bits. -/
inductive UartDataBitTranslationId_t where
  | Uart_DATA_BIT_00_ID
  | Uart_DATA_BIT_01_ID
  | Uart_DATA_BIT_10_ID
  | Uart_DATA_BIT_11_ID
  deriving DecidableEq, Repr

/-- The table `Convert2BitIntensityToUCS1903UartDataStream` of `OutputUCS1903Uart.cpp`: the
pairs `Translation`, `Id` in the order of the source. -/
def Convert2BitIntensityToUCS1903UartDataStream : List (Nat × UartDataBitTranslationId_t) :=
  [(0b00110111, UartDataBitTranslationId_t.Uart_DATA_BIT_00_ID),
   (0b00000111, UartDataBitTranslationId_t.Uart_DATA_BIT_01_ID),
   (0b00110100, UartDataBitTranslationId_t.Uart_DATA_BIT_10_ID),
   (0b00000100, UartDataBitTranslationId_t.Uart_DATA_BIT_11_ID)]

/-- Modelled from the spec: the configuration of a driver layer whose `SetConfig` and
`GetConfig` are not among the sources (the base driver `c_OutputUCS1903` and the serial
engine `c_OutputUart`).  The layer recognises a set of keys and stores a value for each;
`response` is the value its `SetConfig` returns, on which the spec is silent. -/
structure ConfigFields where
  recognised : List Nat
  value : Nat → Int
  response : DriverParams → Bool

/-- Modelled from the spec: `SetConfig` of a layer that is not among the sources.  Every
recognised key that the document holds is taken over; other keys are ignored. -/
def ConfigFields.SetConfig (c : ConfigFields) (jsonConfig : DriverParams) :
    Bool × ConfigFields :=
  (c.response jsonConfig,
    { c with value := fun key =>
        if key ∈ c.recognised then (JsonLookup key jsonConfig).getD (c.value key)
        else c.value key })

/-- Modelled from the spec: `GetConfig` of a layer that is not among the sources.  Every
recognised key is written into the object with its stored value. -/
def ConfigFields.GetConfig (c : ConfigFields) (jsonConfig : DriverParams) : DriverParams :=
  c.recognised.foldl (fun json key => JsonStore key (c.value key) json) jsonConfig

/-- The value `c_OutputUart::TranslateIntensityData_t::TwoToOne` and its alternative. -/
inductive TranslateIntensityData_t where
  | NoTranslation
  | TwoToOne
  deriving DecidableEq, Repr

/-- The value `c_OutputUart::UartDataSize_t::OUTPUT_UART_6N1` (six data bits, no parity, one
stop bit) and the usual eight-bit framing next to it. -/
inductive UartDataSize_t where
  | OUTPUT_UART_6N1
  | OUTPUT_UART_8N1
  deriving DecidableEq, Repr

/-- The fields of `c_OutputUart::OutputUartConfig_t` that `c_OutputUCS1903Uart::Begin`
assigns. -/
structure OutputUartConfig_t where
  ChannelId : Nat
  UartId : Int
  DataPin : Int
  IntensityDataWidth : Nat
  UartDataSize : UartDataSize_t
  TranslateIntensityData : TranslateIntensityData_t
  InvertOutputPolarity : Bool
  deriving DecidableEq, Repr

/-- Modelled from the spec: the state of the serial encoding engine `c_OutputUart`, which is
not among the sources: its configuration layer, the translation table (one serial byte per
2-bit group), the settings it was started with, the read cursor into the buffer slice of the
driver and whether the interrupt-driven drain is enabled. -/
structure c_OutputUart where
  Config : ConfigFields
  Intensity2Uart : UartDataBitTranslationId_t → Nat
  OutputUartConfig : Option OutputUartConfig_t
  ReadCursor : Nat
  DrainEnabled : Bool

/-- Modelled from the spec: `c_OutputUart::SetIntensity2Uart`, which stores one entry of the
translation table. -/
def c_OutputUart.SetIntensity2Uart (u : c_OutputUart) (Translation : Nat)
    (Id : UartDataBitTranslationId_t) : c_OutputUart :=
  { u with Intensity2Uart := fun i => if i = Id then Translation else u.Intensity2Uart i }

/-- The identifier that stands for a 2-bit group. -/
def UartDataBitTranslationId_t.ofGroup : Nat → UartDataBitTranslationId_t
  | 0 => UartDataBitTranslationId_t.Uart_DATA_BIT_00_ID
  | 1 => UartDataBitTranslationId_t.Uart_DATA_BIT_01_ID
  | 2 => UartDataBitTranslationId_t.Uart_DATA_BIT_10_ID
  | _ => UartDataBitTranslationId_t.Uart_DATA_BIT_11_ID

/-- The four 2-bit groups of an intensity byte, most significant pair first. -/
def IntensityGroups (Intensity : Nat) : List Nat :=
  [(Intensity / 64) % 4, (Intensity / 16) % 4, (Intensity / 4) % 4, Intensity % 4]

/-- Modelled from the spec: the translation `TwoToOne` of the serial engine, which is not
among the sources.  An intensity byte is cut into its four 2-bit groups, most significant
pair first; each group is translated through the table on its own and the serial bytes are
sent in that order. -/
def c_OutputUart.Encode (u : c_OutputUart) (Intensity : Nat) : List Nat :=
  (IntensityGroups Intensity).map
    (fun g => u.Intensity2Uart (UartDataBitTranslationId_t.ofGroup g))

/-- The calls of a driver that start a frame, with the time at which they are made. -/
inductive FrameCall where
  | StartNewFrame (now : Nat)
  | ReportNewFrame (now : Nat)
  deriving DecidableEq, Repr

/-- The driver `c_OutputUCS1903Uart`.  `DataPin`, `UartId` and `OutputChannelId` are the
arguments of its constructor; `UCS1903` is the configuration layer of the base class
`c_OutputUCS1903` and `Uart` the serial engine.  The frame timing kept by the base classes
(time of the last frame start, minimum frame duration, the frame counter and the
dropped-frame counter that the spec has `GetStatus` report) is part of the state, as is the
list of the frame calls made so far. -/
structure c_OutputUCS1903Uart where
  OutputChannelId : Nat
  DataPin : Int
  UartId : Int
  UCS1903 : ConfigFields
  Uart : c_OutputUart
  HasBeenInitialized : Bool
  FrameStartTime : Nat
  FrameMinDuration : Nat
  FrameCount : Nat
  DroppedFrameCount : Nat
  calls : List FrameCall

/-- The method `c_OutputUCS1903Uart::Begin`, as far as it concerns the serial engine: the
loop that hands every entry of the table to `SetIntensity2Uart`, the settings given to
`Uart.Begin` and the flag `HasBeenInitialized`.  The macro
`UCS1903_NUM_DATA_BYTES_PER_INTENSITY_BYTE` is a parameter. -/
def c_OutputUCS1903Uart.Begin (UCS1903_NUM_DATA_BYTES_PER_INTENSITY_BYTE : Nat)
    (d : c_OutputUCS1903Uart) : c_OutputUCS1903Uart :=
  let Uart1 := Convert2BitIntensityToUCS1903UartDataStream.foldl
    (fun u CurrentTranslation => u.SetIntensity2Uart CurrentTranslation.1 CurrentTranslation.2)
    d.Uart
  let OutputUartConfig : OutputUartConfig_t :=
    { ChannelId := d.OutputChannelId
      UartId := d.UartId
      DataPin := d.DataPin
      IntensityDataWidth := UCS1903_NUM_DATA_BYTES_PER_INTENSITY_BYTE
      UartDataSize := UartDataSize_t.OUTPUT_UART_6N1
      TranslateIntensityData := TranslateIntensityData_t.TwoToOne
      InvertOutputPolarity := true }
  { d with Uart := { Uart1 with OutputUartConfig := some OutputUartConfig }
           HasBeenInitialized := true }

/-- The method `c_OutputUCS1903Uart::SetConfig`: the document goes to the base driver and
then to the serial engine; the result is the disjunction of their results. -/
def c_OutputUCS1903Uart.SetConfig (d : c_OutputUCS1903Uart) (jsonConfig : DriverParams) :
    Bool × c_OutputUCS1903Uart :=
  let r1 := d.UCS1903.SetConfig jsonConfig
  let r2 := d.Uart.Config.SetConfig jsonConfig
  (r1.1 || r2.1, { d with UCS1903 := r1.2, Uart := { d.Uart with Config := r2.2 } })

/-- The method `c_OutputUCS1903Uart::GetConfig`: the base driver writes its fields into the
object, then the serial engine writes its own. -/
def c_OutputUCS1903Uart.GetConfig (d : c_OutputUCS1903Uart) (jsonConfig : DriverParams) :
    DriverParams :=
  d.Uart.Config.GetConfig (d.UCS1903.GetConfig jsonConfig)

/-- Modelled from the spec: `canRefresh` of the base class, which is not among the sources.
A new frame may start once the minimum inter-frame duration has elapsed since the previous
frame start.  A call that comes earlier is declined and the frame is dropped: the
dropped-frame counter, which `GetStatus` reports, goes up by one. -/
def c_OutputUCS1903Uart.canRefresh (d : c_OutputUCS1903Uart) (now : Nat) :
    Bool × c_OutputUCS1903Uart :=
  if d.FrameMinDuration ≤ now - d.FrameStartTime then (true, d)
  else (false, { d with DroppedFrameCount := d.DroppedFrameCount + 1 })

/-- Modelled from the spec: `StartNewFrame` of the base class, which is not among the
sources.  The read cursor of the engine goes back to the start of the buffer slice and the
interrupt-driven drain is enabled. -/
def c_OutputUCS1903Uart.StartNewFrame (d : c_OutputUCS1903Uart) (now : Nat) :
    c_OutputUCS1903Uart :=
  { d with Uart := { d.Uart with ReadCursor := 0, DrainEnabled := true }
           calls := d.calls ++ [FrameCall.StartNewFrame now] }

/-- Modelled from the spec: `ReportNewFrame` of the base class, which is not among the
sources.  The time of the frame start is recorded and the frame is counted. -/
def c_OutputUCS1903Uart.ReportNewFrame (d : c_OutputUCS1903Uart) (now : Nat) :
    c_OutputUCS1903Uart :=
  { d with FrameStartTime := now
           FrameCount := d.FrameCount + 1
           calls := d.calls ++ [FrameCall.ReportNewFrame now] }

/-- The method `c_OutputUCS1903Uart::Render`, called at the time `now`: it returns at once
without a data pin, returns when `canRefresh ()` declines, and otherwise calls
`StartNewFrame ()` and `ReportNewFrame ()`. -/
def c_OutputUCS1903Uart.Render (d : c_OutputUCS1903Uart) (now : Nat) : c_OutputUCS1903Uart :=
  if d.DataPin = -1 then d
  else
    let r := d.canRefresh now
    if !r.1 then r.2
    else (r.2.StartNewFrame now).ReportNewFrame now

/-- A UCS1903 serial driver on GPIO 2 as its constructor and `Begin` leave it, with a
minimum frame duration of 25000 microseconds; the base driver recognises the keys 1 and 2,
the serial engine the key 3. -/
def DemoUCS1903Uart : c_OutputUCS1903Uart :=
  c_OutputUCS1903Uart.Begin 4
    { OutputChannelId := 0
      DataPin := 2
      UartId := 1
      UCS1903 := { recognised := [1, 2], value := fun _ => 0, response := fun _ => true }
      Uart :=
        { Config := { recognised := [3], value := fun _ => 0, response := fun _ => false }
          Intensity2Uart := fun _ => 0
          OutputUartConfig := none
          ReadCursor := 0
          DrainEnabled := false }
      HasBeenInitialized := false
      FrameStartTime := 0
      FrameMinDuration := 25000
      FrameCount := 0
      DroppedFrameCount := 0
      calls := [] }

/-- The calls by which `UpdateDisplayBufferReferences` hands out the buffer: the slice of a
driver and the report to the input manager. -/
def Event.isBufferCall : Event → Bool
  | Event.SetOutputBufferAddress _ _ _ => true
  | Event.SetOutputBufferSize _ _ _ => true
  | Event.SetBufferInfo _ _ => true
  | _ => false

/-- What a pass of `Render` leaves, as far as the buffer is concerned: the buffer calls and
the `Render` calls on drivers in the order in which they were made, for every slot the
instance bound to it with the start of its slice, and `UsedBufferSize`. -/
structure BufferView where
  calls : List Event
  slices : List (Option (Nat × Option Nat))
  UsedBufferSize : Nat
  deriving DecidableEq, Repr

/-- The buffer view of a manager state. -/
def BufferViewOf (s : c_OutputMgr) : BufferView :=
  { calls := s.trace.filter (fun e => e.isBufferCall || e.isRender)
    slices := s.pOutputChannelDrivers.map (Option.map (fun d => (d.instanceId, d.pOutputBuffer)))
    UsedBufferSize := s.UsedBufferSize }

/-- Two running WS2811 slots with slices of 10 and 20 bytes and a reload pending; the
configuration file is `ConfigFile`. -/
def ReloadPending (ConfigFile : Option JsonDocument) : c_OutputMgr :=
  { DemoManager [10, 20] with
    ConfigLoadNeeded := true
    UsedBufferSize := 30
    ConfigFile := ConfigFile }

/-- The TTGO-T8 board (GPIO_Defs_ESP32_TTGO_T8.hpp).  The header defines the same macros as
the one of the generic ESP32 board (two serial pins, four pulse-train pins,
`SUPPORT_RMT_OUTPUT`, `SUPPORT_RELAY_OUTPUT`), so that the slot table has the same seven
entries, with the pins of this board; but `RMT_LAST` is `OutputChannelId_RMT_3`, where the
generic header has `OutputChannelId_RMT_4`: `OM_IS_RMT` holds on the slots 2 to 4, and
slot 5, the entry of `DEFAULT_RMT_3_GPIO`, is outside the pulse-train range. -/
def TTGO_T8 : Board :=
  { GenericESP32 with
    OM_IS_RMT := fun ChannelIndex => decide (2 ≤ ChannelIndex ∧ ChannelIndex ≤ 4)
    OutputChannelIdToGpioAndPort :=
      [(0, 1), (4, 2), (25, 0), (26, 1), (27, 2), (14, 3), (10, -1)] }

/-- The class and the reported type of the driver of every slot, in slot order. -/
def BoundClasses (s : c_OutputMgr) : List (Option (DriverClass × e_OutputType)) :=
  s.pOutputChannelDrivers.map (Option.map (fun d => (d.driverClass, d.OutputType)))

/-- On the manager as its constructor leaves it, `InstantiateNewOutputChannel (slot, t)` is
called for every slot in turn without starting the drivers, as `CreateNewConfig` does for
every type. -/
def RequestOnEverySlot (b : Board) (m : DriverModel) (t : e_OutputType) :
    Option (List (Option (DriverClass × e_OutputType))) :=
  (InstantiateAll b m t false (Constructed b true none true)).map BoundClasses

/-- Number of data bits of a UART frame. -/
def UartDataSize_t.dataBits : UartDataSize_t → Nat
  | UartDataSize_t.OUTPUT_UART_6N1 => 6
  | UartDataSize_t.OUTPUT_UART_8N1 => 8

/-- What the UART peripheral puts on the line for one byte, slot by slot (`true` is a high
level): the start bit, which is low, the data bits from the least significant on, and the
stop bit, which is high; with inverted output polarity every level is inverted. -/
def LineWaveform (cfg : OutputUartConfig_t) (byte : Nat) : List Bool :=
  let frame := false :: ((List.range cfg.UartDataSize.dataBits).map (fun i => byte.testBit i)
    ++ [true])
  if cfg.InvertOutputPolarity then frame.map (fun level => !level) else frame

/-- The value of the 2-bit group with high bit `h` and low bit `l`. -/
def GroupOfBits (h l : Bool) : Nat :=
  2 * h.toNat + l.toNat

/-- A document whose `output_config` has a `channels` object without any entry. -/
def DocumentWithoutEntries : JsonDocument :=
  { output_config := some { cfgver := some 1, MaxChannels := none, channels := some [] } }

/-- A document whose `output_config` has no `channels` object. -/
def DocumentWithoutChannels : JsonDocument :=
  { output_config := some { cfgver := some 1, MaxChannels := none, channels := none } }

/-- The channel settings used to test the version check: WS2811 (type code 0) with 30
channels on slot 0 and the generic serial driver (type code 4) with 40 channels on slot 1. -/
def ChannelSettings : List (Nat × JsonChannel) :=
  [(0, { type := some 0, byType := [(0, { driverName := none, params := [(0, 30)] })] }),
   (1, { type := some 4, byType := [(4, { driverName := none, params := [(0, 40)] })] })]

/-- A document with `ChannelSettings` and the given `cfgver` (`none`: no `cfgver` at all). -/
def DocumentWithVersion (cfgver : Option Nat) : JsonDocument :=
  { output_config := some
      { cfgver := cfgver, MaxChannels := none, channels := some ChannelSettings } }

/-- The log lines, constructor and destructor calls and `SetConfig` calls on drivers among
the events. -/
def ConfigEffects (evs : List Event) : List Event :=
  evs.filter (fun e =>
    match e with
    | Event.Log LogMsg.IncorrectVersion => true
    | Event.New _ _ _ _ => true
    | Event.Delete _ _ => true
    | Event.DriverSetConfig _ _ _ => true
    | _ => false)

/-! ## The interrupt-enable register of the pulse-train engine -/

/-- The macro `RMT_INT_TX_END`. -/
def RMT_INT_TX_END : Nat := 1

/-- The macro `RMT_INT_RX_END`. -/
def RMT_INT_RX_END : Nat := 2

/-- The macro `RMT_INT_ERROR`. -/
def RMT_INT_ERROR : Nat := 4

/-- The macro `RMT_INT_THR_EVNT`. -/
def RMT_INT_THR_EVNT : Nat := 1 <<< 24

/-- The macro `RMT_INT_TX_END_BIT` for the channel `RmtChannelId`, as a 32-bit value. -/
def RMT_INT_TX_END_BIT (RmtChannelId : Nat) : Nat :=
  (RMT_INT_TX_END <<< (RmtChannelId * 3)) % 4294967296

/-- The macro `RMT_INT_RX_END_BIT` for the channel `RmtChannelId`, as a 32-bit value. -/
def RMT_INT_RX_END_BIT (RmtChannelId : Nat) : Nat :=
  (RMT_INT_RX_END <<< (RmtChannelId * 3)) % 4294967296

/-- The macro `RMT_INT_ERROR_BIT` for the channel `RmtChannelId`, as a 32-bit value. -/
def RMT_INT_ERROR_BIT (RmtChannelId : Nat) : Nat :=
  (RMT_INT_ERROR <<< (RmtChannelId * 3)) % 4294967296

/-- The macro `RMT_INT_THR_EVNT_BIT` for the channel `RmtChannelId`, as a 32-bit value. -/
def RMT_INT_THR_EVNT_BIT (RmtChannelId : Nat) : Nat :=
  (RMT_INT_THR_EVNT <<< RmtChannelId) % 4294967296

/-- The macro `DisableInterrupts`: the new value of `RMT.int_ena.val`.  The complement is
taken in 32 bits. -/
def DisableInterrupts (int_ena RmtChannelId : Nat) : Nat :=
  int_ena &&&
    (4294967295 ^^^ (RMT_INT_TX_END_BIT RmtChannelId ||| RMT_INT_THR_EVNT_BIT RmtChannelId))

/-- The macro `EnableInterrupts`: the new value of `RMT.int_ena.val`. -/
def EnableInterrupts (int_ena RmtChannelId : Nat) : Nat :=
  (int_ena ||| (RMT_INT_TX_END_BIT RmtChannelId ||| RMT_INT_THR_EVNT_BIT RmtChannelId))
    % 4294967296

/-- The method `c_OutputRmt::NoFrameInProgress`, for the register value `int_ena`. -/
def NoFrameInProgress (int_ena RmtChannelId : Nat) : Bool :=
  decide (0 = int_ena &&&
    (RMT_INT_TX_END_BIT RmtChannelId ||| RMT_INT_THR_EVNT_BIT RmtChannelId))

/-- The bits of the register that belong to a channel: TX-end, RX-end, error and
threshold. -/
def RmtChannelBits (RmtChannelId : Nat) : Nat :=
  RMT_INT_TX_END_BIT RmtChannelId ||| RMT_INT_RX_END_BIT RmtChannelId |||
    RMT_INT_ERROR_BIT RmtChannelId ||| RMT_INT_THR_EVNT_BIT RmtChannelId

/-! ## Configuration documents of the inputs and of the network -/

/-- A scalar value of a JSON object. -/
inductive JsonValue where
  | str (s : String)
  | num (n : Nat)
  | bool (b : Bool)
  deriving DecidableEq, Repr

/-- The key constants `CN_...` that the MQTT input, the network manager and the network
drivers use.  The texts behind them are defined outside the sources; different constants
stand for different keys. -/
inductive ConstName where
  | CN_ip | CN_port | CN_user | CN_password | CN_topic | CN_clean | CN_hadisco | CN_haprefix
  | CN_effects | CN_play
  | CN_network | CN_hostname | CN_wifi | CN_eth | CN_weus
  | CN_ssid | CN_passphrase | CN_netmask | CN_gateway | CN_dhcp | CN_sta_timeout
  | CN_ap_fallback | CN_ap_timeout | CN_ap_reboot
  deriving DecidableEq, Repr

/-- A JSON object with scalar members, in the order in which the keys were first written. -/
abbrev JsonObject := List (ConstName × JsonValue)

/-- The member `Json[Name]`, if the object has the key. -/
def JsonObject.get? (Json : JsonObject) (Name : ConstName) : Option JsonValue :=
  match Json with
  | [] => none
  | (k, v) :: rest => if k = Name then some v else JsonObject.get? rest Name

/-- The assignment `Json[Name] = v`. -/
def JsonObject.set (Json : JsonObject) (Name : ConstName) (v : JsonValue) : JsonObject :=
  match Json with
  | [] => [(Name, v)]
  | (k, w) :: rest => if k = Name then (k, v) :: rest else (k, w) :: JsonObject.set rest Name v

/-- The conversions of the JSON library from a member to a C++ value. -/
structure JsonConvert where
  asString : JsonValue → String
  asUInt : JsonValue → Nat
  asBool : JsonValue → Bool

/-- Conversions for examples: a value of the right kind is taken as it is. -/
def DemoConvert : JsonConvert :=
  { asString := fun v => match v with
      | JsonValue.str s => s
      | _ => ""
    asUInt := fun v => match v with
      | JsonValue.num n => n
      | _ => 0
    asBool := fun v => match v with
      | JsonValue.bool b => b
      | _ => false }

/-- The helper `setFromJSON (OutValue, Json, Name)`: when the object has the key, the member
is converted and stored; the result says whether the stored value changed. -/
def setFromJSON {α : Type} [DecidableEq α] (conv : JsonValue → α) (OutValue : α)
    (Json : JsonObject) (Name : ConstName) : Bool × α :=
  match Json.get? Name with
  | none => (false, OutValue)
  | some v => (decide (conv v ≠ OutValue), conv v)

/-- The calls the MQTT input makes on its client and on the log. -/
inductive MqttCall where
  | unsubscribe (topic : String)
  | unsubscribeSet (topic : String)
  | setCleanSession (clean : Bool)
  | setCredentials (user password : String)
  | setServer (ip : String) (port : Nat)
  | logConnecting (ip : String) (port : Nat)
  | connect
  deriving DecidableEq, Repr

/-- The configuration of `c_InputMQTT` and the calls it has made. -/
structure c_InputMQTT where
  ip : String
  port : Nat
  user : String
  password : String
  topic : String
  CleanSessionRequired : Bool
  hadisco : Bool
  haprefix : String
  calls : List MqttCall
  deriving DecidableEq, Repr

/-- The method `c_InputMQTT::GetConfig`. -/
def c_InputMQTT.GetConfig (d : c_InputMQTT) (jsonConfig : JsonObject) : JsonObject :=
  let j1 := jsonConfig.set ConstName.CN_user (JsonValue.str d.user)
  let j2 := j1.set ConstName.CN_password (JsonValue.str d.password)
  let j3 := j2.set ConstName.CN_topic (JsonValue.str d.topic)
  let j4 := j3.set ConstName.CN_clean (JsonValue.bool d.CleanSessionRequired)
  let j5 := j4.set ConstName.CN_hadisco (JsonValue.bool d.hadisco)
  let j6 := j5.set ConstName.CN_haprefix (JsonValue.str d.haprefix)
  let j7 := j6.set ConstName.CN_effects (JsonValue.bool true)
  j7.set ConstName.CN_play (JsonValue.bool true)

/-- The method `c_InputMQTT::connectToMqtt`. -/
def c_InputMQTT.connectToMqtt (d : c_InputMQTT) : c_InputMQTT :=
  let c1 := d.calls ++ [MqttCall.setCleanSession d.CleanSessionRequired]
  let c2 := if 0 < d.user.length then c1 ++ [MqttCall.setCredentials d.user d.password] else c1
  { d with calls := c2 ++ [MqttCall.setServer d.ip d.port, MqttCall.logConnecting d.ip d.port,
                           MqttCall.connect] }

/-- The method `c_InputMQTT::SetConfig`, called while `NetworkMgr.IsConnected ()` has the
value `NetworkIsConnected`: the value it returns, the document as it leaves it (the method
writes its configuration back into the document) and the state.  The port is a 16-bit
value; `validateConfiguration` is empty. -/
def c_InputMQTT.SetConfig (cv : JsonConvert) (NetworkIsConnected : Bool) (d : c_InputMQTT)
    (jsonConfig : JsonObject) : Bool × JsonObject × c_InputMQTT :=
  let OldTopic := d.topic
  let d1 : c_InputMQTT :=
    { d with
      ip := (setFromJSON cv.asString d.ip jsonConfig ConstName.CN_ip).2
      port := (setFromJSON (fun v => cv.asUInt v % 65536) d.port jsonConfig ConstName.CN_port).2
      user := (setFromJSON cv.asString d.user jsonConfig ConstName.CN_user).2
      password := (setFromJSON cv.asString d.password jsonConfig ConstName.CN_password).2
      topic := (setFromJSON cv.asString d.topic jsonConfig ConstName.CN_topic).2
      CleanSessionRequired :=
        (setFromJSON cv.asBool d.CleanSessionRequired jsonConfig ConstName.CN_clean).2
      hadisco := (setFromJSON cv.asBool d.hadisco jsonConfig ConstName.CN_hadisco).2
      haprefix := (setFromJSON cv.asString d.haprefix jsonConfig ConstName.CN_haprefix).2 }
  let jsonConfig1 := d1.GetConfig jsonConfig
  let d2 : c_InputMQTT :=
    if OldTopic ≠ d1.topic then
      { d1 with calls := d1.calls ++ [MqttCall.unsubscribe OldTopic,
                                      MqttCall.unsubscribeSet OldTopic] }
    else d1
  (true, jsonConfig1, if NetworkIsConnected then d2.connectToMqtt else d2)

/-- An MQTT input before it is configured. -/
def DemoMQTT : c_InputMQTT :=
  { ip := ""
    port := 1883
    user := ""
    password := ""
    topic := "forkineye/esps"
    CleanSessionRequired := false
    hadisco := false
    haprefix := "homeassistant"
    calls := [] }

/-- A configuration document for the MQTT input: broker 10.0.0.5, port 1884. -/
def DocumentMQTT : JsonObject :=
  [(ConstName.CN_ip, JsonValue.str "10.0.0.5"),
   (ConstName.CN_port, JsonValue.num 1884),
   (ConstName.CN_user, JsonValue.str "pixel"),
   (ConstName.CN_password, JsonValue.str "secret"),
   (ConstName.CN_topic, JsonValue.str "show/tree"),
   (ConstName.CN_clean, JsonValue.bool true),
   (ConstName.CN_hadisco, JsonValue.bool true),
   (ConstName.CN_haprefix, JsonValue.str "ha")]

/-! ## The network manager and the network drivers -/

/-- What the build and the surroundings fix for the network code: whether `SUPPORT_ETHERNET`
is defined, the conversions of the JSON library, `IPAddress::fromString` (the text of the
address it parses, `none` when the text is no address) and the chip id used for the default
host name. -/
structure NetworkParams where
  SUPPORT_ETHERNET : Bool
  cv : JsonConvert
  fromString : String → Option String
  chipId : String

/-- The states of the Ethernet state machine (the objects `fsm_Eth_state_..._imp`). -/
inductive fsm_Eth_state where
  | Boot
  | PoweringUp
  | ConnectingToEth
  | ConnectedToEth
  | ConnectionFailed
  | DeviceInitFailed
  deriving DecidableEq, Repr

/-- Log lines and calls that leave the network manager and the Ethernet driver. -/
inductive NetCall where
  | LogNoNetworkConfig
  | LogOldStyleWiFi
  | LogNoWiFiSettings
  | LogNoEthernetSettings
  | LogRebootRequired
  | LogEnteringState (state : fsm_Eth_state)
  | LogEthernetConnected
  | LogEthernetReset
  | LogCouldNotDisconnect
  | LogConnecting (how : String)
  | WiFiEnable
  | WiFiDisable
  | WiFiSetHostname (hostname : String)
  | EthSetHostname (hostname : String)
  | AdvertiseNewState
  | ETH_setHostname (hostname : String)
  | ETH_config
  | ETH_begin
  | ETH_start
  | ETH_stop
  | PowerPinLow
  deriving DecidableEq, Repr

/-- The configuration of `c_WiFiDriver`.  An `IPAddress` is kept as its text. -/
structure c_WiFiDriver where
  ssid : String
  passphrase : String
  ip : String
  netmask : String
  gateway : String
  UseDhcp : Bool
  sta_timeout : Nat
  ap_fallbackIsEnabled : Bool
  ap_timeout : Nat
  RebootOnWiFiFailureToConnect : Bool
  deriving DecidableEq, Repr

/-- The state of `c_EthernetDriver`: the state machine, its timers and the configuration.
An `IPAddress` is kept as its text. -/
structure c_EthernetDriver where
  pCurrentFsmState : fsm_Eth_state
  FsmTimerEthStartTime : Nat
  NextPollTime : Nat
  PollInterval : Nat
  HasBeenPreviouslyConfigured : Bool
  ip : String
  netmask : String
  gateway : String
  UseDhcp : Bool
  deriving DecidableEq, Repr

/-- The network manager with the two drivers it owns, the global `reboot` flag and the
calls made so far. -/
structure c_NetworkMgr where
  hostname : String
  ConfigSaveNeeded : Bool
  AllowWiFiAndEthUpSimultaneously : Bool
  IsEthernetConnected : Bool
  WiFiDriver : c_WiFiDriver
  EthernetDriver : c_EthernetDriver
  reboot : Bool
  calls : List NetCall
  deriving DecidableEq, Repr

/-- The object `network` of a configuration document: its scalar members (with the members
of an old style WiFi configuration among them) and the nested objects `wifi` and `eth`. -/
structure JsonNetwork where
  members : JsonObject
  wifi : Option JsonObject
  eth : Option JsonObject
  deriving DecidableEq, Repr

/-- The method `c_WiFiDriver::SetConfig`: the value it returns and the configuration it
leaves. -/
def c_WiFiDriver.SetConfig (p : NetworkParams) (w : c_WiFiDriver) (json : JsonObject) :
    Bool × c_WiFiDriver :=
  let r1 := setFromJSON p.cv.asString w.ssid json ConstName.CN_ssid
  let r2 := setFromJSON p.cv.asString w.passphrase json ConstName.CN_passphrase
  let r3 := setFromJSON p.cv.asString w.ip json ConstName.CN_ip
  let r4 := setFromJSON p.cv.asString w.netmask json ConstName.CN_netmask
  let r5 := setFromJSON p.cv.asString w.gateway json ConstName.CN_gateway
  let r6 := setFromJSON p.cv.asBool w.UseDhcp json ConstName.CN_dhcp
  let r7 := setFromJSON p.cv.asUInt w.sta_timeout json ConstName.CN_sta_timeout
  let r8 := setFromJSON p.cv.asBool w.ap_fallbackIsEnabled json ConstName.CN_ap_fallback
  let r9 := setFromJSON p.cv.asUInt w.ap_timeout json ConstName.CN_ap_timeout
  let r10 := setFromJSON p.cv.asBool w.RebootOnWiFiFailureToConnect json ConstName.CN_ap_reboot
  (r1.1 || r2.1 || r3.1 || r4.1 || r5.1 || r6.1 || r7.1 || r8.1 || r9.1 || r10.1,
    { ssid := r1.2
      passphrase := r2.2
      ip := (p.fromString r3.2).getD w.ip
      netmask := (p.fromString r4.2).getD w.netmask
      gateway := (p.fromString r5.2).getD w.gateway
      UseDhcp := r6.2
      sta_timeout := r7.2
      ap_fallbackIsEnabled := r8.2
      ap_timeout := r9.2
      RebootOnWiFiFailureToConnect := r10.2 })

/-- Appends a call to the calls of the network manager. -/
def c_NetworkMgr.call (c : NetCall) (n : c_NetworkMgr) : c_NetworkMgr :=
  { n with calls := n.calls ++ [c] }

/-- The method `c_EthernetDriver::SetConfig`: the value it returns and the state it
leaves. -/
def c_EthernetDriver.SetConfig (p : NetworkParams) (n : c_NetworkMgr) (json : JsonObject) :
    Bool × c_NetworkMgr :=
  let e := n.EthernetDriver
  let r1 := setFromJSON p.cv.asString e.ip json ConstName.CN_ip
  let r2 := setFromJSON p.cv.asString e.netmask json ConstName.CN_netmask
  let r3 := setFromJSON p.cv.asString e.gateway json ConstName.CN_gateway
  let r4 := setFromJSON p.cv.asBool e.UseDhcp json ConstName.CN_dhcp
  let ConfigChanged := r1.1 || r2.1 || r3.1 || r4.1
  let e1 : c_EthernetDriver :=
    { e with ip := (p.fromString r1.2).getD e.ip
             netmask := (p.fromString r2.2).getD e.netmask
             gateway := (p.fromString r3.2).getD e.gateway
             UseDhcp := r4.2
             HasBeenPreviouslyConfigured := true }
  let n1 := if ConfigChanged && e.HasBeenPreviouslyConfigured
    then { n.call NetCall.LogRebootRequired with reboot := true } else n
  (ConfigChanged, { n1 with EthernetDriver := e1 })

/-- The method `c_NetworkMgr::Validate`. -/
def c_NetworkMgr.Validate (p : NetworkParams) (n : c_NetworkMgr) : Bool × c_NetworkMgr :=
  if n.hostname.length = 0 then (true, { n with hostname := "esps-" ++ p.chipId })
  else (false, n)

/-- The method `c_NetworkMgr::SetWiFiEnable`. -/
def c_NetworkMgr.SetWiFiEnable (n : c_NetworkMgr) : c_NetworkMgr :=
  if !n.AllowWiFiAndEthUpSimultaneously then
    if n.IsEthernetConnected then n.call NetCall.WiFiDisable else n.call NetCall.WiFiEnable
  else n.call NetCall.WiFiEnable

/-- The method `c_NetworkMgr::SetEthernetIsConnected`.  `AdvertiseNewState`, which tells the
other managers, is recorded as a call. -/
def c_NetworkMgr.SetEthernetIsConnected (newState : Bool) (n : c_NetworkMgr) : c_NetworkMgr :=
  if n.IsEthernetConnected ≠ newState then
    ({ n with IsEthernetConnected := newState }.SetWiFiEnable).call NetCall.AdvertiseNewState
  else n

/-- The loop body of `c_NetworkMgr::SetConfig` (the block `do ... while (false)`) for a
document that has the object `network`: the values of `ConfigChanged` and `HostnameChanged`
it leaves, and the state. -/
def c_NetworkMgr.SetConfigBody (p : NetworkParams) (n : c_NetworkMgr) (network : JsonNetwork) :
    Bool × Bool × c_NetworkMgr :=
  let rh := setFromJSON p.cv.asString n.hostname network.members ConstName.CN_hostname
  let HostnameChanged := rh.1
  let n1 := { n with hostname := rh.2 }
  let ConfigChanged := false
  -- the WiFi settings
  let r1 : Bool × c_NetworkMgr :=
    match network.wifi with
    | some networkWiFi =>
      let r := n1.WiFiDriver.SetConfig p networkWiFi
      (ConfigChanged || r.1, { n1 with WiFiDriver := r.2 })
    | none =>
      if (network.members.get? ConstName.CN_ssid).isSome then
        let n2 := { n1.call NetCall.LogOldStyleWiFi with ConfigSaveNeeded := true }
        let r := n2.WiFiDriver.SetConfig p network.members
        (ConfigChanged || r.1, { n2 with WiFiDriver := r.2 })
      else (ConfigChanged, n1.call NetCall.LogNoWiFiSettings)
  if p.SUPPORT_ETHERNET then
    let rw := setFromJSON p.cv.asBool r1.2.AllowWiFiAndEthUpSimultaneously network.members
      ConstName.CN_weus
    let ConfigChanged1 := rw.1
    let n3 := { r1.2 with AllowWiFiAndEthUpSimultaneously := rw.2 }
    let r2 : Bool × c_NetworkMgr :=
      match network.eth with
      | some networkEth =>
        let r := c_EthernetDriver.SetConfig p n3 networkEth
        (ConfigChanged1 || r.1, r.2)
      | none => (ConfigChanged1, n3.call NetCall.LogNoEthernetSettings)
    (r2.1, HostnameChanged, r2.2.SetWiFiEnable)
  else (r1.1, HostnameChanged, r1.2)

/-- The method `c_NetworkMgr::SetConfig`, on a document whose object `network` is `json`
(`none`: the document has no such object). -/
def c_NetworkMgr.SetConfig (p : NetworkParams) (n : c_NetworkMgr) (json : Option JsonNetwork) :
    Bool × c_NetworkMgr :=
  let r : Bool × Bool × c_NetworkMgr :=
    match json with
    | none => (false, false, { n.call NetCall.LogNoNetworkConfig with ConfigSaveNeeded := true })
    | some network => n.SetConfigBody p network
  let v := r.2.2.Validate p
  let HostnameChanged := r.2.1 || v.1
  let n1 := if HostnameChanged then
      let n2 := v.2.call (NetCall.WiFiSetHostname v.2.hostname)
      if p.SUPPORT_ETHERNET then n2.call (NetCall.EthSetHostname v.2.hostname) else n2
    else v.2
  (r.1 || HostnameChanged, n1)

/-- Parameters for examples: addresses are taken as they are written. -/
def DemoNetworkParams (SUPPORT_ETHERNET : Bool) : NetworkParams :=
  { SUPPORT_ETHERNET := SUPPORT_ETHERNET
    cv := DemoConvert
    fromString := fun s => some s
    chipId := "a1b2c3" }

/-- A network manager as the constructors leave it, with a host name already set: the
Ethernet state machine is in `Boot`, nothing is connected. -/
def DemoNetwork : c_NetworkMgr :=
  { hostname := "esps-a1b2c3"
    ConfigSaveNeeded := false
    AllowWiFiAndEthUpSimultaneously := false
    IsEthernetConnected := false
    WiFiDriver :=
      { ssid := "", passphrase := "", ip := "0.0.0.0", netmask := "0.0.0.0",
        gateway := "0.0.0.0", UseDhcp := true, sta_timeout := 15,
        ap_fallbackIsEnabled := true, ap_timeout := 60,
        RebootOnWiFiFailureToConnect := true }
    EthernetDriver :=
      { pCurrentFsmState := fsm_Eth_state.Boot, FsmTimerEthStartTime := 0, NextPollTime := 0,
        PollInterval := 1000, HasBeenPreviouslyConfigured := false, ip := "0.0.0.0",
        netmask := "0.0.0.0", gateway := "0.0.0.0", UseDhcp := true }
    reboot := false
    calls := [] }

/-- A document that changes the WiFi network name and nothing else: same host name, no
`weus`, no `eth` object. -/
def DocumentNewSsid : JsonNetwork :=
  { members := [(ConstName.CN_hostname, JsonValue.str "esps-a1b2c3")]
    wifi := some [(ConstName.CN_ssid, JsonValue.str "workshop"),
                  (ConstName.CN_passphrase, JsonValue.str "lights")]
    eth := none }

/-- The method `c_EthernetDriver::NetworkStateChanged`. -/
def c_EthernetDriver.NetworkStateChanged (NetworkState : Bool) (n : c_NetworkMgr) :
    c_NetworkMgr :=
  n.SetEthernetIsConnected NetworkState

/-- The method `c_EthernetDriver::IsConnected`. -/
def c_EthernetDriver.IsConnected (n : c_NetworkMgr) : Bool :=
  decide (n.EthernetDriver.pCurrentFsmState = fsm_Eth_state.ConnectedToEth)

/-- The method `c_EthernetDriver::SetFsmState`. -/
def c_EthernetDriver.SetFsmState (NewState : fsm_Eth_state) (n : c_NetworkMgr) : c_NetworkMgr :=
  { n with EthernetDriver := { n.EthernetDriver with pCurrentFsmState := NewState } }

/-- The method `c_EthernetDriver::SetFsmStartTime`. -/
def c_EthernetDriver.SetFsmStartTime (NewStartTime : Nat) (n : c_NetworkMgr) : c_NetworkMgr :=
  { n with EthernetDriver := { n.EthernetDriver with FsmTimerEthStartTime := NewStartTime } }

/-- The method `c_EthernetDriver::AnnounceState`. -/
def c_EthernetDriver.AnnounceState (n : c_NetworkMgr) : c_NetworkMgr :=
  n.call (NetCall.LogEnteringState n.EthernetDriver.pCurrentFsmState)

/-- The methods `Init` of the six states; `now` is the value of `millis ()`. -/
def fsm_Eth_state.Init (state : fsm_Eth_state) (now : Nat) (n : c_NetworkMgr) : c_NetworkMgr :=
  match state with
  | fsm_Eth_state.Boot =>
    c_EthernetDriver.SetFsmStartTime now (c_EthernetDriver.SetFsmState fsm_Eth_state.Boot n)
  | fsm_Eth_state.PoweringUp =>
    let n1 := c_EthernetDriver.SetFsmState fsm_Eth_state.PoweringUp n
    let n2 := c_EthernetDriver.AnnounceState n1
    let n3 := c_EthernetDriver.SetFsmStartTime now n2
    n3.call NetCall.PowerPinLow
  | fsm_Eth_state.ConnectingToEth =>
    let n1 := c_EthernetDriver.SetFsmState fsm_Eth_state.ConnectingToEth n
    let n2 := c_EthernetDriver.AnnounceState n1
    c_EthernetDriver.SetFsmStartTime now n2
  | fsm_Eth_state.ConnectedToEth =>
    let n1 := c_EthernetDriver.SetFsmState fsm_Eth_state.ConnectedToEth n
    let n2 := c_EthernetDriver.AnnounceState n1
    let n3 := c_EthernetDriver.SetFsmStartTime now n2
    let n4 := n3.call NetCall.LogEthernetConnected
    c_EthernetDriver.NetworkStateChanged true n4
  | fsm_Eth_state.ConnectionFailed =>
    let n1 := c_EthernetDriver.SetFsmState fsm_Eth_state.ConnectionFailed n
    let n2 := c_EthernetDriver.AnnounceState n1
    let n3 := c_EthernetDriver.NetworkStateChanged false n2
    n3.call NetCall.ETH_stop
  | fsm_Eth_state.DeviceInitFailed =>
    let n1 := c_EthernetDriver.SetFsmState fsm_Eth_state.DeviceInitFailed n
    let n2 := c_EthernetDriver.AnnounceState n1
    c_EthernetDriver.NetworkStateChanged false n2

/-- The method `c_EthernetDriver::SetUpIp`; `AddressIsSet` says whether the interface
already has the configured addresses. -/
def c_EthernetDriver.SetUpIp (AddressIsSet : Bool) (n : c_NetworkMgr) : c_NetworkMgr :=
  if n.EthernetDriver.UseDhcp then n.call (NetCall.LogConnecting "DHCP")
  else if n.EthernetDriver.ip = "0.0.0.0" then n.call (NetCall.LogConnecting "no static IP")
  else if AddressIsSet then n
  else (n.call NetCall.ETH_config).call (NetCall.LogConnecting "static IP")

/-- The method `c_EthernetDriver::StartEth`; `beginOk` is the result of `ETH_m.begin`. -/
def c_EthernetDriver.StartEth (beginOk : Bool) (now : Nat) (n : c_NetworkMgr) : c_NetworkMgr :=
  let n1 := n.call NetCall.ETH_begin
  if beginOk = false then fsm_Eth_state.Init fsm_Eth_state.DeviceInitFailed now n1 else n1

/-- The methods `Poll` of the six states.  Time is a 32-bit count of milliseconds. -/
def fsm_Eth_state.Poll (state : fsm_Eth_state) (beginOk : Bool) (now : Nat) (n : c_NetworkMgr) :
    c_NetworkMgr :=
  match state with
  | fsm_Eth_state.Boot =>
    if 10000 < (now + 4294967296 - n.EthernetDriver.FsmTimerEthStartTime) % 4294967296 then
      fsm_Eth_state.Init fsm_Eth_state.PoweringUp now n
    else n
  | fsm_Eth_state.PoweringUp =>
    c_EthernetDriver.StartEth beginOk now (fsm_Eth_state.Init fsm_Eth_state.ConnectingToEth now n)
  | fsm_Eth_state.ConnectingToEth => n
  | fsm_Eth_state.ConnectedToEth => n
  | fsm_Eth_state.ConnectionFailed =>
    (fsm_Eth_state.Init fsm_Eth_state.ConnectingToEth now n).call NetCall.ETH_start
  | fsm_Eth_state.DeviceInitFailed => n

/-- The methods `OnConnect` of the six states. -/
def fsm_Eth_state.OnConnect (state : fsm_Eth_state) (AddressIsSet : Bool) (n : c_NetworkMgr) :
    c_NetworkMgr :=
  match state with
  | fsm_Eth_state.ConnectingToEth => c_EthernetDriver.SetUpIp AddressIsSet n
  | _ => n

/-- The methods `OnGotIp` of the six states. -/
def fsm_Eth_state.OnGotIp (state : fsm_Eth_state) (now : Nat) (n : c_NetworkMgr) : c_NetworkMgr :=
  match state with
  | fsm_Eth_state.ConnectingToEth => fsm_Eth_state.Init fsm_Eth_state.ConnectedToEth now n
  | _ => n

/-- The methods `OnDisconnect` of the six states. -/
def fsm_Eth_state.OnDisconnect (state : fsm_Eth_state) (now : Nat) (n : c_NetworkMgr) :
    c_NetworkMgr :=
  match state with
  | fsm_Eth_state.ConnectedToEth =>
    c_EthernetDriver.NetworkStateChanged false
      (fsm_Eth_state.Init fsm_Eth_state.ConnectionFailed now n)
  | _ => n

/-- The events `c_EthernetDriver::onEventHandler` is called with. -/
inductive EthHwEvent where
  | ARDUINO_EVENT_ETH_START
  | ARDUINO_EVENT_ETH_CONNECTED
  | ARDUINO_EVENT_ETH_GOT_IP
  | ARDUINO_EVENT_ETH_DISCONNECTED
  | ARDUINO_EVENT_ETH_STOP
  | Other
  deriving DecidableEq, Repr

/-- The method `c_EthernetDriver::onEventHandler`, called at the time `now`. -/
def c_EthernetDriver.onEventHandler (event : EthHwEvent) (AddressIsSet : Bool) (now : Nat)
    (n : c_NetworkMgr) : c_NetworkMgr :=
  match event with
  | EthHwEvent.ARDUINO_EVENT_ETH_START =>
    let n1 := if n.hostname.length ≠ 0 then n.call (NetCall.ETH_setHostname n.hostname) else n
    n1.call (NetCall.LogConnecting n.hostname)
  | EthHwEvent.ARDUINO_EVENT_ETH_CONNECTED =>
    n.EthernetDriver.pCurrentFsmState.OnConnect AddressIsSet n
  | EthHwEvent.ARDUINO_EVENT_ETH_GOT_IP => n.EthernetDriver.pCurrentFsmState.OnGotIp now n
  | EthHwEvent.ARDUINO_EVENT_ETH_DISCONNECTED =>
    n.EthernetDriver.pCurrentFsmState.OnDisconnect now n
  | EthHwEvent.ARDUINO_EVENT_ETH_STOP => n.EthernetDriver.pCurrentFsmState.OnDisconnect now n
  | EthHwEvent.Other => n

/-- The method `c_EthernetDriver::Poll`, called at the time `now`. -/
def c_EthernetDriver.Poll (beginOk : Bool) (now : Nat) (n : c_NetworkMgr) : c_NetworkMgr :=
  if n.EthernetDriver.NextPollTime < now then
    let n1 := { n with EthernetDriver :=
      { n.EthernetDriver with NextPollTime :=
          (n.EthernetDriver.NextPollTime + n.EthernetDriver.PollInterval) % 4294967296 } }
    n1.EthernetDriver.pCurrentFsmState.Poll beginOk now n1
  else n

/-- The method `c_EthernetDriver::reset`; `stopOk` says whether `ETH_m.stop` succeeded. -/
def c_EthernetDriver.reset (stopOk : Bool) (now : Nat) (n : c_NetworkMgr) : c_NetworkMgr :=
  let n1 := c_EthernetDriver.NetworkStateChanged false (n.call NetCall.LogEthernetReset)
  let n2 := n1.call NetCall.ETH_stop
  let n3 := if stopOk then n2 else n2.call NetCall.LogCouldNotDisconnect
  fsm_Eth_state.Init fsm_Eth_state.Boot now n3

/-- What can happen to the Ethernet driver: a hardware event is delivered, `Poll` or `reset`
is called, or `StartEth` is called and `ETH_m.begin` fails.  Each carries the time and the
answers of the hardware. -/
inductive EthInput where
  | Event (event : EthHwEvent) (AddressIsSet : Bool) (now : Nat)
  | Poll (beginOk : Bool) (now : Nat)
  | Reset (stopOk : Bool) (now : Nat)
  | FailedStartEth (now : Nat)
  deriving DecidableEq, Repr

/-- The handler that an input triggers, run to its end. -/
def EthStep (n : c_NetworkMgr) : EthInput → c_NetworkMgr
  | EthInput.Event event AddressIsSet now =>
    c_EthernetDriver.onEventHandler event AddressIsSet now n
  | EthInput.Poll beginOk now => c_EthernetDriver.Poll beginOk now n
  | EthInput.Reset stopOk now => c_EthernetDriver.reset stopOk now n
  | EthInput.FailedStartEth now => c_EthernetDriver.StartEth false now n

/-- The handlers of a sequence of inputs, run one after the other. -/
def EthRun (n : c_NetworkMgr) (inputs : List EthInput) : c_NetworkMgr :=
  inputs.foldl EthStep n

/-! ## Collecting the fragments of a web socket message -/

/-- The event types of `AwsEventType`. -/
inductive AwsEventType where
  | WS_EVT_CONNECT
  | WS_EVT_DISCONNECT
  | WS_EVT_PONG
  | WS_EVT_ERROR
  | WS_EVT_DATA
  deriving DecidableEq, Repr

/-- The fields of `AwsFrameInfo` that `onWsEvent` reads: `isText` says whether `opcode` is
`WS_TEXT`; `index` and `len` are 64-bit values. -/
structure AwsFrameInfo where
  isText : Bool
  index : Nat
  len : Nat
  final : Bool
  deriving DecidableEq, Repr

/-- Calls and log lines of `c_WebMgr::onWsEvent`. -/
inductive WebCall where
  | LogIgnoreBinary
  | LogTooLong
  | LogParseError
  | LogClient (what : String)
  | FeedWDT
  | cleanupClients
  | ProcessXseriesRequests
  | ProcessVseriesRequests
  | ProcessGseriesRequests
  | PauseOutputs
  | deserializeJson
  | ProcessReceivedJsonMessage
  deriving DecidableEq, Repr

/-- The calls that act on a collected message. -/
def WebCall.isRequestHandler : WebCall → Bool
  | WebCall.ProcessXseriesRequests => true
  | WebCall.ProcessVseriesRequests => true
  | WebCall.ProcessGseriesRequests => true
  | WebCall.PauseOutputs => true
  | WebCall.deserializeJson => true
  | WebCall.ProcessReceivedJsonMessage => true
  | _ => false

/-- The part of `c_WebMgr` that `onWsEvent` works on: the bytes of the array
`WebSocketFrameCollectionBuffer` (as many as `sizeof` says) and the calls made so far. -/
structure c_WebMgr where
  WebSocketFrameCollectionBuffer : List Nat
  calls : List WebCall
  deriving DecidableEq, Repr

/-- The call `memcpy (&buffer[index], data, len)`: `none` when it would write past the end
of the array. -/
def memcpy (buffer : List Nat) (index : Nat) (data : List Nat) : Option (List Nat) :=
  if index + data.length ≤ buffer.length then
    some (buffer.take index ++ data ++ buffer.drop (index + data.length))
  else none

/-- The case `WS_EVT_DATA` of `c_WebMgr::onWsEvent`, up to the `break` that leaves the
`switch`.  `data` holds the `len` bytes of the fragment; `parses` says whether
`deserializeJson` accepts the collected text.  The sum `MessageInfo->index + len` is taken in
64 bits.  The macro `WebSocketFrameCollectionBufferSize` is a parameter. -/
def onWsEventData (WebSocketFrameCollectionBufferSize : Nat) (parses : List Nat → Bool)
    (w : c_WebMgr) (MessageInfo : AwsFrameInfo) (data : List Nat) : Option c_WebMgr :=
  let len := data.length
  if MessageInfo.isText = false then
    some { w with calls := w.calls ++ [WebCall.LogIgnoreBinary] }
  else
    let buffer0 := if MessageInfo.index = 0
      then List.replicate w.WebSocketFrameCollectionBuffer.length 0
      else w.WebSocketFrameCollectionBuffer
    let w0 := { w with WebSocketFrameCollectionBuffer := buffer0 }
    if WebSocketFrameCollectionBufferSize < (MessageInfo.index + len) % 18446744073709551616 then
      some { w0 with calls := w0.calls ++ [WebCall.LogTooLong] }
    else
      match memcpy buffer0 MessageInfo.index data with
      | none => none
      | some buffer1 =>
        let w1 := { w0 with WebSocketFrameCollectionBuffer := buffer1 }
        if (MessageInfo.index + len) % 18446744073709551616 ≠ MessageInfo.len then some w1
        else if MessageInfo.final = false then some w1
        else
          let w2 := { w1 with calls := w1.calls ++ [WebCall.FeedWDT] }
          if buffer1.head? = some 88 then
            some { w2 with calls := w2.calls ++ [WebCall.ProcessXseriesRequests] }
          else if buffer1.head? = some 86 then
            some { w2 with calls := w2.calls ++ [WebCall.ProcessVseriesRequests] }
          else if buffer1.head? = some 71 then
            some { w2 with calls := w2.calls ++ [WebCall.ProcessGseriesRequests] }
          else
            let w3 := { w2 with calls := w2.calls ++ [WebCall.PauseOutputs,
                                                     WebCall.deserializeJson] }
            if parses buffer1 = false then
              some { w3 with calls := w3.calls ++ [WebCall.LogParseError] }
            else some { w3 with calls := w3.calls ++ [WebCall.ProcessReceivedJsonMessage] }

/-- The method `c_WebMgr::onWsEvent`. -/
def onWsEvent (WebSocketFrameCollectionBufferSize : Nat) (parses : List Nat → Bool)
    (w : c_WebMgr) (type : AwsEventType) (MessageInfo : AwsFrameInfo) (data : List Nat) :
    Option c_WebMgr :=
  let r : Option c_WebMgr :=
    match type with
    | AwsEventType.WS_EVT_DATA =>
      onWsEventData WebSocketFrameCollectionBufferSize parses w MessageInfo data
    | AwsEventType.WS_EVT_CONNECT =>
      some { w with calls := w.calls ++ [WebCall.cleanupClients, WebCall.LogClient "connect"] }
    | AwsEventType.WS_EVT_DISCONNECT =>
      some { w with calls := w.calls ++ [WebCall.LogClient "disconnect"] }
    | AwsEventType.WS_EVT_PONG => some { w with calls := w.calls ++ [WebCall.LogClient "pong"] }
    | AwsEventType.WS_EVT_ERROR =>
      some { w with calls := w.calls ++ [WebCall.cleanupClients, WebCall.LogClient "error"] }
  r.map (fun w1 => { w1 with calls := w1.calls ++ [WebCall.FeedWDT] })

/-- A web manager with a collection buffer of 17 bytes, all zero. -/
def DemoWebMgr : c_WebMgr :=
  { WebSocketFrameCollectionBuffer := List.replicate 17 0, calls := [] }

/-! ## Pin assignments of the boards -/

/-- The pins of the SD-card interface of a board definition: `SD_CARD_MISO_PIN`,
`SD_CARD_MOSI_PIN`, `SD_CARD_CLK_PIN` and `SD_CARD_CS_PIN`. -/
structure SdCardPins where
  SD_CARD_MISO_PIN : Int
  SD_CARD_MOSI_PIN : Int
  SD_CARD_CLK_PIN : Int
  SD_CARD_CS_PIN : Int
  deriving DecidableEq, Repr

/-- The SD-card pins of GPIO_Defs_ESP32_generic.hpp. -/
def GenericESP32_SdCard : SdCardPins :=
  { SD_CARD_MISO_PIN := 19, SD_CARD_MOSI_PIN := 23, SD_CARD_CLK_PIN := 18, SD_CARD_CS_PIN := 4 }

/-- The SD-card pins of GPIO_Defs_ESP32_TTGO_T8.hpp. -/
def TTGO_T8_SdCard : SdCardPins :=
  { SD_CARD_MISO_PIN := 2, SD_CARD_MOSI_PIN := 15, SD_CARD_CLK_PIN := 14, SD_CARD_CS_PIN := 13 }

/-- The pins of the output slots of a board, in slot order (the first components of the
table `OutputChannelIdToGpioAndPort`), followed by the four SD-card pins. -/
def BoardPins (b : Board) (sd : SdCardPins) : List Int :=
  b.OutputChannelIdToGpioAndPort.map (fun e => e.1) ++
    [sd.SD_CARD_MISO_PIN, sd.SD_CARD_MOSI_PIN, sd.SD_CARD_CLK_PIN, sd.SD_CARD_CS_PIN]

/-! ## The composite document of `CreateNewConfig` -/

/-- The enumerators of `e_OutputType` that the factory has a `case` for. -/
def NamedOutputTypes : List e_OutputType :=
  [e_OutputType.OutputType_WS2811, e_OutputType.OutputType_GECE, e_OutputType.OutputType_DMX,
   e_OutputType.OutputType_Renard, e_OutputType.OutputType_Serial,
   e_OutputType.OutputType_Relay, e_OutputType.OutputType_Servo_PCA9685,
   e_OutputType.OutputType_Disabled, e_OutputType.OutputType_UCS1903,
   e_OutputType.OutputType_TM1814, e_OutputType.OutputType_WS2801,
   e_OutputType.OutputType_APA102]

/-- What the declaration of `e_OutputType` gives for every type that the factory grants on
some slot of the board: its code lies between `OutputType_Start` and `OutputType_End`, and
the cast of the code gives the type again. -/
def EnumeratorsValid (b : Board) : Prop :=
  ∀ t ∈ NamedOutputTypes, ∀ k, k < b.OutputChannelId_End → LegalOn b k t = true →
    b.OutputType_Start ≤ b.toInt t ∧ b.toInt t < b.OutputType_End ∧
      b.toOutputType (b.toInt t) = t

instance (b : Board) : Decidable (EnumeratorsValid b) := by
  unfold EnumeratorsValid; infer_instance

/-- The object `channels[k]` of a document holds, under the code of the type `t`, a section
that a driver of slot `k` reporting the type `t` has written with its `GetConfig`. -/
def HasSection (b : Board) (m : DriverModel) (data : List (Nat × JsonChannel)) (k : Nat)
    (t : e_OutputType) : Prop :=
  ∃ (ch : JsonChannel) (d : c_OutputCommon) (prev : JsonSection),
    JsonLookup k data = some ch ∧ d.OutputChannelId = k ∧ d.OutputType = t ∧
    JsonLookup (b.toInt t) ch.byType = some
      (m.GetConfig d.driverClass d.config { prev with driverName := some d.driverClass })

/-! ## Lemmas on the buffer partition -/

theorem Needed_lt (m : DriverModel) (d : c_OutputCommon) : GetNumChannelsNeeded m d < 65536 := by
  unfold GetNumChannelsNeeded; omega

theorem UpdateDisplayBufferLoop_spec (b : Board) (m : DriverModel) :
    ∀ (l : List (Option c_OutputCommon)) (off : Nat) (tr : List Event),
      (∀ x ∈ l, x ≠ none) → off ≤ b.OutputBufferSize % 65536 →
      ∃ l1 off1 tr1, UpdateDisplayBufferLoop b m l off tr = some (l1, off1, tr1) ∧
        l1.length = l.length ∧ AllBound l1 ∧
        off1 = off + (Granted l1).sum ∧
        off1 ≤ b.OutputBufferSize % 65536 ∧
        (Granted l1).sum = min (Needed m l).sum (b.OutputBufferSize % 65536 - off) ∧
        (∀ (k : Nat) (d1 : c_OutputCommon), l1[k]? = some (some d1) →
          ∃ d : c_OutputCommon, l[k]? = some (some d) ∧
          d1 = { d with
            pOutputBuffer := some (off + ((Granted l1).take k).sum),
            OutputBufferSize := min (GetNumChannelsNeeded m d)
              (b.OutputBufferSize % 65536 - (off + ((Granted l1).take k).sum)) }) := by
  intro l
  induction l with
  | nil =>
    intro off tr _ hoff
    refine ⟨[], off, tr, rfl, rfl, by simp [AllBound], by simp [Granted], hoff,
      by simp [Granted, Needed], ?_⟩
    intro k d1 h; simp at h
  | cons x rest ih =>
    intro off tr hb hoff
    cases x with
    | none => exact absurd rfl (hb none (List.mem_cons_self _ _))
    | some d =>
      have hn := Needed_lt m d
      have hav : (b.OutputBufferSize + 65536 - off) % 65536 = b.OutputBufferSize % 65536 - off := by
        omega
      have hg : min (GetNumChannelsNeeded m d) (b.OutputBufferSize % 65536 - off) ≤
          b.OutputBufferSize % 65536 - off := Nat.min_le_right _ _
      have hoff1 : (off + min (GetNumChannelsNeeded m d) (b.OutputBufferSize % 65536 - off)) % 65536
          = off + min (GetNumChannelsNeeded m d) (b.OutputBufferSize % 65536 - off) := by
        omega
      have hle : off + min (GetNumChannelsNeeded m d) (b.OutputBufferSize % 65536 - off) ≤
          b.OutputBufferSize % 65536 := by omega
      obtain ⟨l1, off1, tr1, hrun, hlen, hall, hsum, hle1, hmin, hslots⟩ :=
        ih (off + min (GetNumChannelsNeeded m d) (b.OutputBufferSize % 65536 - off))
          (if (b.OutputBufferSize + 65536 - off) % 65536 < GetNumChannelsNeeded m d
            then (tr ++ [Event.SetOutputBufferAddress d.OutputChannelId d.instanceId off,
                Event.SetOutputBufferSize d.OutputChannelId d.instanceId
                  (min (GetNumChannelsNeeded m d) ((b.OutputBufferSize + 65536 - off) % 65536))])
              ++ [Event.Log (LogMsg.TooManyOutputChannels (GetNumChannelsNeeded m d))]
            else tr ++ [Event.SetOutputBufferAddress d.OutputChannelId d.instanceId off,
                Event.SetOutputBufferSize d.OutputChannelId d.instanceId
                  (min (GetNumChannelsNeeded m d) ((b.OutputBufferSize + 65536 - off) % 65536))])
          (fun x hx => hb x (List.mem_cons_of_mem _ hx)) hle
      refine ⟨some { d with pOutputBuffer := some off,
                            OutputBufferSize := min (GetNumChannelsNeeded m d)
                              (b.OutputBufferSize % 65536 - off) } :: l1, off1, tr1, ?_, ?_, ?_, ?_, hle1, ?_, ?_⟩
      · simp only [hav] at hrun
        simp only [UpdateDisplayBufferLoop, hav, hoff1, hrun]
      · simp [hlen]
      · intro x hx
        rcases List.mem_cons.mp hx with h | h
        · simp [h]
        · exact hall x h
      · simp only [Granted, List.map_cons, List.sum_cons, GrantedOf] at hsum ⊢
        omega
      · simp only [Granted, Needed, List.map_cons, List.sum_cons, GrantedOf, NeededOf] at hmin ⊢
        omega
      · intro k d1 hk
        cases k with
        | zero =>
          simp only [List.getElem?_cons_zero, Option.some.injEq] at hk
          refine ⟨d, by simp, ?_⟩
          subst hk
          simp [Granted]
        | succ k =>
          simp only [List.getElem?_cons_succ] at hk
          obtain ⟨d0, hd0, hd1⟩ := hslots k d1 hk
          refine ⟨d0, by simpa using hd0, ?_⟩
          rw [hd1]
          simp only [Granted, List.map_cons, List.take_succ_cons, List.sum_cons, GrantedOf,
            Nat.add_assoc]

theorem take_sum_le_take_sum (g : List Nat) :
    ∀ (i j x : Nat), i < j → g[i]? = some x → (g.take i).sum + x ≤ (g.take j).sum := by
  induction g with
  | nil => intro i j x _ h; simp at h
  | cons a rest ih =>
    intro i j x hij h
    cases j with
    | zero => omega
    | succ j =>
      cases i with
      | zero =>
        simp only [List.getElem?_cons_zero, Option.some.injEq] at h
        simp [h]
      | succ i =>
        simp only [List.getElem?_cons_succ] at h
        have := ih i j x (by omega) h
        simp only [List.take_succ_cons, List.sum_cons]
        omega

theorem Granted_getElem? (l : List (Option c_OutputCommon)) (k : Nat) (d : c_OutputCommon)
    (h : l[k]? = some (some d)) : (Granted l)[k]? = some d.OutputBufferSize := by
  simp [Granted, List.getElem?_map, h, GrantedOf]

theorem take_sum_le_sum (g : List Nat) (k : Nat) : (g.take k).sum ≤ g.sum := by
  induction g generalizing k with
  | nil => simp
  | cons a rest ih =>
    cases k with
    | zero => simp
    | succ k => simp only [List.take_succ_cons, List.sum_cons]; have := ih k; omega

theorem UpdateDisplayBufferReferences_spec (b : Board) (m : DriverModel) (s : c_OutputMgr)
    (hbound : AllBound s.pOutputChannelDrivers) :
    ∃ l1 tr1, UpdateDisplayBufferReferences b m s = some
        (emit (Event.SetBufferInfo 0 (Granted l1).sum)
          { s with pOutputChannelDrivers := l1, UsedBufferSize := (Granted l1).sum, trace := tr1 }) ∧
      l1.length = s.pOutputChannelDrivers.length ∧ AllBound l1 ∧
      (Granted l1).sum ≤ b.OutputBufferSize % 65536 ∧
      (Granted l1).sum = min (Needed m s.pOutputChannelDrivers).sum (b.OutputBufferSize % 65536) ∧
      (∀ (k : Nat) (d1 : c_OutputCommon), l1[k]? = some (some d1) →
        ∃ d : c_OutputCommon, s.pOutputChannelDrivers[k]? = some (some d) ∧
          d1 = { d with
            pOutputBuffer := some ((Granted l1).take k).sum,
            OutputBufferSize := min (GetNumChannelsNeeded m d)
              (b.OutputBufferSize % 65536 - ((Granted l1).take k).sum) }) := by
  obtain ⟨l1, off1, tr1, hrun, hlen, hall, hsum, hle1, hmin, hslots⟩ :=
    UpdateDisplayBufferLoop_spec b m s.pOutputChannelDrivers 0 s.trace hbound (Nat.zero_le _)
  simp only [Nat.zero_add, Nat.sub_zero] at hsum hle1 hmin hslots
  subst hsum
  exact ⟨l1, tr1, by simp only [UpdateDisplayBufferReferences, hrun], hlen, hall, hle1, hmin, hslots⟩

/-- C1 (as amended): for every buffer of at most 65535 bytes and every assignment of
channel needs to the slots, `UpdateDisplayBufferReferences` returns, and the granted slice
lengths (the values given to `SetOutputBufferSize`) add up to the smaller of the sum of the
needed counts and the buffer size. -/
theorem UpdateDisplayBufferReferences_granted_sum (b : Board) (m : DriverModel) (s : c_OutputMgr)
    (hsize : b.OutputBufferSize < 65536) (hbound : AllBound s.pOutputChannelDrivers) :
    ∃ s1, UpdateDisplayBufferReferences b m s = some s1 ∧
      (Granted s1.pOutputChannelDrivers).sum =
        min (Needed m s.pOutputChannelDrivers).sum b.OutputBufferSize := by
  obtain ⟨l1, tr1, hrun, _, _, _, hmin, _⟩ := UpdateDisplayBufferReferences_spec b m s hbound
  refine ⟨_, hrun, ?_⟩
  rw [Nat.mod_eq_of_lt hsize] at hmin
  simpa [emit] using hmin

/-- Witness of C1: a 1024-byte buffer and two slots asking for 512 and 600 channels. -/
theorem UpdateDisplayBufferReferences_granted_sum_witness :
    (BoardWith 1024 2).OutputBufferSize < 65536 ∧
    AllBound (DemoManager [512, 600]).pOutputChannelDrivers ∧
    ∃ s1, UpdateDisplayBufferReferences (BoardWith 1024 2) DemoDrivers (DemoManager [512, 600])
        = some s1 ∧
      (Granted s1.pOutputChannelDrivers).sum =
        min (Needed DemoDrivers (DemoManager [512, 600]).pOutputChannelDrivers).sum
          (BoardWith 1024 2).OutputBufferSize :=
  ⟨by decide, by decide,
    UpdateDisplayBufferReferences_granted_sum (BoardWith 1024 2) DemoDrivers
      (DemoManager [512, 600]) (by decide) (by decide)⟩

/-- C1 as stated fails for a buffer of 65536 bytes: the one slot asks for one channel, the
buffer has room for it, and yet nothing is granted, because the remaining room is held in a
16-bit variable. -/
theorem UpdateDisplayBufferReferences_granted_sum_counterexample :
    (UpdateDisplayBufferReferences (BoardWith 65536 1) DemoDrivers (DemoManager [1])).map
        (fun s1 => (Granted s1.pOutputChannelDrivers).sum) = some 0 ∧
      min (Needed DemoDrivers (DemoManager [1]).pOutputChannelDrivers).sum
        (BoardWith 65536 1).OutputBufferSize = 1 := by
  decide
/-- C2: after `UpdateDisplayBufferReferences` (which returns whenever every slot holds a
driver, whatever the buffer size) the slice of slot `k` starts at the sum of the grants of
the slots before `k` and ends inside the buffer; hence an earlier slice ends where or before
a later one starts, the slice of slot `k + 1` starts where that of slot `k` ends, and the
running offset, `UsedBufferSize` at the end, never exceeds the buffer size, so that
`sizeof (OutputBuffer) - OutputBufferOffset` never goes below zero. -/
theorem UpdateDisplayBufferReferences_slices (b : Board) (m : DriverModel) (s : c_OutputMgr)
    (hbound : AllBound s.pOutputChannelDrivers) :
    ∃ s1, UpdateDisplayBufferReferences b m s = some s1 ∧
      s1.pOutputChannelDrivers.length = s.pOutputChannelDrivers.length ∧
      AllBound s1.pOutputChannelDrivers ∧
      (∀ (k : Nat) (d : c_OutputCommon), s1.pOutputChannelDrivers[k]? = some (some d) →
        d.pOutputBuffer = some ((Granted s1.pOutputChannelDrivers).take k).sum ∧
        ((Granted s1.pOutputChannelDrivers).take k).sum + d.OutputBufferSize
          ≤ b.OutputBufferSize) ∧
      (∀ (i j : Nat) (di dj : c_OutputCommon) (oi oj : Nat), i < j →
        s1.pOutputChannelDrivers[i]? = some (some di) →
        s1.pOutputChannelDrivers[j]? = some (some dj) →
        di.pOutputBuffer = some oi → dj.pOutputBuffer = some oj →
        oi + di.OutputBufferSize ≤ oj) ∧
      (∀ (k : Nat) (d dn : c_OutputCommon) (o : Nat),
        s1.pOutputChannelDrivers[k]? = some (some d) →
        s1.pOutputChannelDrivers[k + 1]? = some (some dn) →
        d.pOutputBuffer = some o → dn.pOutputBuffer = some (o + d.OutputBufferSize)) ∧
      s1.UsedBufferSize = (Granted s1.pOutputChannelDrivers).sum ∧
      s1.UsedBufferSize ≤ b.OutputBufferSize := by
  obtain ⟨l1, tr1, hrun, hlen, hall, hle, _, hslots⟩ :=
    UpdateDisplayBufferReferences_spec b m s hbound
  have hmod : b.OutputBufferSize % 65536 ≤ b.OutputBufferSize := Nat.mod_le _ _
  have hstart : ∀ (k : Nat) (d : c_OutputCommon), l1[k]? = some (some d) →
      d.pOutputBuffer = some ((Granted l1).take k).sum ∧
      ((Granted l1).take k).sum + d.OutputBufferSize ≤ b.OutputBufferSize := by
    intro k d hk
    obtain ⟨d0, _, hd⟩ := hslots k d hk
    have h1 := take_sum_le_sum (Granted l1) k
    subst hd
    refine ⟨rfl, ?_⟩
    have h2 : min (GetNumChannelsNeeded m d0)
        (b.OutputBufferSize % 65536 - ((Granted l1).take k).sum)
        ≤ b.OutputBufferSize % 65536 - ((Granted l1).take k).sum := Nat.min_le_right _ _
    show ((Granted l1).take k).sum + min (GetNumChannelsNeeded m d0)
        (b.OutputBufferSize % 65536 - ((Granted l1).take k).sum) ≤ b.OutputBufferSize
    omega
  refine ⟨_, hrun, by simpa [emit] using hlen, by simpa [emit] using hall, ?_, ?_, ?_, ?_, ?_⟩
  · simpa [emit] using hstart
  · intro i j di dj oi oj hij hi hj hoi hoj
    simp only [emit] at hi hj
    have h1 := (hstart i di hi).1
    have h2 := (hstart j dj hj).1
    rw [h1] at hoi; rw [h2] at hoj
    simp only [Option.some.injEq] at hoi hoj
    have := take_sum_le_take_sum (Granted l1) i j di.OutputBufferSize hij
      (Granted_getElem? l1 i di hi)
    omega
  · intro k d dn o hk hn ho
    simp only [emit] at hk hn
    have h1 := (hstart k d hk).1
    have h2 := (hstart (k + 1) dn hn).1
    rw [h1] at ho
    simp only [Option.some.injEq] at ho
    rw [h2, List.take_succ, Granted_getElem? l1 k d hk]
    simp [ho]
  · simp [emit]
  · simp only [emit]; omega

/-- Witness of C2: a buffer of 1024 bytes shared by three slots that ask for 512, 600 and
7 channels. -/
theorem UpdateDisplayBufferReferences_slices_witness :
    AllBound (DemoManager [512, 600, 7]).pOutputChannelDrivers ∧
    ∃ s1, UpdateDisplayBufferReferences (BoardWith 1024 3) DemoDrivers
        (DemoManager [512, 600, 7]) = some s1 ∧
      s1.pOutputChannelDrivers.length = (DemoManager [512, 600, 7]).pOutputChannelDrivers.length ∧
      AllBound s1.pOutputChannelDrivers ∧
      (∀ (k : Nat) (d : c_OutputCommon), s1.pOutputChannelDrivers[k]? = some (some d) →
        d.pOutputBuffer = some ((Granted s1.pOutputChannelDrivers).take k).sum ∧
        ((Granted s1.pOutputChannelDrivers).take k).sum + d.OutputBufferSize
          ≤ (BoardWith 1024 3).OutputBufferSize) ∧
      (∀ (i j : Nat) (di dj : c_OutputCommon) (oi oj : Nat), i < j →
        s1.pOutputChannelDrivers[i]? = some (some di) →
        s1.pOutputChannelDrivers[j]? = some (some dj) →
        di.pOutputBuffer = some oi → dj.pOutputBuffer = some oj →
        oi + di.OutputBufferSize ≤ oj) ∧
      (∀ (k : Nat) (d dn : c_OutputCommon) (o : Nat),
        s1.pOutputChannelDrivers[k]? = some (some d) →
        s1.pOutputChannelDrivers[k + 1]? = some (some dn) →
        d.pOutputBuffer = some o → dn.pOutputBuffer = some (o + d.OutputBufferSize)) ∧
      s1.UsedBufferSize = (Granted s1.pOutputChannelDrivers).sum ∧
      s1.UsedBufferSize ≤ (BoardWith 1024 3).OutputBufferSize :=
  ⟨by decide,
    UpdateDisplayBufferReferences_slices (BoardWith 1024 3) DemoDrivers
      (DemoManager [512, 600, 7]) (by decide)⟩

/-- C3 (as amended): with a buffer of at most 65535 bytes, `UpdateDisplayBufferReferences`
grants the driver of slot `k` exactly the smaller of what it needs and what the buffer has
left after the grants of the slots before `k`; and with a 1024-byte buffer, slots 0 and 1
needing 512 channels each and the other slots none, slot 0 gets offset 0 and length 512,
slot 1 gets offset 512 and length 512, and 1024 bytes are used in total. -/
theorem UpdateDisplayBufferReferences_grant (b : Board) (m : DriverModel) (s : c_OutputMgr)
    (hsize : b.OutputBufferSize < 65536) (hbound : AllBound s.pOutputChannelDrivers) :
    (∃ s1, UpdateDisplayBufferReferences b m s = some s1 ∧
      s1.pOutputChannelDrivers.length = s.pOutputChannelDrivers.length ∧
      AllBound s1.pOutputChannelDrivers ∧
      ∀ (k : Nat) (d1 : c_OutputCommon), s1.pOutputChannelDrivers[k]? = some (some d1) →
        ∃ d : c_OutputCommon, s.pOutputChannelDrivers[k]? = some (some d) ∧
          d1.instanceId = d.instanceId ∧
          d1.OutputBufferSize = min (GetNumChannelsNeeded m d)
            (b.OutputBufferSize - ((Granted s1.pOutputChannelDrivers).take k).sum)) ∧
    (UpdateDisplayBufferReferences (BoardWith 1024 7) DemoDrivers
        (DemoManager [512, 512, 0, 0, 0, 0, 0])).map (fun s1 => (Slices s1, s1.UsedBufferSize))
      = some ([(some 0, 512), (some 512, 512), (some 1024, 0), (some 1024, 0), (some 1024, 0),
          (some 1024, 0), (some 1024, 0)], 1024) := by
  refine ⟨?_, by decide⟩
  obtain ⟨l1, tr1, hrun, hlen, hall, _, _, hslots⟩ :=
    UpdateDisplayBufferReferences_spec b m s hbound
  refine ⟨_, hrun, by simpa [emit] using hlen, by simpa [emit] using hall, ?_⟩
  intro k d1 hk
  simp only [emit] at hk
  obtain ⟨d, hd, hd1⟩ := hslots k d1 hk
  refine ⟨d, hd, ?_, ?_⟩
  · rw [hd1]
  · rw [hd1, Nat.mod_eq_of_lt hsize]; simp [emit]

/-- Witness of C3: a buffer of 1024 bytes shared by two slots that ask for 700 and 600
channels. -/
theorem UpdateDisplayBufferReferences_grant_witness :
    (BoardWith 1024 2).OutputBufferSize < 65536 ∧
    AllBound (DemoManager [700, 600]).pOutputChannelDrivers ∧
    ∃ s1, UpdateDisplayBufferReferences (BoardWith 1024 2) DemoDrivers (DemoManager [700, 600])
        = some s1 ∧
      s1.pOutputChannelDrivers.length = (DemoManager [700, 600]).pOutputChannelDrivers.length ∧
      AllBound s1.pOutputChannelDrivers ∧
      ∀ (k : Nat) (d1 : c_OutputCommon), s1.pOutputChannelDrivers[k]? = some (some d1) →
        ∃ d : c_OutputCommon,
          (DemoManager [700, 600]).pOutputChannelDrivers[k]? = some (some d) ∧
          d1.instanceId = d.instanceId ∧
          d1.OutputBufferSize = min (GetNumChannelsNeeded DemoDrivers d)
            ((BoardWith 1024 2).OutputBufferSize -
              ((Granted s1.pOutputChannelDrivers).take k).sum) :=
  ⟨by decide, by decide,
    (UpdateDisplayBufferReferences_grant (BoardWith 1024 2) DemoDrivers
      (DemoManager [700, 600]) (by decide) (by decide)).1⟩

/-- C3 as stated fails for a buffer of 65636 bytes: slot 0 asks for 200 channels, all 65636
bytes are still free, and the slot is granted 100. -/
theorem UpdateDisplayBufferReferences_grant_counterexample :
    (UpdateDisplayBufferReferences (BoardWith 65636 2) DemoDrivers (DemoManager [200, 0])).map
        Slices = some [(some 0, 100), (some 100, 0)] ∧
      (Needed DemoDrivers (DemoManager [200, 0]).pOutputChannelDrivers) = [200, 0] ∧
      min 200 ((BoardWith 65636 2).OutputBufferSize - 0) = 200 := by
  decide

/-! ## Lemmas on the factory and on loops over the slots -/

theorem CreateDriver_eq (b : Board) (m : DriverModel) (i : Nat) (t : e_OutputType)
    (st : Bool) (s : c_OutputMgr) :
    CreateDriver b m i t st s =
      { s with
        pOutputChannelDrivers := s.pOutputChannelDrivers.set i (some (CreatedDriver b m i t st s))
        nextInstanceId := s.nextInstanceId + 1
        trace := s.trace ++ CreateDriverEvents b i t st s } := by
  cases s with
  | mk hbi cln iop bnc ubs drv boot file wr nid tr =>
    simp only [CreateDriver, CreateDriverEvents, CreatedDriver, FactoryLog, NewDriver, emit, logcon]
    cases hd : (FactorySwitch b i t).diagnostic <;> cases bnc <;> cases boot <;> cases st <;>
      simp

theorem getD_eq_of_getElem? {α : Type} (l : List (Option α)) (i : Nat) (x : Option α)
    (h : l[i]? = some x) : l.getD i none = x := by
  simp [List.getD, h]

theorem Instantiate_spec (b : Board) (m : DriverModel) (i : Nat) (t : e_OutputType)
    (st : Bool) (s : c_OutputMgr) (h : i < s.pOutputChannelDrivers.length) :
    ∃ d1 n1 evs, InstantiateNewOutputChannel b m i t st s =
        some { s with pOutputChannelDrivers := s.pOutputChannelDrivers.set i (some d1)
                      nextInstanceId := n1
                      trace := s.trace ++ evs } ∧
      ((s.pOutputChannelDrivers[i]? = some (some d1) ∧ d1.OutputType = t ∧
          n1 = s.nextInstanceId ∧ evs = []) ∨
       ((∀ d : c_OutputCommon, s.pOutputChannelDrivers[i]? = some (some d) → d.OutputType ≠ t) ∧
          d1 = CreatedDriver b m i t st s ∧ n1 = s.nextInstanceId + 1 ∧
          evs = ShutdownEvents i s ++ CreateDriverEvents b i t st s)) := by
  have hget : s.pOutputChannelDrivers[i]? = some (s.pOutputChannelDrivers.getD i none) := by
    simp [List.getD, List.getElem?_eq_getElem h]
  cases hd : s.pOutputChannelDrivers.getD i none with
  | none =>
    refine ⟨CreatedDriver b m i t st s, s.nextInstanceId + 1,
      ShutdownEvents i s ++ CreateDriverEvents b i t st s, ?_, Or.inr ⟨?_, rfl, rfl, rfl⟩⟩
    · simp only [InstantiateNewOutputChannel, h, if_true, hd, CreateDriver_eq, ShutdownEvents,
        List.nil_append]
    · intro d hd1; rw [hget, hd] at hd1; simp at hd1
  | some d =>
    by_cases ht : d.OutputType = t
    · refine ⟨d, s.nextInstanceId, [], ?_, Or.inl ⟨by rw [hget, hd], ht, rfl, rfl⟩⟩
      have hi : s.pOutputChannelDrivers[i] = some d := by
        have h2 := hget
        rw [hd, List.getElem?_eq_getElem h] at h2
        exact Option.some.inj h2
      have hset : s.pOutputChannelDrivers.set i (some d) = s.pOutputChannelDrivers := by
        apply List.ext_getElem?
        intro j
        by_cases hj : i = j
        · subst hj
          rw [List.getElem?_set_self h, List.getElem?_eq_getElem h, hi]
        · rw [List.getElem?_set_ne hj]
      simp only [InstantiateNewOutputChannel, h, if_true, hd, ht, hset, List.append_nil]
    · refine ⟨CreatedDriver b m i t st s, s.nextInstanceId + 1,
        ShutdownEvents i s ++ CreateDriverEvents b i t st s, ?_, Or.inr ⟨?_, rfl, rfl, rfl⟩⟩
      · simp only [InstantiateNewOutputChannel, h, if_true, hd, ht, if_false, CreateDriver_eq,
          ShutdownEvents, emit, logcon, CreatedDriver, CreateDriverEvents]
        cases hb : s.IsBooting <;> simp [hb, List.set_set]
      · intro d0 hd0; rw [hget, hd] at hd0
        simp only [Option.some.injEq] at hd0
        subst hd0; exact ht

theorem Evolves.log (msg : LogMsg) (s : c_OutputMgr) : Evolves s (logcon msg s) :=
  ⟨rfl, rfl, rfl, rfl, rfl, [Event.Log msg], rfl, by simp [Event.isRender]⟩

theorem ShutdownEvents_not_render (i : Nat) (s : c_OutputMgr) :
    ∀ e ∈ ShutdownEvents i s, e.isRender = false := by
  intro e he
  unfold ShutdownEvents at he
  split at he
  · cases hb : s.IsBooting <;> simp [hb] at he
    · rcases he with rfl | rfl <;> simp [Event.isRender]
    · subst he; simp [Event.isRender]
  · simp at he

theorem CreateDriverEvents_not_render (b : Board) (i : Nat) (t : e_OutputType) (st : Bool)
    (s : c_OutputMgr) : ∀ e ∈ CreateDriverEvents b i t st s, e.isRender = false := by
  intro e he
  unfold CreateDriverEvents at he
  cases hd : (FactorySwitch b i t).diagnostic <;> cases hb : s.IsBooting <;>
    cases hn : s.BuildingNewConfig <;> cases st <;> simp [hd, hb, hn] at he <;>
    rcases he with rfl | rfl | rfl | rfl <;> simp [Event.isRender]

theorem Evolves.refl (s : c_OutputMgr) : Evolves s s :=
  ⟨rfl, rfl, rfl, rfl, rfl, [], by simp, fun e he => absurd he (List.not_mem_nil e)⟩

theorem Evolves.trans {s s1 s2 : c_OutputMgr} (h1 : Evolves s s1) (h2 : Evolves s1 s2) :
    Evolves s s2 := by
  obtain ⟨a1, a2, a3, a4, a5, e1, a6, a7⟩ := h1
  obtain ⟨b1, b2, b3, b4, b5, e2, b6, b7⟩ := h2
  refine ⟨b1.trans a1, b2.trans a2, b3.trans a3, b4.trans a4, b5.trans a5, e1 ++ e2,
    by rw [b6, a6, List.append_assoc], ?_⟩
  intro e he
  rcases List.mem_append.mp he with h | h
  · exact a7 e h
  · exact b7 e h

theorem AllBound_of_forall (l : List (Option c_OutputCommon))
    (h : ∀ j, j < l.length → ∃ d : c_OutputCommon, l[j]? = some (some d)) : AllBound l := by
  intro x hx
  obtain ⟨j, hj, rfl⟩ := List.getElem_of_mem hx
  obtain ⟨d, hd⟩ := h j hj
  rw [List.getElem?_eq_getElem hj] at hd
  intro hnone
  rw [hnone] at hd
  simp at hd

theorem AllBound_getElem? (l : List (Option c_OutputCommon)) (h : AllBound l) (j : Nat)
    (hj : j < l.length) : ∃ d : c_OutputCommon, l[j]? = some (some d) := by
  have hx : l[j] ∈ l := List.getElem_mem hj
  cases hd : l[j] with
  | none => exact absurd hd (h _ hx)
  | some d => exact ⟨d, by rw [List.getElem?_eq_getElem hj, hd]⟩

theorem Instantiate_ok (b : Board) (m : DriverModel) (Q : Nat → c_OutputCommon → Prop)
    (hQ : SlotInvariant b m Q) (i : Nat) (t : e_OutputType) (st : Bool) (s : c_OutputMgr)
    (h : i < s.pOutputChannelDrivers.length) (hs : SlotsSatisfy Q s.pOutputChannelDrivers) :
    ∃ s1, InstantiateNewOutputChannel b m i t st s = some s1 ∧ Evolves s s1 ∧
      SlotsSatisfy Q s1.pOutputChannelDrivers ∧
      (∀ j, j ≠ i → s1.pOutputChannelDrivers[j]? = s.pOutputChannelDrivers[j]?) ∧
      ∃ d : c_OutputCommon, s1.pOutputChannelDrivers[i]? = some (some d) ∧
        (d.OutputType = t ∨ d.OutputType = (FactorySwitch b i t).OutputType) := by
  obtain ⟨d1, n1, evs, hrun, hcase⟩ := Instantiate_spec b m i t st s h
  have hnr : ∀ e ∈ evs, e.isRender = false := by
    rcases hcase with ⟨_, _, _, he⟩ | ⟨_, _, _, he⟩
    · subst he; intro e he; simp at he
    · subst he
      intro e he
      rcases List.mem_append.mp he with he | he
      · exact ShutdownEvents_not_render i s e he
      · exact CreateDriverEvents_not_render b i t st s e he
  refine ⟨_, hrun, ⟨by simp, rfl, rfl, rfl, rfl, evs, rfl, hnr⟩, ?_, ?_, d1, ?_, ?_⟩
  · intro j d hj
    simp only at hj
    by_cases hji : i = j
    · subst hji
      rw [List.getElem?_set_self h] at hj
      simp only [Option.some.injEq] at hj
      subst hj
      rcases hcase with ⟨hold, _, _, _⟩ | ⟨_, hnew, _, _⟩
      · exact hs i d1 hold
      · rw [hnew]; exact hQ.created i t st s
    · rw [List.getElem?_set_ne hji] at hj
      exact hs j d hj
  · intro j hji
    simp only
    rw [List.getElem?_set_ne (Ne.symm hji)]
  · simp only
    rw [List.getElem?_set_self h]
  · rcases hcase with ⟨_, ht, _, _⟩ | ⟨_, hnew, _, _⟩
    · exact Or.inl ht
    · right; rw [hnew]; rfl

theorem InstantiateLoop_ok (b : Board) (m : DriverModel) (Q : Nat → c_OutputCommon → Prop)
    (hQ : SlotInvariant b m Q) (t : e_OutputType) (st : Bool) :
    ∀ (is : List Nat) (s : c_OutputMgr), (∀ j ∈ is, j < s.pOutputChannelDrivers.length) →
      SlotsSatisfy Q s.pOutputChannelDrivers →
      ∃ s1, InstantiateLoop b m t st is s = some s1 ∧ Evolves s s1 ∧
        SlotsSatisfy Q s1.pOutputChannelDrivers ∧
        (∀ j, j ∉ is → s1.pOutputChannelDrivers[j]? = s.pOutputChannelDrivers[j]?) ∧
        (∀ j ∈ is, ∃ d : c_OutputCommon, s1.pOutputChannelDrivers[j]? = some (some d) ∧
          (d.OutputType = t ∨ d.OutputType = (FactorySwitch b j t).OutputType)) := by
  intro is
  induction is with
  | nil =>
    intro s _ hs
    exact ⟨s, rfl, Evolves.refl s, hs, fun _ _ => rfl, fun j hj => absurd hj (List.not_mem_nil j)⟩
  | cons i rest ih =>
    intro s hlt hs
    obtain ⟨s1, hrun1, hev1, hs1, hframe1, d1, hd1, ht1⟩ :=
      Instantiate_ok b m Q hQ i t st s (hlt i (List.mem_cons_self _ _)) hs
    have hlt1 : ∀ j ∈ rest, j < s1.pOutputChannelDrivers.length := by
      intro j hj; rw [hev1.1]; exact hlt j (List.mem_cons_of_mem _ hj)
    obtain ⟨s2, hrun2, hev2, hs2, hframe2, hres2⟩ := ih s1 hlt1 hs1
    refine ⟨s2, by simp only [InstantiateLoop, hrun1, hrun2], hev1.trans hev2, hs2, ?_, ?_⟩
    · intro j hj
      have hji : j ≠ i := fun h => hj (h ▸ List.mem_cons_self _ _)
      have hjr : j ∉ rest := fun h => hj (List.mem_cons_of_mem _ h)
      rw [hframe2 j hjr, hframe1 j hji]
    · intro j hj
      by_cases hjr : j ∈ rest
      · exact hres2 j hjr
      · have hji : j = i := by
          rcases List.mem_cons.mp hj with h | h
          · exact h
          · exact absurd h hjr
        subst hji
        exact ⟨d1, by rw [hframe2 j hjr, hd1], ht1⟩

theorem InstantiateAll_ok (b : Board) (m : DriverModel) (Q : Nat → c_OutputCommon → Prop)
    (hQ : SlotInvariant b m Q) (t : e_OutputType) (st : Bool) (s : c_OutputMgr)
    (hs : SlotsSatisfy Q s.pOutputChannelDrivers) :
    ∃ s1, InstantiateAll b m t st s = some s1 ∧ Evolves s s1 ∧
      SlotsSatisfy Q s1.pOutputChannelDrivers ∧ AllBound s1.pOutputChannelDrivers ∧
      (∀ (j : Nat) (d : c_OutputCommon), s1.pOutputChannelDrivers[j]? = some (some d) →
        (d.OutputType = t ∨ d.OutputType = (FactorySwitch b j t).OutputType)) := by
  obtain ⟨s1, hrun, hev, hs1, _, hres⟩ :=
    InstantiateLoop_ok b m Q hQ t st (List.range s.pOutputChannelDrivers.length) s
      (fun j hj => List.mem_range.mp hj) hs
  refine ⟨s1, hrun, hev, hs1, ?_, ?_⟩
  · apply AllBound_of_forall
    intro j hj
    rw [hev.1] at hj
    obtain ⟨d, hd, _⟩ := hres j (List.mem_range.mpr hj)
    exact ⟨d, hd⟩
  · intro j d hj
    have hlt : j < s.pOutputChannelDrivers.length := by
      have := (List.getElem?_eq_some_iff.mp hj).1
      rw [hev.1] at this; exact this
    obtain ⟨d0, hd0, ht⟩ := hres j (List.mem_range.mpr hlt)
    rw [hd0] at hj
    simp only [Option.some.injEq] at hj
    subst hj; exact ht

theorem FactorySwitch_type (b : Board) (i : Nat) (t : e_OutputType) :
    (FactorySwitch b i t).OutputType = if LegalOn b i t then t else e_OutputType.OutputType_Disabled := by
  cases t
  case OutputType_DMX =>
    by_cases h : b.OutputChannelId_UART_FIRST ≤ i ∧ i ≤ b.OutputChannelId_UART_LAST <;>
      simp [FactorySwitch, LegalOn, FactoryRefused, h]
  case OutputType_GECE =>
    by_cases h : b.OutputChannelId_UART_FIRST ≤ i ∧ i ≤ b.OutputChannelId_UART_LAST <;>
      simp [FactorySwitch, LegalOn, FactoryRefused, h]
  all_goals
    simp only [FactorySwitch, LegalOn, FactoryRefused, FactoryDefault]
    split_ifs <;> simp_all

theorem LegalOn_FactorySwitch (b : Board) (i : Nat) (t : e_OutputType) :
    LegalOn b i (FactorySwitch b i t).OutputType = true := by
  rw [FactorySwitch_type]
  by_cases h : LegalOn b i t = true
  · rw [if_pos h]; exact h
  · rw [if_neg h]; rfl

theorem SlotOK_invariant (b : Board) (m : DriverModel) : SlotInvariant b m (SlotOK b) where
  created := fun i t _ _ => ⟨rfl, LegalOn_FactorySwitch b i t⟩
  config := fun _ _ _ h => h
  buffer := fun _ _ _ _ h => h

/-- C5: in a state whose drivers are bound to slots they are legal on, after
`InstantiateNewOutputChannel (s, t)` the slot holds a driver that reports `t` if `t` is
legal on the slot and Disabled if it is not (`LegalOn`: Relay and Servo_PCA9685 on the relay
slot only, WS2801 and APA102 on the SPI slot only, DMX and GECE on the slots of the UART
range only); the drivers are again bound to slots they are legal on. -/
theorem InstantiateNewOutputChannel_legal (b : Board) (m : DriverModel) (i : Nat)
    (t : e_OutputType) (st : Bool) (s : c_OutputMgr)
    (hi : i < s.pOutputChannelDrivers.length)
    (hs : SlotsSatisfy (SlotOK b) s.pOutputChannelDrivers) :
    ∃ s1 d, InstantiateNewOutputChannel b m i t st s = some s1 ∧
      s1.pOutputChannelDrivers[i]? = some (some d) ∧
      d.OutputType = (if LegalOn b i t then t else e_OutputType.OutputType_Disabled) ∧
      SlotsSatisfy (SlotOK b) s1.pOutputChannelDrivers := by
  obtain ⟨s1, hrun, _, hs1, _, d, hd, ht⟩ :=
    Instantiate_ok b m (SlotOK b) (SlotOK_invariant b m) i t st s hi hs
  refine ⟨s1, d, hrun, hd, ?_, hs1⟩
  rcases ht with ht | ht
  · have hlegal := (hs1 i d hd).2
    rw [ht] at hlegal
    rw [if_pos hlegal, ht]
  · rw [ht, FactorySwitch_type]

/-- Witness of C5: on the generic ESP32 board the relay type is asked for on serial slot 1,
which holds a WS2811 driver. -/
theorem InstantiateNewOutputChannel_legal_witness :
    1 < (DemoManager [10, 20]).pOutputChannelDrivers.length ∧
    SlotsSatisfy (SlotOK GenericESP32) (DemoManager [10, 20]).pOutputChannelDrivers ∧
    ∃ s1 d, InstantiateNewOutputChannel GenericESP32 DemoDrivers 1
        e_OutputType.OutputType_Relay true (DemoManager [10, 20]) = some s1 ∧
      s1.pOutputChannelDrivers[1]? = some (some d) ∧
      d.OutputType = (if LegalOn GenericESP32 1 e_OutputType.OutputType_Relay
        then e_OutputType.OutputType_Relay else e_OutputType.OutputType_Disabled) ∧
      SlotsSatisfy (SlotOK GenericESP32) s1.pOutputChannelDrivers :=
  ⟨by decide, by decide,
    InstantiateNewOutputChannel_legal GenericESP32 DemoDrivers 1 e_OutputType.OutputType_Relay
      true (DemoManager [10, 20]) (by decide) (by decide)⟩

/-! ## Lemmas on the configuration document and on the life cycle -/

theorem JsonLookup_store_self {α : Type} (key : Nat) (v : α) (l : List (Nat × α)) :
    JsonLookup key (JsonStore key v l) = some v := by
  induction l with
  | nil => simp [JsonStore, JsonLookup]
  | cons x rest ih =>
    obtain ⟨k, w⟩ := x
    by_cases h : k = key
    · simp [JsonStore, JsonLookup, h]
    · simp [JsonStore, JsonLookup, h, ih]

theorem JsonLookup_store_ne {α : Type} (key key1 : Nat) (v : α) (l : List (Nat × α))
    (hne : key1 ≠ key) : JsonLookup key1 (JsonStore key v l) = JsonLookup key1 l := by
  induction l with
  | nil => simp [JsonStore, JsonLookup, Ne.symm hne]
  | cons x rest ih =>
    obtain ⟨k, w⟩ := x
    by_cases h : k = key
    · subst h
      simp [JsonStore, JsonLookup, Ne.symm hne]
    · by_cases h1 : k = key1
      · subst h1
        simp [JsonStore, JsonLookup, h]
      · simp [JsonStore, JsonLookup, h, h1, ih]

theorem CreateJsonLoop_types (b : Board) (m : DriverModel) (c : Nat) :
    ∀ (l : List (Option c_OutputCommon)) (data : List (Nat × JsonChannel)), AllBound l →
      (∀ d : c_OutputCommon, some d ∈ l → b.toInt d.OutputType = c) →
      ∃ data1, CreateJsonLoop b m l data = some data1 ∧
        (∀ key, (∃ ch : JsonChannel, JsonLookup key data = some ch ∧ ch.type = some c) →
          ∃ ch : JsonChannel, JsonLookup key data1 = some ch ∧ ch.type = some c) ∧
        (∀ d : c_OutputCommon, some d ∈ l →
          ∃ ch : JsonChannel, JsonLookup d.OutputChannelId data1 = some ch ∧ ch.type = some c) := by
  intro l
  induction l with
  | nil =>
    intro data _ _
    exact ⟨data, rfl, fun _ h => h, fun d hd => absurd hd (List.not_mem_nil _)⟩
  | cons x rest ih =>
    intro data hb ht
    cases x with
    | none => exact absurd rfl (hb none (List.mem_cons_self _ _))
    | some d =>
      have hstep : ∀ key, (∃ ch : JsonChannel, JsonLookup key data = some ch ∧ ch.type = some c) ∨
          key = d.OutputChannelId →
          ∃ ch : JsonChannel, JsonLookup key (CreateJsonChannel b m d data) = some ch ∧
            ch.type = some c := by
        intro key hkey
        by_cases hk : key = d.OutputChannelId
        · subst hk
          refine ⟨_, JsonLookup_store_self _ _ _, ?_⟩
          simp only [ht d (List.mem_cons_self _ _)]
        · rcases hkey with h | h
          · simp only [CreateJsonChannel]
            rw [JsonLookup_store_ne _ _ _ _ hk]
            exact h
          · exact absurd h hk
      obtain ⟨data1, hrun, hkeep, hnew⟩ := ih (CreateJsonChannel b m d data)
        (fun x hx => hb x (List.mem_cons_of_mem _ hx))
        (fun d0 hd0 => ht d0 (List.mem_cons_of_mem _ hd0))
      refine ⟨data1, by simp only [CreateJsonLoop, hrun], ?_, ?_⟩
      · intro key hkey
        exact hkeep key (hstep key (Or.inl hkey))
      · intro d0 hd0
        rcases List.mem_cons.mp hd0 with h | h
        · simp only [Option.some.injEq] at h
          subst h
          exact hkeep _ (hstep _ (Or.inr rfl))
        · exact hnew d0 h

theorem CreateJsonConfig_ok (b : Board) (m : DriverModel) (s : c_OutputMgr)
    (jsonConfig : JsonOutputConfig) (hb : AllBound s.pOutputChannelDrivers) :
    ∃ data, CreateJsonConfig b m s jsonConfig = some { jsonConfig with channels := some data } := by
  have hex : ∀ (l : List (Option c_OutputCommon)) (data : List (Nat × JsonChannel)),
      AllBound l → ∃ data1, CreateJsonLoop b m l data = some data1 := by
    intro l
    induction l with
    | nil => intro data _; exact ⟨data, rfl⟩
    | cons x rest ih =>
      intro data hbl
      cases x with
      | none => exact absurd rfl (hbl none (List.mem_cons_self _ _))
      | some d =>
        obtain ⟨d1, h1⟩ := ih (CreateJsonChannel b m d data)
          (fun x hx => hbl x (List.mem_cons_of_mem _ hx))
        exact ⟨d1, by simp only [CreateJsonLoop, h1]⟩
  obtain ⟨data, hdata⟩ := hex s.pOutputChannelDrivers (jsonConfig.channels.getD []) hb
  exact ⟨data, by simp only [CreateJsonConfig, hdata]⟩

theorem CreateJsonConfig_types (b : Board) (m : DriverModel) (s : c_OutputMgr)
    (jsonConfig : JsonOutputConfig) (c : Nat) (hb : AllBound s.pOutputChannelDrivers)
    (hid : SlotsSatisfy (fun j d => d.OutputChannelId = j) s.pOutputChannelDrivers)
    (ht : ∀ (j : Nat) (d : c_OutputCommon), s.pOutputChannelDrivers[j]? = some (some d) →
      b.toInt d.OutputType = c) :
    ∃ data, CreateJsonConfig b m s jsonConfig = some { jsonConfig with channels := some data } ∧
      ∀ j, j < s.pOutputChannelDrivers.length →
        ∃ ch : JsonChannel, JsonLookup j data = some ch ∧ ch.type = some c := by
  obtain ⟨data1, hrun, _, hnew⟩ := CreateJsonLoop_types b m c s.pOutputChannelDrivers
    (jsonConfig.channels.getD []) hb (by
      intro d hd
      obtain ⟨j, hj, hjd⟩ := List.getElem_of_mem hd
      exact ht j d (by rw [List.getElem?_eq_getElem hj, hjd]))
  refine ⟨data1, by simp only [CreateJsonConfig, hrun], ?_⟩
  intro j hj
  obtain ⟨d, hd⟩ := AllBound_getElem? _ hb j hj
  have hmem : some d ∈ s.pOutputChannelDrivers := by
    have := List.getElem?_eq_some_iff.mp hd
    obtain ⟨h1, h2⟩ := this
    rw [← h2]; exact List.getElem_mem h1
  have := hnew d hmem
  rw [hid j d hd] at this
  exact this

theorem Instantiate_flags (b : Board) (m : DriverModel) (i : Nat) (t : e_OutputType)
    (st : Bool) (s s1 : c_OutputMgr) (h : InstantiateNewOutputChannel b m i t st s = some s1) :
    s1.BuildingNewConfig = s.BuildingNewConfig := by
  by_cases hi : i < s.pOutputChannelDrivers.length
  · obtain ⟨d1, n1, evs, hrun, _⟩ := Instantiate_spec b m i t st s hi
    rw [hrun] at h
    simp only [Option.some.injEq] at h
    rw [← h]
  · simp [InstantiateNewOutputChannel, hi] at h

theorem InstantiateLoop_flags (b : Board) (m : DriverModel) (t : e_OutputType) (st : Bool) :
    ∀ (is : List Nat) (s s1 : c_OutputMgr), InstantiateLoop b m t st is s = some s1 →
      s1.BuildingNewConfig = s.BuildingNewConfig := by
  intro is
  induction is with
  | nil => intro s s1 h; simp only [InstantiateLoop, Option.some.injEq] at h; rw [h]
  | cons i rest ih =>
    intro s s1 h
    simp only [InstantiateLoop] at h
    cases h1 : InstantiateNewOutputChannel b m i t st s with
    | none => rw [h1] at h; simp at h
    | some s2 =>
      rw [h1] at h
      exact (ih s2 s1 h).trans (Instantiate_flags b m i t st s s2 h1)

theorem InstantiateAll_flags (b : Board) (m : DriverModel) (t : e_OutputType) (st : Bool)
    (s s1 : c_OutputMgr) (h : InstantiateAll b m t st s = some s1) :
    s1.BuildingNewConfig = s.BuildingNewConfig :=
  InstantiateLoop_flags b m t st _ s s1 h

theorem SetConfig_evolves (ConfigData : Option JsonDocument) (s : c_OutputMgr) :
    Evolves s (SetConfig ConfigData s) ∧
    (SetConfig ConfigData s).pOutputChannelDrivers = s.pOutputChannelDrivers ∧
    (SetConfig ConfigData s).BuildingNewConfig = s.BuildingNewConfig ∧
    ∃ evs, (SetConfig ConfigData s).trace = s.trace ++ Event.SaveConfigFile ConfigData :: evs := by
  cases s with
  | mk hbi cln iop bnc ubs drv boot file wr nid tr =>
    cases wr
    · refine ⟨⟨rfl, rfl, rfl, rfl, rfl, [Event.SaveConfigFile ConfigData,
        Event.Log LogMsg.ErrorSavingConfigFile], ?_, ?_⟩, rfl, rfl,
        [Event.Log LogMsg.ErrorSavingConfigFile], ?_⟩ <;>
        simp [SetConfig, emit, logcon, Event.isRender]
    · refine ⟨⟨rfl, rfl, rfl, rfl, rfl, [Event.SaveConfigFile ConfigData], ?_, ?_⟩, rfl, rfl,
        [], ?_⟩ <;>
        simp [SetConfig, emit, logcon, Event.isRender]

theorem CreateNewConfigLoop_ok (b : Board) (m : DriverModel) (Q : Nat → c_OutputCommon → Prop)
    (hQ : SlotInvariant b m Q) :
    ∀ (types : List Nat) (s : c_OutputMgr) (doc : JsonOutputConfig),
      SlotsSatisfy Q s.pOutputChannelDrivers →
      ∃ s1 doc1, CreateNewConfigLoop b m types s doc = some (s1, doc1) ∧ Evolves s s1 ∧
        SlotsSatisfy Q s1.pOutputChannelDrivers ∧ s1.BuildingNewConfig = s.BuildingNewConfig := by
  intro types
  induction types with
  | nil => intro s doc hs; exact ⟨s, doc, rfl, Evolves.refl s, hs, rfl⟩
  | cons ty rest ih =>
    intro s doc hs
    obtain ⟨s1, hrun1, hev1, hs1, hb1, _⟩ := InstantiateAll_ok b m Q hQ (b.toOutputType ty) false s hs
    obtain ⟨data, hjson⟩ := CreateJsonConfig_ok b m s1 doc hb1
    obtain ⟨s2, doc2, hrun2, hev2, hs2, hbn2⟩ := ih s1 { doc with channels := some data } hs1
    have hbn1 : s1.BuildingNewConfig = s.BuildingNewConfig :=
      InstantiateAll_flags b m (b.toOutputType ty) false s s1 hrun1
    exact ⟨s2, doc2, by simp only [CreateNewConfigLoop, hrun1, hjson, hrun2], hev1.trans hev2, hs2,
      hbn2.trans hbn1⟩

theorem CreateNewConfig_spec (b : Board) (m : DriverModel) (Q : Nat → c_OutputCommon → Prop)
    (hQ : SlotInvariant b m Q) (s : c_OutputMgr) (hs : SlotsSatisfy Q s.pOutputChannelDrivers) :
    ∃ (s4 : c_OutputMgr) (doc1 : JsonOutputConfig) (data : List (Nat × JsonChannel)),
      Evolves s s4 ∧ AllBound s4.pOutputChannelDrivers ∧
      SlotsSatisfy Q s4.pOutputChannelDrivers ∧
      (∀ (j : Nat) (d : c_OutputCommon), s4.pOutputChannelDrivers[j]? = some (some d) →
        d.OutputType = e_OutputType.OutputType_Disabled) ∧
      CreateJsonConfig b m s4 doc1 = some { doc1 with channels := some data } ∧
      CreateNewConfig b m s = some
        { SetConfig (some { output_config := some { doc1 with channels := some data } }) s4 with
          BuildingNewConfig := true } := by
  have hs2 : SlotsSatisfy Q
      ({ (if s.IsBooting then s else logcon LogMsg.CreatingNewConfig s) with
          BuildingNewConfig := true } : c_OutputMgr).pOutputChannelDrivers := by
    cases hb : s.IsBooting <;> simpa [logcon, emit] using hs
  have hev2 : Evolves s ({ (if s.IsBooting then s else logcon LogMsg.CreatingNewConfig s) with
          BuildingNewConfig := true } : c_OutputMgr) := by
    cases hb : s.IsBooting
    · exact ⟨rfl, rfl, rfl, by simp [logcon, emit, hb], rfl, [Event.Log LogMsg.CreatingNewConfig],
        by simp [logcon, emit], by simp [Event.isRender]⟩
    · exact ⟨rfl, rfl, rfl, by simp [hb], rfl, [], by simp, by simp⟩
  obtain ⟨s3, doc1, hrun3, hev3, hs3, _⟩ := CreateNewConfigLoop_ok b m Q hQ
    (List.range' b.OutputType_Start (b.OutputType_End - b.OutputType_Start)) _
    { cfgver := some b.CurrentConfigVersion, MaxChannels := some b.OutputBufferSize,
      channels := none } hs2
  obtain ⟨s4, hrun4, hev4, hs4, hb4, ht4⟩ :=
    InstantiateAll_ok b m Q hQ e_OutputType.OutputType_Disabled true s3 hs3
  obtain ⟨data, hjson⟩ := CreateJsonConfig_ok b m s4 doc1 hb4
  refine ⟨s4, doc1, data, hev2.trans (hev3.trans hev4), hb4, hs4, ?_, hjson, ?_⟩
  · intro j d hj
    rcases ht4 j d hj with h | h
    · exact h
    · rw [h]; rfl
  · simp only [CreateNewConfig, hrun3, hrun4, hjson]

theorem CreateNewConfig_ok (b : Board) (m : DriverModel) (Q : Nat → c_OutputCommon → Prop)
    (hQ : SlotInvariant b m Q) (s : c_OutputMgr) (hs : SlotsSatisfy Q s.pOutputChannelDrivers) :
    ∃ s1, CreateNewConfig b m s = some s1 ∧ Evolves s s1 ∧ AllBound s1.pOutputChannelDrivers ∧
      SlotsSatisfy Q s1.pOutputChannelDrivers ∧
      (∀ (j : Nat) (d : c_OutputCommon), s1.pOutputChannelDrivers[j]? = some (some d) →
        d.OutputType = e_OutputType.OutputType_Disabled) ∧
      s1.BuildingNewConfig = true := by
  obtain ⟨s4, doc1, data, hev, hb, hs4, ht, _, hrun⟩ := CreateNewConfig_spec b m Q hQ s hs
  obtain ⟨hev5, hdrv, _, _⟩ :=
    SetConfig_evolves (some { output_config := some { doc1 with channels := some data } }) s4
  refine ⟨_, hrun, ?_, ?_, ?_, ?_, rfl⟩
  · have := hev.trans hev5
    exact ⟨this.1, this.2.1, this.2.2.1, this.2.2.2.1, this.2.2.2.2.1, this.2.2.2.2.2⟩
  · simpa [hdrv] using hb
  · simpa [hdrv] using hs4
  · simpa [hdrv] using ht

theorem UpdateDisplayBufferLoop_events (b : Board) (m : DriverModel) (P : Event → Prop)
    (hA : ∀ c i o, P (Event.SetOutputBufferAddress c i o))
    (hS : ∀ c i n, P (Event.SetOutputBufferSize c i n))
    (hL : ∀ n, P (Event.Log (LogMsg.TooManyOutputChannels n))) :
    ∀ (l : List (Option c_OutputCommon)) (off : Nat) (tr : List Event)
      (l2 : List (Option c_OutputCommon)) (off2 : Nat) (tr2 : List Event),
      UpdateDisplayBufferLoop b m l off tr = some (l2, off2, tr2) →
      ∃ evs, tr2 = tr ++ evs ∧ ∀ e ∈ evs, P e := by
  intro l
  induction l with
  | nil =>
    intro off tr l2 off2 tr2 h
    simp only [UpdateDisplayBufferLoop, Option.some.injEq, Prod.mk.injEq] at h
    exact ⟨[], by simp [h.2.2], fun e he => absurd he (List.not_mem_nil _)⟩
  | cons x rest ih =>
    intro off tr l2 off2 tr2 h
    cases x with
    | none => simp [UpdateDisplayBufferLoop] at h
    | some d =>
      simp only [UpdateDisplayBufferLoop] at h
      split at h
      · simp at h
      · next r1 o1 t1 heq =>
        simp only [Option.some.injEq, Prod.mk.injEq] at h
        obtain ⟨evs, hevs, hP⟩ := ih _ _ _ _ _ heq
        rw [← h.2.2, hevs]
        split
        · refine ⟨_, by rw [List.append_assoc, List.append_assoc], ?_⟩
          intro e he
          simp only [List.mem_append, List.mem_cons, List.mem_singleton, List.not_mem_nil,
            or_false] at he
          rcases he with (he | he) | he | he
          · subst he; exact hA _ _ _
          · subst he; exact hS _ _ _
          · subst he; exact hL _
          · exact hP e he
        · refine ⟨_, by rw [List.append_assoc], ?_⟩
          intro e he
          simp only [List.mem_append, List.mem_cons, List.mem_singleton, List.not_mem_nil,
            or_false] at he
          rcases he with (he | he) | he
          · subst he; exact hA _ _ _
          · subst he; exact hS _ _ _
          · exact hP e he

theorem UpdateDisplayBufferReferences_ok (b : Board) (m : DriverModel)
    (Q : Nat → c_OutputCommon → Prop) (hQ : SlotInvariant b m Q) (s : c_OutputMgr)
    (hb : AllBound s.pOutputChannelDrivers) (hs : SlotsSatisfy Q s.pOutputChannelDrivers) :
    ∃ s1, UpdateDisplayBufferReferences b m s = some s1 ∧ Evolves s s1 ∧
      AllBound s1.pOutputChannelDrivers ∧ SlotsSatisfy Q s1.pOutputChannelDrivers ∧
      s1.BuildingNewConfig = s.BuildingNewConfig ∧
      s1.ConfigLoadNeeded = s.ConfigLoadNeeded ∧
      (∀ (k : Nat) (d1 : c_OutputCommon), s1.pOutputChannelDrivers[k]? = some (some d1) →
        ∃ d : c_OutputCommon, s.pOutputChannelDrivers[k]? = some (some d) ∧
          d1 = { d with pOutputBuffer := d1.pOutputBuffer,
                        OutputBufferSize := d1.OutputBufferSize }) := by
  obtain ⟨l1, off1, tr1, hrun, hlen, hall, _, _, _, hslots⟩ :=
    UpdateDisplayBufferLoop_spec b m s.pOutputChannelDrivers 0 s.trace hb (Nat.zero_le _)
  obtain ⟨evs, hevs, hnr⟩ := UpdateDisplayBufferLoop_events b m (fun e => e.isRender = false)
    (fun _ _ _ => rfl) (fun _ _ _ => rfl) (fun _ => rfl) _ _ _ _ _ _ hrun
  refine ⟨emit (Event.SetBufferInfo 0 off1)
      { s with pOutputChannelDrivers := l1, UsedBufferSize := off1, trace := tr1 },
    by simp only [UpdateDisplayBufferReferences, hrun], ?_, ?_, ?_, rfl, rfl, ?_⟩
  · refine ⟨hlen, rfl, rfl, rfl, rfl, evs ++ [Event.SetBufferInfo 0 off1],
      by simp [emit, hevs], ?_⟩
    intro e he
    rcases List.mem_append.mp he with he | he
    · exact hnr e he
    · simp only [List.mem_singleton] at he; subst he; rfl
  · exact hall
  · intro k d1 hk
    simp only [emit] at hk
    obtain ⟨d, hd, hd1⟩ := hslots k d1 hk
    rw [hd1]
    exact hQ.buffer k d _ _ (hs k d hd)
  · intro k d1 hk
    simp only [emit] at hk
    obtain ⟨d, hd, hd1⟩ := hslots k d1 hk
    exact ⟨d, hd, by rw [hd1]⟩

theorem DriverSetConfig_spec (m : DriverModel) (i : Nat) (config : JsonSection) (s : c_OutputMgr)
    (d : c_OutputCommon) (hd : s.pOutputChannelDrivers[i]? = some (some d)) :
    DriverSetConfig m i config s = some
      { s with
        pOutputChannelDrivers := s.pOutputChannelDrivers.set i
          (some { d with config := m.SetConfig d.driverClass d.config config })
        trace := s.trace ++ [Event.DriverSetConfig i d.instanceId config] } := by
  have : s.pOutputChannelDrivers.getD i none = some d := getD_eq_of_getElem? _ _ _ hd
  simp only [DriverSetConfig, this, emit]

theorem AllBound_set (l : List (Option c_OutputCommon)) (i : Nat) (d : c_OutputCommon)
    (h : AllBound l) : AllBound (l.set i (some d)) := by
  intro x hx
  rcases List.mem_or_eq_of_mem_set hx with h1 | h1
  · exact h x h1
  · rw [h1]; simp

theorem Instantiate_allBound (b : Board) (m : DriverModel) (i : Nat) (t : e_OutputType)
    (st : Bool) (s s1 : c_OutputMgr) (hb : AllBound s.pOutputChannelDrivers)
    (h : InstantiateNewOutputChannel b m i t st s = some s1) :
    AllBound s1.pOutputChannelDrivers := by
  by_cases hi : i < s.pOutputChannelDrivers.length
  · obtain ⟨d1, n1, evs, hrun, _⟩ := Instantiate_spec b m i t st s hi
    rw [hrun] at h
    simp only [Option.some.injEq] at h
    rw [← h]
    exact AllBound_set _ _ _ hb
  · simp [InstantiateNewOutputChannel, hi] at h

theorem ProcessChannelLoop_ok (b : Board) (m : DriverModel) (Q : Nat → c_OutputCommon → Prop)
    (hQ : SlotInvariant b m Q) (channels : List (Nat × JsonChannel)) :
    ∀ (is : List Nat) (s : c_OutputMgr), (∀ j ∈ is, j < s.pOutputChannelDrivers.length) →
      AllBound s.pOutputChannelDrivers → SlotsSatisfy Q s.pOutputChannelDrivers →
      ∃ s1, ProcessChannelLoop b m channels is s = some s1 ∧ Evolves s s1 ∧
        AllBound s1.pOutputChannelDrivers ∧ SlotsSatisfy Q s1.pOutputChannelDrivers ∧
        s1.BuildingNewConfig = s.BuildingNewConfig ∧
        s1.ConfigLoadNeeded = s.ConfigLoadNeeded := by
  intro is
  induction is with
  | nil => intro s _ hb hs; exact ⟨s, rfl, Evolves.refl s, hb, hs, rfl, rfl⟩
  | cons i rest ih =>
    intro s hlt hb hs
    have hi := hlt i (List.mem_cons_self _ _)
    have hlog : ∀ msg, Evolves s (logcon msg s) := fun msg => Evolves.log msg s
    -- one pass of the loop body that instantiates a driver in slot `i` from state `s0`
    have hinst : ∀ (t : e_OutputType) (s0 : c_OutputMgr), Evolves s s0 →
        s0.pOutputChannelDrivers = s.pOutputChannelDrivers →
        s0.BuildingNewConfig = s.BuildingNewConfig → s0.ConfigLoadNeeded = s.ConfigLoadNeeded →
        ∃ s1 d, InstantiateNewOutputChannel b m i t true s0 = some s1 ∧ Evolves s s1 ∧
          AllBound s1.pOutputChannelDrivers ∧ SlotsSatisfy Q s1.pOutputChannelDrivers ∧
          s1.BuildingNewConfig = s.BuildingNewConfig ∧
          s1.ConfigLoadNeeded = s.ConfigLoadNeeded ∧
          s1.pOutputChannelDrivers[i]? = some (some d) := by
      intro t s0 hev0 hdrv hbn hcl
      have hi0 : i < s0.pOutputChannelDrivers.length := by rw [hdrv]; exact hi
      obtain ⟨s1, hrun, hev1, hs1, _, d, hd, _⟩ :=
        Instantiate_ok b m Q hQ i t true s0 hi0 (by rw [hdrv]; exact hs)
      refine ⟨s1, d, hrun, hev0.trans hev1, ?_, hs1, ?_, ?_, hd⟩
      · exact Instantiate_allBound b m i t true s0 s1 (by rw [hdrv]; exact hb) hrun
      · exact (Instantiate_flags b m i t true s0 s1 hrun).trans hbn
      · obtain ⟨d1, n1, evs, hrun1, _⟩ := Instantiate_spec b m i t true s0 hi0
        rw [hrun1] at hrun
        simp only [Option.some.injEq] at hrun
        rw [← hrun]; exact hcl
    have hrest : ∀ s1 : c_OutputMgr, Evolves s s1 → AllBound s1.pOutputChannelDrivers →
        SlotsSatisfy Q s1.pOutputChannelDrivers →
        s1.BuildingNewConfig = s.BuildingNewConfig → s1.ConfigLoadNeeded = s.ConfigLoadNeeded →
        ∃ s2, ProcessChannelLoop b m channels rest s1 = some s2 ∧ Evolves s s2 ∧
          AllBound s2.pOutputChannelDrivers ∧ SlotsSatisfy Q s2.pOutputChannelDrivers ∧
          s2.BuildingNewConfig = s.BuildingNewConfig ∧
          s2.ConfigLoadNeeded = s.ConfigLoadNeeded := by
      intro s1 hev1 hb1 hs1 hbn1 hcl1
      obtain ⟨s2, hrun2, hev2, hb2, hs2, hbn2, hcl2⟩ := ih s1
        (fun j hj => by rw [hev1.1]; exact hlt j (List.mem_cons_of_mem _ hj)) hb1 hs1
      exact ⟨s2, hrun2, hev1.trans hev2, hb2, hs2, hbn2.trans hbn1, hcl2.trans hcl1⟩
    cases hch : JsonLookup i channels with
    | none =>
      exact ⟨logcon (LogMsg.NoOutputSettingsForChannel i) s,
        by simp only [ProcessChannelLoop, hch], hlog _, hb, hs, rfl, rfl⟩
    | some cfg =>
      by_cases hty : b.OutputType_End ≤ cfg.type.getD b.OutputType_End
      · obtain ⟨s1, _, hrun1, hev1, hb1, hs1, hbn1, hcl1, _⟩ :=
          hinst e_OutputType.OutputType_Disabled
            (logcon (LogMsg.InvalidChannelType (cfg.type.getD b.OutputType_End) i) s)
            (hlog _) rfl rfl rfl
        obtain ⟨s2, hrun2, hrest2⟩ := hrest s1 hev1 hb1 hs1 hbn1 hcl1
        exact ⟨s2, by simp only [ProcessChannelLoop, hch, hty, if_true, hrun1, hrun2], hrest2⟩
      · cases hsec : JsonLookup (cfg.type.getD b.OutputType_End) cfg.byType with
        | none =>
          obtain ⟨s1, _, hrun1, hev1, hb1, hs1, hbn1, hcl1, _⟩ :=
            hinst e_OutputType.OutputType_Disabled
              (logcon (LogMsg.NoOutputSettingsForChannel i) s) (hlog _) rfl rfl rfl
          obtain ⟨s2, hrun2, hrest2⟩ := hrest s1 hev1 hb1 hs1 hbn1 hcl1
          exact ⟨s2, by simp only [ProcessChannelLoop, hch, hty, if_false, hsec, hrun1, hrun2],
            hrest2⟩
        | some config =>
          obtain ⟨s1, d, hrun1, hev1, hb1, hs1, hbn1, hcl1, hd⟩ :=
            hinst (b.toOutputType (cfg.type.getD b.OutputType_End)) s (Evolves.refl s) rfl rfl rfl
          have hset := DriverSetConfig_spec m i config s1 d hd
          have hev2 : Evolves s1
              { s1 with
                pOutputChannelDrivers := s1.pOutputChannelDrivers.set i
                  (some { d with config := m.SetConfig d.driverClass d.config config })
                trace := s1.trace ++ [Event.DriverSetConfig i d.instanceId config] } :=
            ⟨by simp, rfl, rfl, rfl, rfl, [Event.DriverSetConfig i d.instanceId config], rfl,
              by simp [Event.isRender]⟩
          obtain ⟨s2, hrun2, hrest2⟩ := hrest _ (hev1.trans hev2)
            (AllBound_set _ i _ hb1)
            (by
              intro j d0 hj
              by_cases hji : i = j
              · subst hji
                have hj1 : (s1.pOutputChannelDrivers.set i
                    (some { d with config := m.SetConfig d.driverClass d.config config }))[i]?
                    = some (some d0) := hj
                rw [List.getElem?_set_self (by rw [hev1.1]; exact hi)] at hj1
                simp only [Option.some.injEq] at hj1
                rw [← hj1]
                exact hQ.config i d _ (hs1 i d hd)
              · have hj1 : (s1.pOutputChannelDrivers.set i
                    (some { d with config := m.SetConfig d.driverClass d.config config }))[j]?
                    = some (some d0) := hj
                rw [List.getElem?_set_ne hji] at hj1
                exact hs1 j d0 hj1)
            hbn1 hcl1
          exact ⟨s2, by simp only [ProcessChannelLoop, hch, hty, if_false, hsec, hrun1, hset,
            hrun2], hrest2⟩

theorem ProcessJsonConfigBody_ok (b : Board) (m : DriverModel) (Q : Nat → c_OutputCommon → Prop)
    (hQ : SlotInvariant b m Q) (jsonConfig : JsonDocument) (s : c_OutputMgr)
    (hlen : s.pOutputChannelDrivers.length = b.OutputChannelId_End)
    (hb : AllBound s.pOutputChannelDrivers) (hs : SlotsSatisfy Q s.pOutputChannelDrivers) :
    ∃ r s1, ProcessJsonConfigBody b m jsonConfig s = some (r, s1) ∧ Evolves s s1 ∧
      AllBound s1.pOutputChannelDrivers ∧ SlotsSatisfy Q s1.pOutputChannelDrivers := by
  have hlog : ∀ (msg : LogMsg) (s0 : c_OutputMgr), Evolves s0 (logcon msg s0) :=
    fun msg s0 => Evolves.log msg s0
  cases hcfg : jsonConfig.output_config with
  | none =>
    exact ⟨false, logcon LogMsg.NoOutputInterfaceSettings s,
      by simp only [ProcessJsonConfigBody, hcfg], hlog _ _, hb, hs⟩
  | some data =>
    have hver : ∃ s0 : c_OutputMgr,
        (if data.cfgver.getD (if b.CurrentConfigVersion = 0 then 1 else 0) ≠
            b.CurrentConfigVersion
          then logcon LogMsg.IncorrectVersion s else s) = s0 ∧ Evolves s s0 ∧
        s0.pOutputChannelDrivers = s.pOutputChannelDrivers := by
      by_cases hv : data.cfgver.getD (if b.CurrentConfigVersion = 0 then 1 else 0) ≠
          b.CurrentConfigVersion
      · rw [if_pos hv]; exact ⟨_, rfl, hlog _ _, rfl⟩
      · rw [if_neg hv]; exact ⟨_, rfl, Evolves.refl s, rfl⟩
    obtain ⟨s0, hs0, hev0, hdrv0⟩ := hver
    cases hch : data.channels with
    | none =>
      exact ⟨false, logcon LogMsg.NoOutputChannelSettings s0,
        by simp only [ProcessJsonConfigBody, hcfg, hch, hs0], hev0.trans (hlog _ _),
        by simpa [logcon, emit, hdrv0] using hb, by simpa [logcon, emit, hdrv0] using hs⟩
    | some channels =>
      obtain ⟨s1, hrun, hev1, hb1, hs1, _, _⟩ := ProcessChannelLoop_ok b m Q hQ channels
        (List.range b.OutputChannelId_End) s0
        (fun j hj => by rw [hdrv0, hlen]; exact List.mem_range.mp hj)
        (by rw [hdrv0]; exact hb) (by rw [hdrv0]; exact hs)
      exact ⟨true, s1, by simp only [ProcessJsonConfigBody, hcfg, hch, hs0, hrun],
        hev0.trans hev1, hb1, hs1⟩

theorem ProcessJsonConfig_ok (b : Board) (m : DriverModel) (Q : Nat → c_OutputCommon → Prop)
    (hQ : SlotInvariant b m Q) (jsonConfig : JsonDocument) (s : c_OutputMgr)
    (hlen : s.pOutputChannelDrivers.length = b.OutputChannelId_End)
    (hb : AllBound s.pOutputChannelDrivers) (hs : SlotsSatisfy Q s.pOutputChannelDrivers) :
    ∃ r s1, ProcessJsonConfig b m jsonConfig s = some (r, s1) ∧ Evolves s s1 ∧
      AllBound s1.pOutputChannelDrivers ∧ SlotsSatisfy Q s1.pOutputChannelDrivers := by
  obtain ⟨r, s1, hrun1, hev1, hb1, hs1⟩ := ProcessJsonConfigBody_ok b m Q hQ jsonConfig s hlen hb hs
  have hmid : ∃ s2, (if r then some s1 else CreateNewConfig b m s1) = some s2 ∧ Evolves s1 s2 ∧
      AllBound s2.pOutputChannelDrivers ∧ SlotsSatisfy Q s2.pOutputChannelDrivers := by
    cases r
    · obtain ⟨s2, hrun2, hev2, hb2, hs2, _, _⟩ := CreateNewConfig_ok b m Q hQ s1 hs1
      exact ⟨s2, by simpa using hrun2, hev2, hb2, hs2⟩
    · exact ⟨s1, by simp, Evolves.refl s1, hb1, hs1⟩
  obtain ⟨s2, hrun2, hev2, hb2, hs2⟩ := hmid
  obtain ⟨s3, hrun3, hev3, hb3, hs3, _, _, _⟩ := UpdateDisplayBufferReferences_ok b m Q hQ s2 hb2 hs2
  exact ⟨r, s3, by simp only [ProcessJsonConfig, hrun1, hrun2, hrun3],
    hev1.trans (hev2.trans hev3), hb3, hs3⟩

theorem LoadConfig_ok (b : Board) (m : DriverModel) (Q : Nat → c_OutputCommon → Prop)
    (hQ : SlotInvariant b m Q) (s : c_OutputMgr)
    (hlen : s.pOutputChannelDrivers.length = b.OutputChannelId_End)
    (hb : AllBound s.pOutputChannelDrivers) (hs : SlotsSatisfy Q s.pOutputChannelDrivers) :
    ∃ s1, LoadConfig b m s = some s1 ∧ Evolves s s1 ∧
      AllBound s1.pOutputChannelDrivers ∧ SlotsSatisfy Q s1.pOutputChannelDrivers := by
  have hev0 : Evolves s (emit Event.LoadConfigFile s) :=
    ⟨rfl, rfl, rfl, rfl, rfl, [Event.LoadConfigFile], rfl, by simp [Event.isRender]⟩
  cases hfile : s.ConfigFile with
  | some doc =>
    obtain ⟨r, s1, hrun, hev1, hb1, hs1⟩ :=
      ProcessJsonConfig_ok b m Q hQ doc (emit Event.LoadConfigFile s) hlen hb hs
    refine ⟨s1, ?_, hev0.trans hev1, hb1, hs1⟩
    have hf : (emit Event.LoadConfigFile s).ConfigFile = some doc := hfile
    simp only [LoadConfig, hf, hrun]
  | none =>
    have hf : (emit Event.LoadConfigFile s).ConfigFile = none := hfile
    have hev1 : Evolves s (if (emit Event.LoadConfigFile s).IsBooting then emit Event.LoadConfigFile s
        else logcon LogMsg.ErrorLoadingConfigFile (emit Event.LoadConfigFile s)) := by
      split
      · exact hev0
      · exact hev0.trans (Evolves.log _ _)
    have hdrv : (if (emit Event.LoadConfigFile s).IsBooting then emit Event.LoadConfigFile s
        else logcon LogMsg.ErrorLoadingConfigFile (emit Event.LoadConfigFile s)).pOutputChannelDrivers
          = s.pOutputChannelDrivers := by
      split <;> rfl
    obtain ⟨s1, hrun, hev2, hb1, hs1, _, _⟩ := CreateNewConfig_ok b m Q hQ _
      (by rw [hdrv]; exact hs)
    exact ⟨s1, by simp only [LoadConfig, hf, hrun], hev1.trans hev2, hb1, hs1⟩

theorem Begin_ok (b : Board) (m : DriverModel) (Q : Nat → c_OutputCommon → Prop)
    (hQ : SlotInvariant b m Q) (s : c_OutputMgr)
    (hlen : s.pOutputChannelDrivers.length = b.OutputChannelId_End)
    (hs : SlotsSatisfy Q s.pOutputChannelDrivers) :
    ∃ s1, Begin b m s = some s1 ∧ s1.HasBeenInitialized = true ∧
      (s.HasBeenInitialized = true → s1 = s) ∧
      (s.HasBeenInitialized = false →
        s1.pOutputChannelDrivers.length = b.OutputChannelId_End ∧
        AllBound s1.pOutputChannelDrivers ∧ SlotsSatisfy Q s1.pOutputChannelDrivers ∧
        s1.IsOutputPaused = s.IsOutputPaused ∧ s1.IsBooting = s.IsBooting ∧
        s1.FileSystemWritable = s.FileSystemWritable ∧
        ∃ evs, s1.trace = s.trace ++ evs) := by
  cases hinit : s.HasBeenInitialized with
  | true =>
    exact ⟨s, by simp [Begin, hinit], hinit, fun _ => rfl, fun h => by simp at h⟩
  | false =>
    obtain ⟨s1, hrun1, hev1, hs1, hb1, _⟩ := InstantiateAll_ok b m Q hQ
      e_OutputType.OutputType_Disabled true { s with HasBeenInitialized := true } hs
    obtain ⟨s2, hrun2, hev2, hb2, hs2⟩ := LoadConfig_ok b m Q hQ s1
      (by rw [hev1.1]; exact hlen) hb1 hs1
    have hev := hev1.trans hev2
    refine ⟨s2, by simp [Begin, hinit, hrun1, hrun2], hev.2.1, fun h => by simp at h, fun _ =>
      ⟨by rw [hev.1]; exact hlen, hb2, hs2, hev.2.2.1, hev.2.2.2.1, hev.2.2.2.2.1,
        hev.2.2.2.2.2.imp (fun _ h => h.1)⟩⟩

theorem DriverCallLoop_spec (call : Nat → Nat → Event) :
    ∀ (l : List (Option c_OutputCommon)) (tr : List Event), AllBound l →
      ∃ evs : List Event, DriverCallLoop call l tr = some (tr ++ evs) ∧ evs.length = l.length ∧
        ∀ (k : Nat) (d : c_OutputCommon), l[k]? = some (some d) →
          evs[k]? = some (call d.OutputChannelId d.instanceId) := by
  intro l
  induction l with
  | nil => intro tr _; exact ⟨[], by simp [DriverCallLoop], rfl, fun k d h => by simp at h⟩
  | cons x rest ih =>
    intro tr hb
    cases x with
    | none => exact absurd rfl (hb none (List.mem_cons_self _ _))
    | some d =>
      obtain ⟨evs, hrun, hlen, hk⟩ := ih (tr ++ [call d.OutputChannelId d.instanceId])
        (fun x hx => hb x (List.mem_cons_of_mem _ hx))
      refine ⟨call d.OutputChannelId d.instanceId :: evs, ?_, by simp [hlen], ?_⟩
      · simp only [DriverCallLoop, hrun, List.append_assoc, List.singleton_append]
      · intro k d0 h
        cases k with
        | zero =>
          simp only [List.getElem?_cons_zero, Option.some.injEq] at h
          subst h; simp
        | succ k =>
          simp only [List.getElem?_cons_succ] at h ⊢
          exact hk k d0 h

/-! ## Lemmas on the calls made on the driver of one slot -/

theorem BindingCalls_append (k : Nat) (l1 l2 : List Event) :
    BindingCalls k (l1 ++ l2) = BindingCalls k l1 ++ BindingCalls k l2 := by
  simp [BindingCalls]

theorem BindingCalls_eq_nil (k : Nat) (evs : List Event)
    (h : ∀ e ∈ evs, e.binding ≠ some k) : BindingCalls k evs = [] := by
  simp only [BindingCalls, List.filter_eq_nil_iff, decide_eq_true_eq]
  exact h

theorem ShutdownEvents_binding (i : Nat) (s : c_OutputMgr) :
    ∀ e ∈ ShutdownEvents i s, e.binding = none ∨ e.binding = some i := by
  intro e he
  unfold ShutdownEvents at he
  split at he
  · cases hb : s.IsBooting <;> simp [hb] at he
    · rcases he with rfl | rfl <;> simp [Event.binding]
    · subst he; simp [Event.binding]
  · simp at he

theorem CreateDriverEvents_binding (b : Board) (i : Nat) (t : e_OutputType) (st : Bool)
    (s : c_OutputMgr) :
    ∀ e ∈ CreateDriverEvents b i t st s, e.binding = none ∨ e.binding = some i := by
  intro e he
  unfold CreateDriverEvents at he
  cases hd : (FactorySwitch b i t).diagnostic <;> cases hb : s.IsBooting <;>
    cases hn : s.BuildingNewConfig <;> cases st <;> simp [hd, hb, hn] at he <;>
    rcases he with rfl | rfl | rfl | rfl <;> simp [Event.binding]

theorem Instantiate_binding (b : Board) (m : DriverModel) (i : Nat) (t : e_OutputType)
    (st : Bool) (s s1 : c_OutputMgr) (h : InstantiateNewOutputChannel b m i t st s = some s1) :
    s1.pOutputChannelDrivers.length = s.pOutputChannelDrivers.length ∧
    (∀ j, j ≠ i → s1.pOutputChannelDrivers[j]? = s.pOutputChannelDrivers[j]?) ∧
    ∃ evs, s1.trace = s.trace ++ evs ∧ ∀ e ∈ evs, e.binding = none ∨ e.binding = some i := by
  by_cases hi : i < s.pOutputChannelDrivers.length
  · obtain ⟨d1, n1, evs, hrun, hcase⟩ := Instantiate_spec b m i t st s hi
    rw [hrun] at h
    simp only [Option.some.injEq] at h
    subst h
    refine ⟨by simp, fun j hj => by simp [List.getElem?_set_ne (Ne.symm hj)], evs, rfl, ?_⟩
    rcases hcase with ⟨_, _, _, he⟩ | ⟨_, _, _, he⟩
    · subst he; intro e he; simp at he
    · subst he
      intro e he
      rcases List.mem_append.mp he with he | he
      · exact ShutdownEvents_binding i s e he
      · exact CreateDriverEvents_binding b i t st s e he
  · simp [InstantiateNewOutputChannel, hi] at h

theorem DriverSetConfig_inv (m : DriverModel) (i : Nat) (config : JsonSection)
    (s s1 : c_OutputMgr) (h : DriverSetConfig m i config s = some s1) :
    ∃ d : c_OutputCommon, s.pOutputChannelDrivers.getD i none = some d ∧
      s1 = { s with
        pOutputChannelDrivers := s.pOutputChannelDrivers.set i
          (some { d with config := m.SetConfig d.driverClass d.config config })
        trace := s.trace ++ [Event.DriverSetConfig i d.instanceId config] } := by
  unfold DriverSetConfig at h
  cases hd : s.pOutputChannelDrivers.getD i none with
  | none => rw [hd] at h; simp at h
  | some d =>
    rw [hd] at h
    simp only [Option.some.injEq, emit] at h
    exact ⟨d, rfl, h.symm⟩

/-- One pass of the loop body of `ProcessJsonConfig` on a slot other than `k` leaves the
driver of slot `k` alone. -/
theorem ProcessChannelLoop_frame (b : Board) (m : DriverModel)
    (channels : List (Nat × JsonChannel)) (k : Nat) :
    ∀ (is : List Nat) (s s1 : c_OutputMgr), k ∉ is →
      ProcessChannelLoop b m channels is s = some s1 →
      s1.pOutputChannelDrivers[k]? = s.pOutputChannelDrivers[k]? ∧
      ∃ evs, s1.trace = s.trace ++ evs ∧ BindingCalls k evs = [] := by
  intro is
  induction is with
  | nil =>
    intro s s1 _ h
    simp only [ProcessChannelLoop, Option.some.injEq] at h
    subst h
    exact ⟨rfl, [], by simp, rfl⟩
  | cons i rest ih =>
    intro s s1 hk h
    have hik : i ≠ k := fun h => hk (h ▸ List.mem_cons_self _ _)
    have hkr : k ∉ rest := fun h => hk (List.mem_cons_of_mem _ h)
    -- an instantiation in slot `i` after a log line, followed by the rest of the loop
    have hinst : ∀ (t : e_OutputType) (pre : List Event) (s0 sa : c_OutputMgr),
        s0.pOutputChannelDrivers = s.pOutputChannelDrivers → s0.trace = s.trace ++ pre →
        BindingCalls k pre = [] →
        InstantiateNewOutputChannel b m i t true s0 = some sa →
        sa.pOutputChannelDrivers[k]? = s.pOutputChannelDrivers[k]? ∧
        ∃ evs, sa.trace = s.trace ++ evs ∧ BindingCalls k evs = [] := by
      intro t pre s0 sa hdrv htr hpre hrun
      obtain ⟨_, hframe, evs, hevs, hbind⟩ := Instantiate_binding b m i t true s0 sa hrun
      refine ⟨by rw [hframe k (Ne.symm hik), hdrv], pre ++ evs,
        by rw [hevs, htr, List.append_assoc], ?_⟩
      rw [BindingCalls_append, hpre, List.nil_append]
      apply BindingCalls_eq_nil
      intro e he
      rcases hbind e he with h1 | h1 <;> rw [h1]
      · simp
      · simp only [ne_eq, Option.some.injEq]; exact hik
    have hcont : ∀ sa : c_OutputMgr,
        (sa.pOutputChannelDrivers[k]? = s.pOutputChannelDrivers[k]? ∧
          ∃ evs, sa.trace = s.trace ++ evs ∧ BindingCalls k evs = []) →
        ProcessChannelLoop b m channels rest sa = some s1 →
        s1.pOutputChannelDrivers[k]? = s.pOutputChannelDrivers[k]? ∧
        ∃ evs, s1.trace = s.trace ++ evs ∧ BindingCalls k evs = [] := by
      intro sa ⟨hd, evs, hevs, hb⟩ hrun
      obtain ⟨hd1, evs1, hevs1, hb1⟩ := ih sa s1 hkr hrun
      exact ⟨hd1.trans hd, evs ++ evs1, by rw [hevs1, hevs, List.append_assoc],
        by rw [BindingCalls_append, hb, hb1]; rfl⟩
    simp only [ProcessChannelLoop] at h
    cases hch : JsonLookup i channels with
    | none =>
      rw [hch] at h
      simp only [Option.some.injEq] at h
      subst h
      exact ⟨rfl, [Event.Log (LogMsg.NoOutputSettingsForChannel i)], rfl, rfl⟩
    | some cfg =>
      rw [hch] at h
      simp only at h
      by_cases hty : b.OutputType_End ≤ cfg.type.getD b.OutputType_End
      · rw [if_pos hty] at h
        cases hrun : InstantiateNewOutputChannel b m i e_OutputType.OutputType_Disabled true
            (logcon (LogMsg.InvalidChannelType (cfg.type.getD b.OutputType_End) i) s) with
        | none => rw [hrun] at h; simp at h
        | some sa =>
          rw [hrun] at h
          exact hcont sa (hinst _ [Event.Log _]
            (logcon (LogMsg.InvalidChannelType (cfg.type.getD b.OutputType_End) i) s)
            sa rfl rfl rfl hrun) h
      · rw [if_neg hty] at h
        cases hsec : JsonLookup (cfg.type.getD b.OutputType_End) cfg.byType with
        | none =>
          rw [hsec] at h
          simp only at h
          cases hrun : InstantiateNewOutputChannel b m i e_OutputType.OutputType_Disabled true
              (logcon (LogMsg.NoOutputSettingsForChannel i) s) with
          | none => rw [hrun] at h; simp at h
          | some sa =>
            rw [hrun] at h
            exact hcont sa (hinst _ [Event.Log _]
              (logcon (LogMsg.NoOutputSettingsForChannel i) s) sa rfl rfl rfl hrun) h
        | some config =>
          rw [hsec] at h
          simp only at h
          cases hrun : InstantiateNewOutputChannel b m i
              (b.toOutputType (cfg.type.getD b.OutputType_End)) true s with
          | none => rw [hrun] at h; simp at h
          | some sa =>
            rw [hrun] at h
            simp only at h
            cases hset : DriverSetConfig m i config sa with
            | none => rw [hset] at h; simp at h
            | some sb =>
              rw [hset] at h
              obtain ⟨hda, evsa, hevsa, hba⟩ := hinst _ [] s sa rfl (by simp) rfl hrun
              obtain ⟨d, _, hsb⟩ := DriverSetConfig_inv m i config sa sb hset
              refine hcont sb ⟨?_, evsa ++ [Event.DriverSetConfig i d.instanceId config], ?_, ?_⟩ h
              · rw [hsb]
                simp only
                rw [List.getElem?_set_ne hik, hda]
              · rw [hsb]; simp only; rw [hevsa, List.append_assoc]
              · rw [BindingCalls_append, hba]
                apply BindingCalls_eq_nil
                intro e he
                simp only [List.mem_singleton] at he
                subst he
                simp only [Event.binding, ne_eq, Option.some.injEq]
                exact hik

theorem ProcessChannelLoop_cons (b : Board) (m : DriverModel)
    (channels : List (Nat × JsonChannel)) (i : Nat) (rest : List Nat) (s s1 : c_OutputMgr)
    (cfg : JsonChannel) (hch : JsonLookup i channels = some cfg)
    (h : ProcessChannelLoop b m channels (i :: rest) s = some s1) :
    ∃ sa, ProcessChannelLoop b m channels [i] s = some sa ∧
      ProcessChannelLoop b m channels rest sa = some s1 := by
  simp only [ProcessChannelLoop, hch] at h ⊢
  by_cases hty : b.OutputType_End ≤ cfg.type.getD b.OutputType_End
  · rw [if_pos hty] at h ⊢
    cases hrun : InstantiateNewOutputChannel b m i e_OutputType.OutputType_Disabled true
        (logcon (LogMsg.InvalidChannelType (cfg.type.getD b.OutputType_End) i) s) with
    | none => rw [hrun] at h; simp at h
    | some sa => rw [hrun] at h; exact ⟨sa, rfl, h⟩
  · rw [if_neg hty] at h ⊢
    cases hsec : JsonLookup (cfg.type.getD b.OutputType_End) cfg.byType with
    | none =>
      rw [hsec] at h
      simp only at h ⊢
      cases hrun : InstantiateNewOutputChannel b m i e_OutputType.OutputType_Disabled true
          (logcon (LogMsg.NoOutputSettingsForChannel i) s) with
      | none => rw [hrun] at h; simp at h
      | some sa => rw [hrun] at h; exact ⟨sa, rfl, h⟩
    | some config =>
      rw [hsec] at h
      simp only at h ⊢
      cases hrun : InstantiateNewOutputChannel b m i
          (b.toOutputType (cfg.type.getD b.OutputType_End)) true s with
      | none => rw [hrun] at h; simp at h
      | some sa =>
        rw [hrun] at h
        simp only at h ⊢
        cases hset : DriverSetConfig m i config sa with
        | none => rw [hset] at h; simp at h
        | some sb => rw [hset] at h; exact ⟨sb, rfl, h⟩

theorem Instantiate_same_type (b : Board) (m : DriverModel) (k : Nat) (st : Bool)
    (s : c_OutputMgr) (d : c_OutputCommon)
    (hd : s.pOutputChannelDrivers[k]? = some (some d)) :
    InstantiateNewOutputChannel b m k d.OutputType st s = some s := by
  have hk : k < s.pOutputChannelDrivers.length := (List.getElem?_eq_some_iff.mp hd).1
  have hg : s.pOutputChannelDrivers.getD k none = some d := getD_eq_of_getElem? _ _ _ hd
  simp only [InstantiateNewOutputChannel, hk, if_true, hg]

theorem ProcessChannelLoop_slot (b : Board) (m : DriverModel)
    (channels : List (Nat × JsonChannel)) (k : Nat) (cfg : JsonChannel) (c : Nat)
    (config : JsonSection) (d : c_OutputCommon)
    (hcfg : JsonLookup k channels = some cfg) (hc : cfg.type = some c)
    (hlt : c < b.OutputType_End) (hsec : JsonLookup c cfg.byType = some config)
    (htype : b.toOutputType c = d.OutputType) :
    ∀ (is : List Nat) (s s1 : c_OutputMgr), is.Pairwise (· < ·) → k ∈ is →
      (∀ j ∈ is, j < k → JsonLookup j channels ≠ none) →
      s.pOutputChannelDrivers[k]? = some (some d) →
      ProcessChannelLoop b m channels is s = some s1 →
      s1.pOutputChannelDrivers[k]? =
        some (some { d with config := m.SetConfig d.driverClass d.config config }) ∧
      ∃ evs, s1.trace = s.trace ++ evs ∧
        BindingCalls k evs = [Event.DriverSetConfig k d.instanceId config] := by
  intro is
  induction is with
  | nil => intro s s1 _ hk; exact absurd hk (List.not_mem_nil _)
  | cons i rest ih =>
    intro s s1 hsorted hk hpresent hd h
    have hsorted' := List.pairwise_cons.mp hsorted
    by_cases hik : i = k
    · subst hik
      have hkr : i ∉ rest := fun hmem => Nat.lt_irrefl _ (hsorted'.1 i hmem)
      obtain ⟨sa, hone, hrest⟩ := ProcessChannelLoop_cons b m channels i rest s s1 cfg hcfg h
      have hge : ¬ b.OutputType_End ≤ cfg.type.getD b.OutputType_End := by
        rw [hc]; simp only [Option.getD_some]; omega
      have hsec' : JsonLookup (cfg.type.getD b.OutputType_End) cfg.byType = some config := by
        rw [hc]; exact hsec
      have htype' : b.toOutputType (cfg.type.getD b.OutputType_End) = d.OutputType := by
        rw [hc]; exact htype
      simp only [ProcessChannelLoop, hcfg, if_neg hge, hsec', htype',
        Instantiate_same_type b m i true s d hd, DriverSetConfig_spec m i config s d hd,
        Option.some.injEq] at hone
      obtain ⟨hd1, evs1, hevs1, hb1⟩ := ProcessChannelLoop_frame b m channels i rest sa s1 hkr hrest
      have hilt : i < s.pOutputChannelDrivers.length := (List.getElem?_eq_some_iff.mp hd).1
      subst hone
      refine ⟨?_, [Event.DriverSetConfig i d.instanceId config] ++ evs1, ?_, ?_⟩
      · rw [hd1]
        exact List.getElem?_set_self hilt
      · rw [hevs1, List.append_assoc]
      · rw [BindingCalls_append, hb1, List.append_nil]
        simp [BindingCalls, Event.binding]
    · have hkr : k ∈ rest := by
        rcases List.mem_cons.mp hk with h1 | h1
        · exact absurd h1.symm hik
        · exact h1
      have hilt : i < k := hsorted'.1 k hkr
      cases hch : JsonLookup i channels with
      | none => exact absurd hch (hpresent i (List.mem_cons_self _ _) hilt)
      | some cfgi =>
        obtain ⟨sa, hone, hrest⟩ := ProcessChannelLoop_cons b m channels i rest s s1 cfgi hch h
        have hki : k ∉ [i] := by simp; exact Ne.symm hik
        obtain ⟨hda, evsa, hevsa, hba⟩ := ProcessChannelLoop_frame b m channels k [i] s sa hki hone
        obtain ⟨hd1, evs1, hevs1, hb1⟩ := ih sa s1 hsorted'.2 hkr
          (fun j hj hjk => hpresent j (List.mem_cons_of_mem _ hj) hjk) (by rw [hda, hd]) hrest
        exact ⟨hd1, evsa ++ evs1, by rw [hevs1, hevsa, List.append_assoc],
          by rw [BindingCalls_append, hba, hb1, List.nil_append]⟩

theorem UpdateDisplayBufferLoop_binding (b : Board) (m : DriverModel) :
    ∀ (l : List (Option c_OutputCommon)) (off : Nat) (tr : List Event)
      (l2 : List (Option c_OutputCommon)) (off2 : Nat) (tr2 : List Event),
      UpdateDisplayBufferLoop b m l off tr = some (l2, off2, tr2) →
      ∃ evs, tr2 = tr ++ evs ∧ ∀ e ∈ evs, e.binding = none :=
  UpdateDisplayBufferLoop_events b m (fun e => e.binding = none)
    (fun _ _ _ => rfl) (fun _ _ _ => rfl) (fun _ => rfl)

theorem UpdateDisplayBufferReferences_binding (b : Board) (m : DriverModel)
    (s s1 : c_OutputMgr) (k : Nat) (h : UpdateDisplayBufferReferences b m s = some s1) :
    ∃ evs, s1.trace = s.trace ++ evs ∧ BindingCalls k evs = [] := by
  unfold UpdateDisplayBufferReferences at h
  split at h
  · simp at h
  · next l2 off2 tr2 heq =>
    simp only [Option.some.injEq] at h
    obtain ⟨evs, hevs, hbind⟩ := UpdateDisplayBufferLoop_binding b m _ _ _ _ _ _ heq
    subst h
    refine ⟨evs ++ [Event.SetBufferInfo 0 off2], by simp [emit, hevs], ?_⟩
    apply BindingCalls_eq_nil
    intro e he
    rcases List.mem_append.mp he with he | he
    · rw [hbind e he]; simp
    · simp only [List.mem_singleton] at he; subst he; simp [Event.binding]

theorem trivial_invariant (b : Board) (m : DriverModel) :
    SlotInvariant b m (fun _ _ => True) where
  created := fun _ _ _ _ => trivial
  config := fun _ _ _ _ => trivial
  buffer := fun _ _ _ _ _ => trivial

/-- C6: when the driver `d` bound to slot `k` already reports the requested type,
`InstantiateNewOutputChannel` returns the state it was given (the driver is neither deleted
nor constructed anew nor started); and when `ProcessJsonConfig` is given a document that has
an entry for every slot up to `k` and, for slot `k`, the type code of `d` with a section
keyed by that code, it returns true, slot `k` still holds `d` (same object, same number of
`Begin` calls) with the configuration `SetConfig` derives from the section, and among the
calls that construct, destroy, start or configure the driver of slot `k` there is exactly
one: `SetConfig` with that section on `d`. -/
theorem ProcessJsonConfig_same_type (b : Board) (m : DriverModel) (s : c_OutputMgr)
    (jsonConfig : JsonDocument) (data : JsonOutputConfig) (channels : List (Nat × JsonChannel))
    (cfg : JsonChannel) (c k : Nat) (config : JsonSection) (d : c_OutputCommon)
    (hlen : s.pOutputChannelDrivers.length = b.OutputChannelId_End)
    (hbound : AllBound s.pOutputChannelDrivers)
    (hdoc : jsonConfig.output_config = some data) (hchs : data.channels = some channels)
    (hpresent : ∀ j, j < k → JsonLookup j channels ≠ none)
    (hcfg : JsonLookup k channels = some cfg) (hc : cfg.type = some c)
    (hlt : c < b.OutputType_End) (hsec : JsonLookup c cfg.byType = some config)
    (hd : s.pOutputChannelDrivers[k]? = some (some d))
    (htype : b.toOutputType c = d.OutputType) :
    (∀ StartDriver, InstantiateNewOutputChannel b m k d.OutputType StartDriver s = some s) ∧
    ∃ s1 d1 evs, ProcessJsonConfig b m jsonConfig s = some (true, s1) ∧
      s1.pOutputChannelDrivers[k]? = some (some d1) ∧
      d1 = { d with config := m.SetConfig d.driverClass d.config config
                    pOutputBuffer := d1.pOutputBuffer
                    OutputBufferSize := d1.OutputBufferSize } ∧
      s1.trace = s.trace ++ evs ∧
      BindingCalls k evs = [Event.DriverSetConfig k d.instanceId config] := by
  refine ⟨fun st => Instantiate_same_type b m k st s d hd, ?_⟩
  have hk : k < b.OutputChannelId_End := by
    rw [← hlen]; exact (List.getElem?_eq_some_iff.mp hd).1
  -- the version check
  obtain ⟨s0, hs0, hdrv0, pre, htr0, hpre⟩ : ∃ s0 : c_OutputMgr,
      (if data.cfgver.getD (if b.CurrentConfigVersion = 0 then 1 else 0) ≠
          b.CurrentConfigVersion
        then logcon LogMsg.IncorrectVersion s else s) = s0 ∧
      s0.pOutputChannelDrivers = s.pOutputChannelDrivers ∧
      ∃ pre, s0.trace = s.trace ++ pre ∧ BindingCalls k pre = [] := by
    by_cases hv : data.cfgver.getD (if b.CurrentConfigVersion = 0 then 1 else 0) ≠
        b.CurrentConfigVersion
    · rw [if_pos hv]; exact ⟨_, rfl, rfl, [Event.Log LogMsg.IncorrectVersion], rfl, rfl⟩
    · rw [if_neg hv]; exact ⟨_, rfl, rfl, [], by simp, rfl⟩
  -- the loop over the slots
  obtain ⟨s2, hrun2, hev2, hb2, _, _, _⟩ := ProcessChannelLoop_ok b m (fun _ _ => True)
    (trivial_invariant b m) channels (List.range b.OutputChannelId_End) s0
    (fun j hj => by rw [hdrv0, hlen]; exact List.mem_range.mp hj)
    (by rw [hdrv0]; exact hbound) (fun _ _ _ => trivial)
  obtain ⟨hd2, evs2, htr2, hbind2⟩ := ProcessChannelLoop_slot b m channels k cfg c config d
    hcfg hc hlt hsec htype (List.range b.OutputChannelId_End) s0 s2 (List.pairwise_lt_range _)
    (List.mem_range.mpr hk) (fun j _ hjk => hpresent j hjk) (by rw [hdrv0]; exact hd) hrun2
  -- the buffer partition
  obtain ⟨s3, hrun3, hev3, hb3, _, _, _, hslots3⟩ := UpdateDisplayBufferReferences_ok b m
    (fun _ _ => True) (trivial_invariant b m) s2 hb2 (fun _ _ _ => trivial)
  obtain ⟨evs3, htr3, hbind3⟩ := UpdateDisplayBufferReferences_binding b m s2 s3 k hrun3
  have hk3 : k < s3.pOutputChannelDrivers.length := by
    rw [hev3.1]; exact (List.getElem?_eq_some_iff.mp hd2).1
  obtain ⟨d1, hd1⟩ := AllBound_getElem? _ hb3 k hk3
  obtain ⟨d0, hd0, hrel⟩ := hslots3 k d1 hd1
  rw [hd2] at hd0
  simp only [Option.some.injEq] at hd0
  subst hd0
  refine ⟨s3, d1, pre ++ evs2 ++ evs3, ?_, hd1, hrel, ?_, ?_⟩
  · simp only [ProcessJsonConfig, ProcessJsonConfigBody, hdoc, hchs, hs0, hrun2, if_true, hrun3]
  · rw [htr3, htr2, htr0, List.append_assoc, List.append_assoc, List.append_assoc]
  · rw [BindingCalls_append, BindingCalls_append, hpre, hbind2, hbind3]
    rfl

/-- Witness of C6: two serial slots hold WS2811 drivers and the document asks for WS2811 on
both, with a section each; slot 1 is looked at. -/
theorem ProcessJsonConfig_same_type_witness :
    (DemoManager [10, 20]).pOutputChannelDrivers.length = (BoardWith 9000 2).OutputChannelId_End ∧
    AllBound (DemoManager [10, 20]).pOutputChannelDrivers ∧
    (DemoManager [10, 20]).pOutputChannelDrivers[1]? = some (some (DemoDriver 1 20)) ∧
    (BoardWith 9000 2).toOutputType 0 = (DemoDriver 1 20).OutputType ∧
    (∀ StartDriver, InstantiateNewOutputChannel (BoardWith 9000 2) DemoDrivers 1
      (DemoDriver 1 20).OutputType StartDriver (DemoManager [10, 20])
        = some (DemoManager [10, 20])) ∧
    ∃ s1 d1 evs, ProcessJsonConfig (BoardWith 9000 2) DemoDrivers DocumentWS2811
        (DemoManager [10, 20]) = some (true, s1) ∧
      s1.pOutputChannelDrivers[1]? = some (some d1) ∧
      d1 = { DemoDriver 1 20 with
              config := DemoDrivers.SetConfig (DemoDriver 1 20).driverClass
                (DemoDriver 1 20).config { driverName := none, params := [(0, 40)] }
              pOutputBuffer := d1.pOutputBuffer
              OutputBufferSize := d1.OutputBufferSize } ∧
      s1.trace = (DemoManager [10, 20]).trace ++ evs ∧
      BindingCalls 1 evs = [Event.DriverSetConfig 1 (DemoDriver 1 20).instanceId
        { driverName := none, params := [(0, 40)] }] :=
  ⟨by decide, by decide, by decide, by decide,
    ProcessJsonConfig_same_type (BoardWith 9000 2) DemoDrivers (DemoManager [10, 20])
      DocumentWS2811
      { cfgver := some 1, MaxChannels := none,
        channels := some
          [(0, { type := some 0, byType := [(0, { driverName := none, params := [(0, 30)] })] }),
           (1, { type := some 0, byType := [(0, { driverName := none, params := [(0, 40)] })] })] }
      [(0, { type := some 0, byType := [(0, { driverName := none, params := [(0, 30)] })] }),
       (1, { type := some 0, byType := [(0, { driverName := none, params := [(0, 40)] })] })]
      { type := some 0, byType := [(0, { driverName := none, params := [(0, 40)] })] }
      0 1 { driverName := none, params := [(0, 40)] } (DemoDriver 1 20)
      (by decide) (by decide) rfl rfl (by decide) (by decide) rfl (by decide) (by decide)
      (by decide) (by decide)⟩

/-- C4, evaluated where the code departs from it: two slots hold WS2811 drivers; the
document has no entry for slot 0 and gives slot 1 the unknown type code 999.  The loop of
`ProcessJsonConfig` ends at slot 0, the function returns true, and slot 1 keeps its WS2811
driver instead of being disabled. -/
theorem ProcessJsonConfig_unknown_type_not_disabled :
    (ProcessJsonConfig (BoardWith 9000 2) DemoDrivers DocumentWithoutSlot0
        (DemoManager [10, 20])).map (fun r => (r.1, BoundTypes r.2))
      = some (true, [some e_OutputType.OutputType_WS2811, some e_OutputType.OutputType_WS2811]) ∧
    (BoardWith 9000 2).OutputType_End ≤ 999 := by
  decide

/-! ## The manager keeps every slot bound -/

theorem Instantiate_file (b : Board) (m : DriverModel) (i : Nat) (t : e_OutputType)
    (st : Bool) (s s1 : c_OutputMgr) (h : InstantiateNewOutputChannel b m i t st s = some s1) :
    s1.ConfigFile = s.ConfigFile ∧ s1.ConfigLoadNeeded = s.ConfigLoadNeeded ∧
    s1.UsedBufferSize = s.UsedBufferSize := by
  by_cases hi : i < s.pOutputChannelDrivers.length
  · obtain ⟨d1, n1, evs, hrun, _⟩ := Instantiate_spec b m i t st s hi
    rw [hrun] at h
    simp only [Option.some.injEq] at h
    rw [← h]
    exact ⟨rfl, rfl, rfl⟩
  · simp [InstantiateNewOutputChannel, hi] at h

theorem InstantiateLoop_file (b : Board) (m : DriverModel) (t : e_OutputType) (st : Bool) :
    ∀ (is : List Nat) (s s1 : c_OutputMgr), InstantiateLoop b m t st is s = some s1 →
      s1.ConfigFile = s.ConfigFile ∧ s1.ConfigLoadNeeded = s.ConfigLoadNeeded ∧
      s1.UsedBufferSize = s.UsedBufferSize := by
  intro is
  induction is with
  | nil =>
    intro s s1 h
    simp only [InstantiateLoop, Option.some.injEq] at h
    rw [h]; exact ⟨rfl, rfl, rfl⟩
  | cons i rest ih =>
    intro s s1 h
    simp only [InstantiateLoop] at h
    cases h1 : InstantiateNewOutputChannel b m i t st s with
    | none => rw [h1] at h; simp at h
    | some s2 =>
      rw [h1] at h
      obtain ⟨a1, a2, a3⟩ := Instantiate_file b m i t st s s2 h1
      obtain ⟨b1, b2, b3⟩ := ih s2 s1 h
      exact ⟨b1.trans a1, b2.trans a2, b3.trans a3⟩

theorem GetStatus_ok : ∀ (l : List (Option c_OutputCommon)), AllBound l →
    ∃ OutputStatus, GetStatus l = some OutputStatus ∧ OutputStatus.length = l.length := by
  intro l
  induction l with
  | nil => intro _; exact ⟨[], rfl, rfl⟩
  | cons x rest ih =>
    intro hb
    cases x with
    | none => exact absurd rfl (hb none (List.mem_cons_self _ _))
    | some d =>
      obtain ⟨r, hr, hlen⟩ := ih (fun x hx => hb x (List.mem_cons_of_mem _ hx))
      exact ⟨(d.OutputChannelId, d.instanceId) :: r, by simp only [GetStatus, hr], by simp [hlen]⟩

theorem Render_spec (b : Board) (m : DriverModel) (Q : Nat → c_OutputCommon → Prop)
    (hQ : SlotInvariant b m Q) (s : c_OutputMgr)
    (hlen : s.pOutputChannelDrivers.length = b.OutputChannelId_End)
    (hb : AllBound s.pOutputChannelDrivers) (hs : SlotsSatisfy Q s.pOutputChannelDrivers) :
    ∃ (s1 : c_OutputMgr) (evs : List Event),
      (s.ConfigLoadNeeded = true →
        LoadConfig b m { s with ConfigLoadNeeded := false } = some s1) ∧
      (s.ConfigLoadNeeded = false → s1 = s) ∧
      Evolves s s1 ∧ AllBound s1.pOutputChannelDrivers ∧
      SlotsSatisfy Q s1.pOutputChannelDrivers ∧
      Render b m s = some (if s.IsOutputPaused then s1
        else { s1 with trace := s1.trace ++ evs }) ∧
      evs.length = s1.pOutputChannelDrivers.length ∧
      ∀ (k : Nat) (d : c_OutputCommon), s1.pOutputChannelDrivers[k]? = some (some d) →
        evs[k]? = some (Event.DriverRender d.OutputChannelId d.instanceId) := by
  have hreload : ∃ s1 : c_OutputMgr,
      (if s.ConfigLoadNeeded then LoadConfig b m { s with ConfigLoadNeeded := false }
        else some s) = some s1 ∧
      (s.ConfigLoadNeeded = true →
        LoadConfig b m { s with ConfigLoadNeeded := false } = some s1) ∧
      (s.ConfigLoadNeeded = false → s1 = s) ∧
      Evolves s s1 ∧ AllBound s1.pOutputChannelDrivers ∧
      SlotsSatisfy Q s1.pOutputChannelDrivers := by
    cases hc : s.ConfigLoadNeeded with
    | true =>
      obtain ⟨s1, hrun, hev, hb1, hs1⟩ :=
        LoadConfig_ok b m Q hQ { s with ConfigLoadNeeded := false } hlen hb hs
      exact ⟨s1, by simpa using hrun, fun _ => hrun, fun h => by simp at h,
        ⟨hev.1, hev.2.1, hev.2.2.1, hev.2.2.2.1, hev.2.2.2.2.1, hev.2.2.2.2.2⟩, hb1, hs1⟩
    | false =>
      exact ⟨s, by simp, fun h => by simp at h, fun _ => rfl, Evolves.refl s, hb, hs⟩
  obtain ⟨s1, hrun1, hload, hkeep, hev, hb1, hs1⟩ := hreload
  obtain ⟨evs, hrun2, hlen2, hk2⟩ :=
    DriverCallLoop_spec Event.DriverRender s1.pOutputChannelDrivers s1.trace hb1
  refine ⟨s1, evs, hload, hkeep, hev, hb1, hs1, ?_, hlen2, hk2⟩
  have hp : s1.IsOutputPaused = s.IsOutputPaused := hev.2.2.1
  have hR : Render b m s =
      (if s1.IsOutputPaused = false then
        (match DriverCallLoop Event.DriverRender s1.pOutputChannelDrivers s1.trace with
          | none => none
          | some tr => some { s1 with trace := tr })
       else some s1) := by
    unfold Render; rw [hrun1]
  rw [hR, hrun2, hp]
  cases s.IsOutputPaused <;> simp

theorem WellFormed_of (b : Board) (s s1 : c_OutputMgr) (hlen : s.pOutputChannelDrivers.length
    = b.OutputChannelId_End) (hev : Evolves s s1) (hb : AllBound s1.pOutputChannelDrivers)
    (hs : SlotsSatisfy (SlotOK b) s1.pOutputChannelDrivers) : WellFormed b s1 :=
  ⟨hev.1.trans hlen, hb, hs⟩

theorem SlotsSatisfy_Constructed (b : Board) (boot : Bool) (file : Option JsonDocument)
    (wr : Bool) (Q : Nat → c_OutputCommon → Prop) :
    SlotsSatisfy Q (Constructed b boot file wr).pOutputChannelDrivers := by
  intro j d hj
  obtain ⟨_, heq⟩ := List.getElem?_eq_some_iff.mp hj
  simp [Constructed] at heq

theorem Instantiate_replace (b : Board) (m : DriverModel) (i : Nat) (t : e_OutputType)
    (st : Bool) (s : c_OutputMgr) (d : c_OutputCommon)
    (hd : s.pOutputChannelDrivers[i]? = some (some d)) (ht : d.OutputType ≠ t) :
    ∃ s1 pre mid post, InstantiateNewOutputChannel b m i t st s = some s1 ∧
      s1.trace = s.trace ++ (pre ++ Event.Delete i d.instanceId :: mid ++
        Event.New i s.nextInstanceId (FactorySwitch b i t).driverClass
          (FactorySwitch b i t).OutputType :: post) ∧
      ∀ e ∈ pre ++ mid, ∃ msg, e = Event.Log msg := by
  have hi : i < s.pOutputChannelDrivers.length := (List.getElem?_eq_some_iff.mp hd).1
  have hg : s.pOutputChannelDrivers.getD i none = some d := getD_eq_of_getElem? _ _ _ hd
  obtain ⟨d1, n1, evs, hrun, hcase⟩ := Instantiate_spec b m i t st s hi
  rcases hcase with ⟨hold, ht1, _, _⟩ | ⟨_, _, _, hevs⟩
  · rw [hd] at hold
    simp only [Option.some.injEq] at hold
    subst hold
    exact absurd ht1 ht
  · refine ⟨_, if s.IsBooting then [] else [Event.Log (LogMsg.ShuttingDown d.driverClass i)],
      (match (FactorySwitch b i t).diagnostic with
        | FactoryDiagnostic.Quiet => []
        | FactoryDiagnostic.CannotStart =>
          if s.BuildingNewConfig then [] else [Event.Log (LogMsg.CannotStart t i)]
        | FactoryDiagnostic.UnknownType =>
          if s.IsBooting then [] else [Event.Log (LogMsg.UnknownOutputType t i)]),
      (if s.IsBooting then []
        else [Event.Log (LogMsg.Initialization (FactorySwitch b i t).driverClass i)]) ++
        (if st then [Event.DriverBegin i s.nextInstanceId] else []),
      hrun, ?_, ?_⟩
    · rw [hevs]
      unfold ShutdownEvents
      rw [hg]
      simp [CreateDriverEvents]
    · intro e he
      rcases List.mem_append.mp he with he | he
      · split at he
        · simp at he
        · simp only [List.mem_singleton] at he; exact ⟨_, he⟩
      · split at he
        · simp at he
        · split at he
          · simp at he
          · simp only [List.mem_singleton] at he; exact ⟨_, he⟩
        · split at he
          · simp at he
          · simp only [List.mem_singleton] at he; exact ⟨_, he⟩

/-- C7: `Begin`, run on the state the constructor leaves, ends with every slot bound to a
driver (`WellFormed`); from a state in which every slot is bound, `InstantiateNewOutputChannel`,
`ProcessJsonConfig` and `CreateNewConfig` return and again leave every slot bound; when
`InstantiateNewOutputChannel` replaces the driver of a slot, the old object is deleted before
the new one is constructed, with nothing but log lines in between; and `Render`, `GetStatus`,
`CreateJsonConfig`, `PauseOutputs` and `UpdateDisplayBufferReferences` return, that is, none
of them dereferences an empty slot. -/
theorem slots_stay_bound (b : Board) (m : DriverModel) (s : c_OutputMgr)
    (hwf : WellFormed b s) :
    (∀ IsBooting ConfigFile FileSystemWritable, ∃ s1,
      Begin b m (Constructed b IsBooting ConfigFile FileSystemWritable) = some s1 ∧
      WellFormed b s1) ∧
    (∀ i t StartDriver, i < b.OutputChannelId_End →
      ∃ s1, InstantiateNewOutputChannel b m i t StartDriver s = some s1 ∧ WellFormed b s1) ∧
    (∀ jsonConfig, ∃ r s1, ProcessJsonConfig b m jsonConfig s = some (r, s1) ∧
      WellFormed b s1) ∧
    (∃ s1, CreateNewConfig b m s = some s1 ∧ WellFormed b s1) ∧
    (∀ (i : Nat) (t : e_OutputType) (StartDriver : Bool) (d : c_OutputCommon),
      s.pOutputChannelDrivers[i]? = some (some d) → d.OutputType ≠ t →
      ∃ s1 pre mid post, InstantiateNewOutputChannel b m i t StartDriver s = some s1 ∧
        s1.trace = s.trace ++ (pre ++ Event.Delete i d.instanceId :: mid ++
          Event.New i s.nextInstanceId (FactorySwitch b i t).driverClass
            (FactorySwitch b i t).OutputType :: post) ∧
        ∀ e ∈ pre ++ mid, ∃ msg, e = Event.Log msg) ∧
    (∃ s1, Render b m s = some s1 ∧ WellFormed b s1) ∧
    (∃ OutputStatus, GetStatus s.pOutputChannelDrivers = some OutputStatus) ∧
    (∀ jsonConfig, ∃ jsonConfig1, CreateJsonConfig b m s jsonConfig = some jsonConfig1) ∧
    (∃ s1, PauseOutputs s = some s1 ∧ WellFormed b s1) ∧
    (∃ s1, UpdateDisplayBufferReferences b m s = some s1 ∧ WellFormed b s1) := by
  obtain ⟨hlen, hb, hs⟩ := hwf
  have hQ := SlotOK_invariant b m
  refine ⟨?_, ?_, ?_, ?_, ?_, ?_, ?_, ?_, ?_, ?_⟩
  · intro boot file wr
    obtain ⟨s1, hrun, _, _, hnew⟩ := Begin_ok b m (SlotOK b) hQ (Constructed b boot file wr)
      (by simp [Constructed]) (SlotsSatisfy_Constructed b boot file wr (SlotOK b))
    obtain ⟨h1, h2, h3, _⟩ := hnew rfl
    exact ⟨s1, hrun, h1, h2, h3⟩
  · intro i t st hi
    obtain ⟨s1, hrun, hev, hs1, _, _⟩ :=
      Instantiate_ok b m (SlotOK b) hQ i t st s (by rw [hlen]; exact hi) hs
    exact ⟨s1, hrun, WellFormed_of b s s1 hlen hev
      (Instantiate_allBound b m i t st s s1 hb hrun) hs1⟩
  · intro doc
    obtain ⟨r, s1, hrun, hev, hb1, hs1⟩ := ProcessJsonConfig_ok b m (SlotOK b) hQ doc s hlen hb hs
    exact ⟨r, s1, hrun, WellFormed_of b s s1 hlen hev hb1 hs1⟩
  · obtain ⟨s1, hrun, hev, hb1, hs1, _, _⟩ := CreateNewConfig_ok b m (SlotOK b) hQ s hs
    exact ⟨s1, hrun, WellFormed_of b s s1 hlen hev hb1 hs1⟩
  · intro i t st d hd ht
    exact Instantiate_replace b m i t st s d hd ht
  · obtain ⟨s1, evs, _, _, hev, hb1, hs1, hrun, _, _⟩ := Render_spec b m (SlotOK b) hQ s hlen hb hs
    refine ⟨_, hrun, ?_⟩
    split
    · exact WellFormed_of b s s1 hlen hev hb1 hs1
    · exact ⟨hev.1.trans hlen, hb1, hs1⟩
  · obtain ⟨r, hr, _⟩ := GetStatus_ok s.pOutputChannelDrivers hb
    exact ⟨r, hr⟩
  · intro doc
    obtain ⟨data, hdata⟩ := CreateJsonConfig_ok b m s doc hb
    exact ⟨_, hdata⟩
  · obtain ⟨evs, hrun, _, _⟩ :=
      DriverCallLoop_spec Event.DriverPauseOutput s.pOutputChannelDrivers s.trace hb
    exact ⟨{ s with trace := s.trace ++ evs }, by simp only [PauseOutputs, hrun], hlen, hb, hs⟩
  · obtain ⟨s1, hrun, hev, hb1, hs1, _⟩ := UpdateDisplayBufferReferences_ok b m (SlotOK b) hQ s hb hs
    exact ⟨s1, hrun, WellFormed_of b s s1 hlen hev hb1 hs1⟩

/-- Witness of C7: two serial slots bound to WS2811 drivers. -/
theorem slots_stay_bound_witness :
    WellFormed (BoardWith 9000 2) (DemoManager [10, 20]) ∧
    (∃ s1, Render (BoardWith 9000 2) DemoDrivers (DemoManager [10, 20]) = some s1 ∧
      WellFormed (BoardWith 9000 2) s1) ∧
    (∃ s1, UpdateDisplayBufferReferences (BoardWith 9000 2) DemoDrivers (DemoManager [10, 20])
      = some s1 ∧ WellFormed (BoardWith 9000 2) s1) :=
  ⟨by decide,
    (slots_stay_bound (BoardWith 9000 2) DemoDrivers (DemoManager [10, 20])
      (by decide)).2.2.2.2.2.1,
    (slots_stay_bound (BoardWith 9000 2) DemoDrivers (DemoManager [10, 20])
      (by decide)).2.2.2.2.2.2.2.2.2⟩

/-- C8: from a state in which every slot is bound, `Render` returns.  If a reload is
pending it first runs `LoadConfig` on the state with `ConfigLoadNeeded` cleared, whose result
is `s1` (otherwise `s1` is the state itself); the reload renders no driver and leaves the
pause flag as it is.  If outputs are paused the result is `s1`: no driver is rendered.  If
they are not, the result is `s1` with one call per slot appended to the trace after
everything the reload did: the call number `k` is `Render` on the driver bound to slot `k`. -/
theorem Render_order (b : Board) (m : DriverModel) (s : c_OutputMgr) (hwf : WellFormed b s) :
    ∃ (s1 : c_OutputMgr) (evs : List Event),
      (s.ConfigLoadNeeded = true →
        LoadConfig b m { s with ConfigLoadNeeded := false } = some s1) ∧
      (s.ConfigLoadNeeded = false → s1 = s) ∧
      WellFormed b s1 ∧ s1.IsOutputPaused = s.IsOutputPaused ∧
      (∃ pre, s1.trace = s.trace ++ pre ∧ ∀ e ∈ pre, e.isRender = false) ∧
      Render b m s = some (if s.IsOutputPaused then s1
        else { s1 with trace := s1.trace ++ evs }) ∧
      evs.length = b.OutputChannelId_End ∧
      ∀ k, k < b.OutputChannelId_End →
        ∃ d : c_OutputCommon, s1.pOutputChannelDrivers[k]? = some (some d) ∧
          evs[k]? = some (Event.DriverRender k d.instanceId) := by
  obtain ⟨hlen, hb, hs⟩ := hwf
  obtain ⟨s1, evs, hload, hkeep, hev, hb1, hs1, hrun, hlen1, hk⟩ :=
    Render_spec b m (SlotOK b) (SlotOK_invariant b m) s hlen hb hs
  have hlen' : s1.pOutputChannelDrivers.length = b.OutputChannelId_End := hev.1.trans hlen
  refine ⟨s1, evs, hload, hkeep, ⟨hlen', hb1, hs1⟩, hev.2.2.1, hev.2.2.2.2.2, hrun,
    hlen1.trans hlen', ?_⟩
  intro k hklt
  obtain ⟨d, hd⟩ := AllBound_getElem? _ hb1 k (by rw [hlen']; exact hklt)
  refine ⟨d, hd, ?_⟩
  rw [hk k d hd, (hs1 k d hd).1]

/-- Witness of C8: two bound serial slots with a reload pending and no configuration file. -/
theorem Render_order_witness :
    WellFormed (BoardWith 9000 2) { DemoManager [10, 20] with ConfigLoadNeeded := true } ∧
    ∃ (s1 : c_OutputMgr) (evs : List Event),
      (({ DemoManager [10, 20] with ConfigLoadNeeded := true } : c_OutputMgr).ConfigLoadNeeded
          = true →
        LoadConfig (BoardWith 9000 2) DemoDrivers
          { ({ DemoManager [10, 20] with ConfigLoadNeeded := true } : c_OutputMgr) with
            ConfigLoadNeeded := false } = some s1) ∧
      (({ DemoManager [10, 20] with ConfigLoadNeeded := true } : c_OutputMgr).ConfigLoadNeeded
          = false →
        s1 = { DemoManager [10, 20] with ConfigLoadNeeded := true }) ∧
      WellFormed (BoardWith 9000 2) s1 ∧
      s1.IsOutputPaused
        = ({ DemoManager [10, 20] with ConfigLoadNeeded := true } : c_OutputMgr).IsOutputPaused ∧
      (∃ pre, s1.trace
        = ({ DemoManager [10, 20] with ConfigLoadNeeded := true } : c_OutputMgr).trace ++ pre ∧
        ∀ e ∈ pre, e.isRender = false) ∧
      Render (BoardWith 9000 2) DemoDrivers { DemoManager [10, 20] with ConfigLoadNeeded := true }
        = some (if ({ DemoManager [10, 20] with ConfigLoadNeeded := true } :
            c_OutputMgr).IsOutputPaused then s1
          else { s1 with trace := s1.trace ++ evs }) ∧
      evs.length = (BoardWith 9000 2).OutputChannelId_End ∧
      ∀ k, k < (BoardWith 9000 2).OutputChannelId_End →
        ∃ d : c_OutputCommon, s1.pOutputChannelDrivers[k]? = some (some d) ∧
          evs[k]? = some (Event.DriverRender k d.instanceId) :=
  ⟨by decide,
    Render_order (BoardWith 9000 2) DemoDrivers
      { DemoManager [10, 20] with ConfigLoadNeeded := true } (by decide)⟩

/-- C9: `Begin` returns, and a second call of `Begin` on the state the first call left
returns that very state: no flag, no slot, no file and no entry of the trace (hence no
driver construction and no load of the configuration) is added or changed. -/
theorem Begin_idempotent (b : Board) (m : DriverModel) (s : c_OutputMgr)
    (hlen : s.pOutputChannelDrivers.length = b.OutputChannelId_End) :
    ∃ s1, Begin b m s = some s1 ∧ Begin b m s1 = some s1 := by
  obtain ⟨s1, hrun, hinit, _, _⟩ := Begin_ok b m (fun _ _ => True) (trivial_invariant b m) s hlen
    (fun _ _ _ => trivial)
  exact ⟨s1, hrun, by simp [Begin, hinit]⟩

/-- Witness of C9: the state the constructor leaves on the generic ESP32 board. -/
theorem Begin_idempotent_witness :
    (Constructed GenericESP32 true none true).pOutputChannelDrivers.length
      = GenericESP32.OutputChannelId_End ∧
    ∃ s1, Begin GenericESP32 DemoDrivers (Constructed GenericESP32 true none true) = some s1 ∧
      Begin GenericESP32 DemoDrivers s1 = some s1 :=
  ⟨by decide, Begin_idempotent GenericESP32 DemoDrivers (Constructed GenericESP32 true none true)
    (by decide)⟩

/-- C10: when `Begin` runs for the first time and the configuration file cannot be loaded,
it returns with every slot bound to a driver that reports Disabled, and the trace holds a
call `SaveConfigFile` whose document has, for every slot, an entry with the type code of
Disabled. -/
theorem Begin_load_failure (b : Board) (m : DriverModel) (s : c_OutputMgr)
    (hinit : s.HasBeenInitialized = false) (hfile : s.ConfigFile = none)
    (hlen : s.pOutputChannelDrivers.length = b.OutputChannelId_End)
    (hs : SlotsSatisfy (SlotOK b) s.pOutputChannelDrivers) :
    ∃ (s1 : c_OutputMgr) (data : JsonOutputConfig) (channels : List (Nat × JsonChannel)),
      Begin b m s = some s1 ∧ WellFormed b s1 ∧
      (∀ k, k < b.OutputChannelId_End →
        ∃ d : c_OutputCommon, s1.pOutputChannelDrivers[k]? = some (some d) ∧
          d.OutputType = e_OutputType.OutputType_Disabled) ∧
      (∃ pre post, s1.trace = s.trace ++ pre ++
        Event.SaveConfigFile (some { output_config := some data }) :: post) ∧
      data.channels = some channels ∧
      ∀ k, k < b.OutputChannelId_End →
        ∃ ch : JsonChannel, JsonLookup k channels = some ch ∧
          ch.type = some (b.toInt e_OutputType.OutputType_Disabled) := by
  have hQ := SlotOK_invariant b m
  -- the loop of `Begin`
  obtain ⟨sa, hrunA, hevA, hsA, hbA, _⟩ := InstantiateAll_ok b m (SlotOK b) hQ
    e_OutputType.OutputType_Disabled true { s with HasBeenInitialized := true } hs
  obtain ⟨hfileA, _, _⟩ := InstantiateLoop_file b m e_OutputType.OutputType_Disabled true _ _ sa hrunA
  -- `LoadConfig` fails and calls `CreateNewConfig`
  have hsB : SlotsSatisfy (SlotOK b) (if (emit Event.LoadConfigFile sa).IsBooting
      then emit Event.LoadConfigFile sa
      else logcon LogMsg.ErrorLoadingConfigFile (emit Event.LoadConfigFile sa)).pOutputChannelDrivers := by
    split <;> exact hsA
  have hevB : Evolves sa (if (emit Event.LoadConfigFile sa).IsBooting
      then emit Event.LoadConfigFile sa
      else logcon LogMsg.ErrorLoadingConfigFile (emit Event.LoadConfigFile sa)) := by
    split
    · exact ⟨rfl, rfl, rfl, rfl, rfl, [Event.LoadConfigFile], rfl, by simp [Event.isRender]⟩
    · exact ⟨rfl, rfl, rfl, rfl, rfl, [Event.LoadConfigFile,
        Event.Log LogMsg.ErrorLoadingConfigFile], by simp [logcon, emit],
        by simp [Event.isRender]⟩
  obtain ⟨s4, doc1, data, hev4, hb4, hs4, ht4, hjson, hrunC⟩ :=
    CreateNewConfig_spec b m (SlotOK b) hQ _ hsB
  obtain ⟨data', hjson', hdata'⟩ := CreateJsonConfig_types b m s4 doc1
    (b.toInt e_OutputType.OutputType_Disabled) hb4 (fun j d hj => (hs4 j d hj).1)
    (fun j d hj => by rw [ht4 j d hj])
  rw [hjson] at hjson'
  simp only [Option.some.injEq, JsonOutputConfig.mk.injEq, true_and] at hjson'
  subst hjson'
  obtain ⟨hev5, hdrv5, _, post, htr5⟩ :=
    SetConfig_evolves (some { output_config := some { doc1 with channels := some data } }) s4
  obtain ⟨e1, htr1, _⟩ := hevA.2.2.2.2.2
  obtain ⟨e2, htr2, _⟩ := hevB.2.2.2.2.2
  obtain ⟨e3, htr3, _⟩ := hev4.2.2.2.2.2
  have hlen4 : s4.pOutputChannelDrivers.length = b.OutputChannelId_End := by
    rw [hev4.1, hevB.1, hevA.1]; exact hlen
  have hfileB : (emit Event.LoadConfigFile sa).ConfigFile = none := by
    show sa.ConfigFile = none
    rw [hfileA]; exact hfile
  refine ⟨{ SetConfig (some { output_config := some { doc1 with channels := some data } }) s4 with
      BuildingNewConfig := true },
    { doc1 with channels := some data }, data, ?_, ⟨?_, ?_, ?_⟩, ?_,
    ⟨e1 ++ e2 ++ e3, post, ?_⟩, rfl, ?_⟩
  · simp only [Begin, hinit, hrunA, LoadConfig, hfileB, hrunC]
    simp
  · show (SetConfig _ s4).pOutputChannelDrivers.length = _
    rw [hdrv5]; exact hlen4
  · show AllBound (SetConfig _ s4).pOutputChannelDrivers
    rw [hdrv5]; exact hb4
  · show SlotsSatisfy (SlotOK b) (SetConfig _ s4).pOutputChannelDrivers
    rw [hdrv5]; exact hs4
  · intro k hk
    obtain ⟨d, hd⟩ := AllBound_getElem? _ hb4 k (by rw [hlen4]; exact hk)
    refine ⟨d, ?_, ht4 k d hd⟩
    show (SetConfig _ s4).pOutputChannelDrivers[k]? = _
    rw [hdrv5]; exact hd
  · show (SetConfig _ s4).trace = _
    rw [htr5, htr3, htr2, htr1]
    simp only [List.append_assoc]
  · intro k hk
    exact hdata' k (by rw [hlen4]; exact hk)

/-- Witness of C10: the state the constructor leaves on the generic ESP32 board, with no
configuration file. -/
theorem Begin_load_failure_witness :
    (Constructed GenericESP32 true none true).HasBeenInitialized = false ∧
    (Constructed GenericESP32 true none true).ConfigFile = none ∧
    (Constructed GenericESP32 true none true).pOutputChannelDrivers.length
      = GenericESP32.OutputChannelId_End ∧
    SlotsSatisfy (SlotOK GenericESP32)
      (Constructed GenericESP32 true none true).pOutputChannelDrivers ∧
    ∃ (s1 : c_OutputMgr) (data : JsonOutputConfig) (channels : List (Nat × JsonChannel)),
      Begin GenericESP32 DemoDrivers (Constructed GenericESP32 true none true) = some s1 ∧
      WellFormed GenericESP32 s1 ∧
      (∀ k, k < GenericESP32.OutputChannelId_End →
        ∃ d : c_OutputCommon, s1.pOutputChannelDrivers[k]? = some (some d) ∧
          d.OutputType = e_OutputType.OutputType_Disabled) ∧
      (∃ pre post, s1.trace = (Constructed GenericESP32 true none true).trace ++ pre ++
        Event.SaveConfigFile (some { output_config := some data }) :: post) ∧
      data.channels = some channels ∧
      ∀ k, k < GenericESP32.OutputChannelId_End →
        ∃ ch : JsonChannel, JsonLookup k channels = some ch ∧
          ch.type = some (GenericESP32.toInt e_OutputType.OutputType_Disabled) :=
  ⟨rfl, rfl, by decide, by decide,
    Begin_load_failure GenericESP32 DemoDrivers (Constructed GenericESP32 true none true)
      rfl rfl (by decide) (by decide)⟩

/-- C11: from a state in which every slot is bound, `UpdateDisplayBufferReferences` returns;
the value it stores as `UsedBufferSize` is the sum of the granted lengths of all slots, and
the last call it makes is `InputMgr.SetBufferInfo` with the start of `OutputBuffer` (offset
`0`) and that same sum.  No other call of `SetBufferInfo` is made. -/
theorem UpdateDisplayBufferReferences_reports (b : Board) (m : DriverModel) (s : c_OutputMgr)
    (hbound : AllBound s.pOutputChannelDrivers) :
    ∃ (s1 : c_OutputMgr) (evs : List Event),
      UpdateDisplayBufferReferences b m s = some s1 ∧
      s1.UsedBufferSize = (Granted s1.pOutputChannelDrivers).sum ∧
      s1.trace = s.trace ++ evs ++
        [Event.SetBufferInfo 0 (Granted s1.pOutputChannelDrivers).sum] ∧
      ∀ e ∈ evs, ∀ a n, e ≠ Event.SetBufferInfo a n := by
  obtain ⟨l1, off1, tr1, hrun, _, _, hsum, _⟩ :=
    UpdateDisplayBufferLoop_spec b m s.pOutputChannelDrivers 0 s.trace hbound (Nat.zero_le _)
  obtain ⟨evs, hevs, hno⟩ := UpdateDisplayBufferLoop_events b m
    (fun e => ∀ a n, e ≠ Event.SetBufferInfo a n)
    (fun _ _ _ _ _ h => Event.noConfusion h) (fun _ _ _ _ _ h => Event.noConfusion h)
    (fun _ _ _ h => Event.noConfusion h) _ _ _ _ _ _ hrun
  simp only [Nat.zero_add] at hsum
  subst hsum
  refine ⟨emit (Event.SetBufferInfo 0 (Granted l1).sum)
      { s with pOutputChannelDrivers := l1, UsedBufferSize := (Granted l1).sum, trace := tr1 },
    evs, by simp only [UpdateDisplayBufferReferences, hrun], rfl, ?_, hno⟩
  simp [emit, hevs]

/-- Witness of C11: a 1024-byte buffer and two slots asking for 512 and 600 channels. -/
theorem UpdateDisplayBufferReferences_reports_witness :
    AllBound (DemoManager [512, 600]).pOutputChannelDrivers ∧
    ∃ (s1 : c_OutputMgr) (evs : List Event),
      UpdateDisplayBufferReferences (BoardWith 1024 2) DemoDrivers (DemoManager [512, 600])
        = some s1 ∧
      s1.UsedBufferSize = (Granted s1.pOutputChannelDrivers).sum ∧
      s1.trace = (DemoManager [512, 600]).trace ++ evs ++
        [Event.SetBufferInfo 0 (Granted s1.pOutputChannelDrivers).sum] ∧
      ∀ e ∈ evs, ∀ a n, e ≠ Event.SetBufferInfo a n :=
  ⟨by decide,
    UpdateDisplayBufferReferences_reports (BoardWith 1024 2) DemoDrivers
      (DemoManager [512, 600]) (by decide)⟩

/-- C12: `c_OutputMgr::SetConfig` returns with every slot holding the driver object it held
before (no driver is created, deleted, started or configured, and no instance number is
used up).  Its one outgoing call hands the document to the file manager; when that save
succeeds the document becomes the configuration file and `ConfigLoadNeeded` is set, when it
fails an error is logged and both the file and the flag stay as they were.  After a save
that succeeded, the next `Render` of a running manager performs the reload: it runs
`LoadConfig` on the saved document with the flag cleared and then renders the drivers that
the reload left. -/
theorem SetConfig_keeps_drivers (b : Board) (m : DriverModel) (ConfigData : Option JsonDocument)
    (s : c_OutputMgr) (hwf : WellFormed b s) :
    (SetConfig ConfigData s).pOutputChannelDrivers = s.pOutputChannelDrivers ∧
    (SetConfig ConfigData s).nextInstanceId = s.nextInstanceId ∧
    (SetConfig ConfigData s).trace = s.trace ++ Event.SaveConfigFile ConfigData ::
      (if s.FileSystemWritable then [] else [Event.Log LogMsg.ErrorSavingConfigFile]) ∧
    (SetConfig ConfigData s).ConfigLoadNeeded =
      (if s.FileSystemWritable then true else s.ConfigLoadNeeded) ∧
    (SetConfig ConfigData s).ConfigFile =
      (if s.FileSystemWritable then ConfigData else s.ConfigFile) ∧
    (s.FileSystemWritable = true →
      ∃ (s1 : c_OutputMgr) (evs : List Event),
        LoadConfig b m { SetConfig ConfigData s with ConfigLoadNeeded := false } = some s1 ∧
        Render b m (SetConfig ConfigData s) = some (if s.IsOutputPaused then s1
          else { s1 with trace := s1.trace ++ evs }) ∧
        ∀ k, k < b.OutputChannelId_End →
          ∃ d : c_OutputCommon, s1.pOutputChannelDrivers[k]? = some (some d) ∧
            evs[k]? = some (Event.DriverRender k d.instanceId)) := by
  have hdrv : (SetConfig ConfigData s).pOutputChannelDrivers = s.pOutputChannelDrivers := by
    cases hw : s.FileSystemWritable <;> simp [SetConfig, emit, logcon, hw]
  refine ⟨hdrv, ?_, ?_, ?_, ?_, ?_⟩
  · cases hw : s.FileSystemWritable <;> simp [SetConfig, emit, logcon, hw]
  · cases hw : s.FileSystemWritable <;> simp [SetConfig, emit, logcon, hw]
  · cases hw : s.FileSystemWritable <;> simp [SetConfig, emit, logcon, hw]
  · cases hw : s.FileSystemWritable <;> simp [SetConfig, emit, logcon, hw]
  · intro hw
    obtain ⟨hlen, hb, hs⟩ := hwf
    have hflag : (SetConfig ConfigData s).ConfigLoadNeeded = true := by
      simp [SetConfig, emit, hw]
    have hp : (SetConfig ConfigData s).IsOutputPaused = s.IsOutputPaused := by
      simp [SetConfig, emit, hw]
    obtain ⟨s1, evs, hload, _, hev, hb1, hs1, hrun, _, hk⟩ :=
      Render_spec b m (SlotOK b) (SlotOK_invariant b m) (SetConfig ConfigData s)
        (by rw [hdrv]; exact hlen) (by rw [hdrv]; exact hb) (by rw [hdrv]; exact hs)
    refine ⟨s1, evs, hload hflag, by rw [hrun, hp], ?_⟩
    intro k hklt
    have hlen1 : s1.pOutputChannelDrivers.length = b.OutputChannelId_End := by
      rw [hev.1, hdrv]; exact hlen
    obtain ⟨d, hd⟩ := AllBound_getElem? _ hb1 k (by rw [hlen1]; exact hklt)
    refine ⟨d, hd, ?_⟩
    rw [hk k d hd, (hs1 k d hd).1]


/-- Witness of C12: a new document for two running serial slots, on a writable file
system. -/
theorem SetConfig_keeps_drivers_witness :
    WellFormed (BoardWith 9000 2) (DemoManager [10, 20]) ∧
    (DemoManager [10, 20]).FileSystemWritable = true ∧
    (SetConfig (some DocumentWS2811) (DemoManager [10, 20])).pOutputChannelDrivers
      = (DemoManager [10, 20]).pOutputChannelDrivers ∧
    (SetConfig (some DocumentWS2811) (DemoManager [10, 20])).nextInstanceId
      = (DemoManager [10, 20]).nextInstanceId ∧
    (SetConfig (some DocumentWS2811) (DemoManager [10, 20])).trace
      = (DemoManager [10, 20]).trace ++ Event.SaveConfigFile (some DocumentWS2811) ::
        (if (DemoManager [10, 20]).FileSystemWritable then []
          else [Event.Log LogMsg.ErrorSavingConfigFile]) ∧
    (SetConfig (some DocumentWS2811) (DemoManager [10, 20])).ConfigLoadNeeded =
      (if (DemoManager [10, 20]).FileSystemWritable then true
        else (DemoManager [10, 20]).ConfigLoadNeeded) ∧
    (SetConfig (some DocumentWS2811) (DemoManager [10, 20])).ConfigFile =
      (if (DemoManager [10, 20]).FileSystemWritable then some DocumentWS2811
        else (DemoManager [10, 20]).ConfigFile) ∧
    ((DemoManager [10, 20]).FileSystemWritable = true →
      ∃ (s1 : c_OutputMgr) (evs : List Event),
        LoadConfig (BoardWith 9000 2) DemoDrivers
          { SetConfig (some DocumentWS2811) (DemoManager [10, 20]) with
            ConfigLoadNeeded := false } = some s1 ∧
        Render (BoardWith 9000 2) DemoDrivers
            (SetConfig (some DocumentWS2811) (DemoManager [10, 20]))
          = some (if (DemoManager [10, 20]).IsOutputPaused then s1
            else { s1 with trace := s1.trace ++ evs }) ∧
        ∀ k, k < (BoardWith 9000 2).OutputChannelId_End →
          ∃ d : c_OutputCommon, s1.pOutputChannelDrivers[k]? = some (some d) ∧
            evs[k]? = some (Event.DriverRender k d.instanceId)) :=
  ⟨by decide, by decide,
    SetConfig_keeps_drivers (BoardWith 9000 2) DemoDrivers (some DocumentWS2811)
      (DemoManager [10, 20]) (by decide)⟩

set_option maxRecDepth 100000 in
/-- C13 fails after `CreateNewConfig` has returned.  The manager boots without a
configuration file, so `Begin` runs `CreateNewConfig`, which leaves `BuildingNewConfig` set.
A document that asks for the relay driver on the serial slot 1 is then applied: the factory
binds `Disabled` to slot 1 and logs no diagnostic.  The same document applied to a manager
that never ran `CreateNewConfig` does log the "Cannot Start" line. -/
theorem InstantiateNewOutputChannel_diagnostic_suppressed :
    (FirstBoot (BoardWith 9000 2) DemoDrivers).map (fun s => s.BuildingNewConfig) = some true ∧
    ((FirstBoot (BoardWith 9000 2) DemoDrivers).bind
      (ApplyConfig (BoardWith 9000 2) DemoDrivers DocumentRelayOnSlot1)).map
        (fun r => (r.1.filter Event.isDiagnostic, BoundTypes r.2))
      = some ([], [some e_OutputType.OutputType_WS2811,
                   some e_OutputType.OutputType_Disabled]) ∧
    (ApplyConfig (BoardWith 9000 2) DemoDrivers DocumentRelayOnSlot1 (DemoManager [10, 20])).map
        (fun r => (r.1.filter Event.isDiagnostic, BoundTypes r.2))
      = some ([Event.Log (LogMsg.CannotStart e_OutputType.OutputType_Relay 1)],
              [some e_OutputType.OutputType_WS2811,
               some e_OutputType.OutputType_Disabled]) := by
  decide

/-- C14 fails for a slot whose entry is missing.  Both slots run WS2811; the document has no
entry for slot 1.  `ProcessJsonConfig` logs that the settings of the slot are missing,
leaves the loop, still returns true, and slot 1 stays bound to its WS2811 driver (instance
1): nothing was deleted or created.  For a missing type code or a missing section the slot
does end up disabled. -/
theorem ProcessJsonConfig_missing_entry_keeps_driver :
    (ProcessJsonConfig (BoardWith 9000 2) DemoDrivers DocumentWithoutSlot1
        (DemoManager [10, 20])).map
      (fun r => (r.1, BoundTypes r.2,
        r.2.trace.filter (fun e => decide (e = Event.Log (LogMsg.NoOutputSettingsForChannel 1))),
        BindingCalls 1 r.2.trace))
      = some (true,
          [some e_OutputType.OutputType_WS2811, some e_OutputType.OutputType_WS2811],
          [Event.Log (LogMsg.NoOutputSettingsForChannel 1)], []) ∧
    (ProcessJsonConfig (BoardWith 9000 2) DemoDrivers DocumentWithoutTypeAndSection
        (DemoManager [10, 20])).map (fun r => (r.1, BoundTypes r.2))
      = some (true,
          [some e_OutputType.OutputType_Disabled, some e_OutputType.OutputType_Disabled]) := by
  decide

theorem CreateJsonLoop_frame (b : Board) (m : DriverModel) (key : Nat) :
    ∀ (l : List (Option c_OutputCommon)) (data data1 : List (Nat × JsonChannel)),
      (∀ d : c_OutputCommon, some d ∈ l → d.OutputChannelId ≠ key) →
      CreateJsonLoop b m l data = some data1 → JsonLookup key data1 = JsonLookup key data := by
  intro l
  induction l with
  | nil =>
    intro data data1 _ h
    simp only [CreateJsonLoop, Option.some.injEq] at h
    rw [h]
  | cons x rest ih =>
    intro data data1 hne h
    cases x with
    | none => simp [CreateJsonLoop] at h
    | some d =>
      simp only [CreateJsonLoop] at h
      rw [ih _ _ (fun d0 hd0 => hne d0 (List.mem_cons_of_mem _ hd0)) h]
      simp only [CreateJsonChannel]
      exact JsonLookup_store_ne _ _ _ _ (Ne.symm (hne d (List.mem_cons_self _ _)))

theorem CreateJsonLoop_entries (b : Board) (m : DriverModel) :
    ∀ (l : List (Option c_OutputCommon)) (data : List (Nat × JsonChannel)), AllBound l →
      l.Pairwise (fun x y => ∀ dx dy : c_OutputCommon, x = some dx → y = some dy →
        dx.OutputChannelId ≠ dy.OutputChannelId) →
      ∃ data1, CreateJsonLoop b m l data = some data1 ∧
        ∀ d : c_OutputCommon, some d ∈ l →
          ∃ (ch : JsonChannel) (prev : JsonSection),
            JsonLookup d.OutputChannelId data1 = some ch ∧
            ch.type = some (b.toInt d.OutputType) ∧
            JsonLookup (b.toInt d.OutputType) ch.byType = some
              (m.GetConfig d.driverClass d.config
                { prev with driverName := some d.driverClass }) := by
  intro l
  induction l with
  | nil =>
    intro data _ _
    exact ⟨data, rfl, fun d hd => absurd hd (List.not_mem_nil _)⟩
  | cons x rest ih =>
    intro data hb hpw
    cases x with
    | none => exact absurd rfl (hb none (List.mem_cons_self _ _))
    | some d =>
      obtain ⟨hhead, htail⟩ := List.pairwise_cons.mp hpw
      obtain ⟨data1, hrun, hent⟩ := ih (CreateJsonChannel b m d data)
        (fun x hx => hb x (List.mem_cons_of_mem _ hx)) htail
      refine ⟨data1, by simp only [CreateJsonLoop, hrun], ?_⟩
      intro d0 hd0
      rcases List.mem_cons.mp hd0 with h | h
      · simp only [Option.some.injEq] at h
        subst h
        have hfr := CreateJsonLoop_frame b m d0.OutputChannelId rest _ data1
          (fun d1 hd1 => Ne.symm (hhead (some d1) hd1 d0 d1 rfl rfl)) hrun
        rw [hfr]
        simp only [CreateJsonChannel]
        exact ⟨_, _, JsonLookup_store_self _ _ _, rfl, JsonLookup_store_self _ _ _⟩
      · exact hent d0 h

theorem CreateJsonConfig_entries (b : Board) (m : DriverModel) (s : c_OutputMgr)
    (jsonConfig : JsonOutputConfig) (hb : AllBound s.pOutputChannelDrivers)
    (hid : SlotsSatisfy (fun j d => d.OutputChannelId = j) s.pOutputChannelDrivers) :
    ∃ data, CreateJsonConfig b m s jsonConfig = some { jsonConfig with channels := some data } ∧
      ∀ (k : Nat) (d : c_OutputCommon), s.pOutputChannelDrivers[k]? = some (some d) →
        ∃ (ch : JsonChannel) (prev : JsonSection),
          JsonLookup k data = some ch ∧ ch.type = some (b.toInt d.OutputType) ∧
          JsonLookup (b.toInt d.OutputType) ch.byType = some
            (m.GetConfig d.driverClass d.config
              { prev with driverName := some d.driverClass }) := by
  have hpw : s.pOutputChannelDrivers.Pairwise (fun x y => ∀ dx dy : c_OutputCommon,
      x = some dx → y = some dy → dx.OutputChannelId ≠ dy.OutputChannelId) := by
    rw [List.pairwise_iff_getElem]
    intro i j hi hj hij dx dy hx hy
    have h1 := hid i dx (by rw [List.getElem?_eq_getElem hi, hx])
    have h2 := hid j dy (by rw [List.getElem?_eq_getElem hj, hy])
    omega
  obtain ⟨data1, hrun, hent⟩ := CreateJsonLoop_entries b m s.pOutputChannelDrivers
    (jsonConfig.channels.getD []) hb hpw
  refine ⟨data1, by simp only [CreateJsonConfig, hrun], ?_⟩
  intro k d hd
  have hmem : some d ∈ s.pOutputChannelDrivers := by
    obtain ⟨hk, hget⟩ := List.getElem?_eq_some_iff.mp hd
    rw [← hget]
    exact List.getElem_mem hk
  obtain ⟨ch, prev, h1, h2, h3⟩ := hent d hmem
  rw [hid k d hd] at h1
  exact ⟨ch, prev, h1, h2, h3⟩
theorem ProcessChannelLoop_same_types (b : Board) (m : DriverModel)
    (channels : List (Nat × JsonChannel)) :
    ∀ (is : List Nat) (s : c_OutputMgr),
      (∀ i ∈ is, ∃ (d : c_OutputCommon) (cfg : JsonChannel) (c : Nat) (sec : JsonSection),
        s.pOutputChannelDrivers[i]? = some (some d) ∧ JsonLookup i channels = some cfg ∧
        cfg.type = some c ∧ c < b.OutputType_End ∧ JsonLookup c cfg.byType = some sec ∧
        b.toOutputType c = d.OutputType) →
      ∃ (s1 : c_OutputMgr) (evs : List Event),
        ProcessChannelLoop b m channels is s = some s1 ∧
        s1.trace = s.trace ++ evs ∧ (∀ e ∈ evs, e.isReplacement = false) ∧
        s1.nextInstanceId = s.nextInstanceId ∧
        ∀ (j : Nat) (d : c_OutputCommon), s.pOutputChannelDrivers[j]? = some (some d) →
          ∃ d1 : c_OutputCommon, s1.pOutputChannelDrivers[j]? = some (some d1) ∧
            d1 = { d with config := d1.config } := by
  intro is
  induction is with
  | nil =>
    intro s _
    exact ⟨s, [], rfl, by simp, by simp, rfl, fun j d hd => ⟨d, hd, rfl⟩⟩
  | cons i rest ih =>
    intro s h
    obtain ⟨d, cfg, c, sec, hd, hcfg, hc, hlt, hsec, htype⟩ := h i (List.mem_cons_self _ _)
    have hilt : i < s.pOutputChannelDrivers.length := (List.getElem?_eq_some_iff.mp hd).1
    have hstep : ∀ j : Nat, ∀ dj : c_OutputCommon, s.pOutputChannelDrivers[j]? = some (some dj) →
        ∃ d1 : c_OutputCommon,
          (s.pOutputChannelDrivers.set i
            (some { d with config := m.SetConfig d.driverClass d.config sec }))[j]?
              = some (some d1) ∧ d1 = { dj with config := d1.config } := by
      intro j dj hdj
      by_cases hji : i = j
      · subst hji
        rw [hd] at hdj
        simp only [Option.some.injEq] at hdj
        subst hdj
        exact ⟨_, List.getElem?_set_self hilt, rfl⟩
      · exact ⟨dj, by rw [List.getElem?_set_ne hji]; exact hdj, rfl⟩
    obtain ⟨s1, evs, hrun, htr, hrep, hnext, hslots⟩ := ih
      { s with
        pOutputChannelDrivers := s.pOutputChannelDrivers.set i
          (some { d with config := m.SetConfig d.driverClass d.config sec })
        trace := s.trace ++ [Event.DriverSetConfig i d.instanceId sec] }
      (by
        intro j hj
        obtain ⟨dj, cfgj, cj, secj, hdj, h1, h2, h3, h4, h5⟩ := h j (List.mem_cons_of_mem _ hj)
        obtain ⟨d1, hd1, hrel⟩ := hstep j dj hdj
        refine ⟨d1, cfgj, cj, secj, hd1, h1, h2, h3, h4, ?_⟩
        rw [h5, hrel])
    have hge : ¬ b.OutputType_End ≤ cfg.type.getD b.OutputType_End := by
      rw [hc]; simp only [Option.getD_some]; omega
    have hsec' : JsonLookup (cfg.type.getD b.OutputType_End) cfg.byType = some sec := by
      rw [hc]; exact hsec
    have htype' : b.toOutputType (cfg.type.getD b.OutputType_End) = d.OutputType := by
      rw [hc]; exact htype
    refine ⟨s1, [Event.DriverSetConfig i d.instanceId sec] ++ evs, ?_, ?_, ?_, hnext, ?_⟩
    · simp only [ProcessChannelLoop, hcfg, if_neg hge, hsec', htype',
        Instantiate_same_type b m i true s d hd, DriverSetConfig_spec m i sec s d hd]
      exact hrun
    · rw [htr, List.append_assoc]
    · intro e he
      rcases List.mem_append.mp he with he | he
      · simp only [List.mem_singleton] at he; subst he; rfl
      · exact hrep e he
    · intro j dj hdj
      obtain ⟨d1, hd1, hrel1⟩ := hstep j dj hdj
      obtain ⟨d2, hd2, hrel2⟩ := hslots j d1 hd1
      refine ⟨d2, hd2, ?_⟩
      rw [hrel2, hrel1]

theorem UpdateDisplayBufferReferences_keeps (b : Board) (m : DriverModel) (s : c_OutputMgr)
    (hb : AllBound s.pOutputChannelDrivers) :
    ∃ (s1 : c_OutputMgr) (evs : List Event), UpdateDisplayBufferReferences b m s = some s1 ∧
      s1.trace = s.trace ++ evs ∧ (∀ e ∈ evs, e.isReplacement = false) ∧
      s1.nextInstanceId = s.nextInstanceId ∧
      ∀ (k : Nat) (d : c_OutputCommon), s.pOutputChannelDrivers[k]? = some (some d) →
        ∃ d1 : c_OutputCommon, s1.pOutputChannelDrivers[k]? = some (some d1) ∧
          d1 = { d with pOutputBuffer := d1.pOutputBuffer,
                        OutputBufferSize := d1.OutputBufferSize } := by
  obtain ⟨l1, off1, tr1, hrun, hlen, hall, _, _, _, hslots⟩ :=
    UpdateDisplayBufferLoop_spec b m s.pOutputChannelDrivers 0 s.trace hb (Nat.zero_le _)
  obtain ⟨evs, hevs, hnr⟩ := UpdateDisplayBufferLoop_events b m
    (fun e => e.isReplacement = false)
    (fun _ _ _ => rfl) (fun _ _ _ => rfl) (fun _ => rfl) _ _ _ _ _ _ hrun
  refine ⟨emit (Event.SetBufferInfo 0 off1)
      { s with pOutputChannelDrivers := l1, UsedBufferSize := off1, trace := tr1 },
    evs ++ [Event.SetBufferInfo 0 off1],
    by simp only [UpdateDisplayBufferReferences, hrun], by simp [emit, hevs], ?_, rfl, ?_⟩
  · intro e he
    rcases List.mem_append.mp he with he | he
    · exact hnr e he
    · simp only [List.mem_singleton] at he; subst he; rfl
  · intro k d hd
    have hk : k < l1.length := by rw [hlen]; exact (List.getElem?_eq_some_iff.mp hd).1
    obtain ⟨d1, hd1⟩ := AllBound_getElem? l1 hall k hk
    obtain ⟨d0, hd0, hrel⟩ := hslots k d1 hd1
    rw [hd] at hd0
    simp only [Option.some.injEq] at hd0
    subst hd0
    refine ⟨d1, hd1, ?_⟩
    rw [hrel]
/-- C15: in a running manager (every slot bound, every driver knowing its slot) whose driver
types are enumerators of `e_OutputType`, `CreateJsonConfig` returns, whatever object it is
given to write into; in the object it leaves, every slot `k` has an entry `channels[k]`
whose `type` is the type code of the driver bound to `k` and which holds a section keyed by
that code.  `ProcessJsonConfig` on a document with that object under `output_config` returns
true; none of its calls constructs or destroys a driver, no instance number is used up, and
every slot holds the driver object it held before, with the same type, changed at most in
its configuration and its buffer slice. -/
theorem CreateJsonConfig_round_trip (b : Board) (m : DriverModel) (s : c_OutputMgr)
    (jsonConfig : JsonOutputConfig) (hwf : WellFormed b s)
    (henum : TypeCodesValid b s.pOutputChannelDrivers) :
    ∃ (channels : List (Nat × JsonChannel)) (s1 : c_OutputMgr) (evs : List Event),
      CreateJsonConfig b m s jsonConfig = some { jsonConfig with channels := some channels } ∧
      (∀ k, k < b.OutputChannelId_End →
        ∃ (d : c_OutputCommon) (ch : JsonChannel) (config : JsonSection),
          s.pOutputChannelDrivers[k]? = some (some d) ∧
          JsonLookup k channels = some ch ∧ ch.type = some (b.toInt d.OutputType) ∧
          JsonLookup (b.toInt d.OutputType) ch.byType = some config) ∧
      ProcessJsonConfig b m
          { output_config := some { jsonConfig with channels := some channels } } s
        = some (true, s1) ∧
      s1.trace = s.trace ++ evs ∧ (∀ e ∈ evs, e.isReplacement = false) ∧
      s1.nextInstanceId = s.nextInstanceId ∧
      ∀ k, k < b.OutputChannelId_End →
        ∃ d d1 : c_OutputCommon, s.pOutputChannelDrivers[k]? = some (some d) ∧
          s1.pOutputChannelDrivers[k]? = some (some d1) ∧
          d1 = { d with config := d1.config, pOutputBuffer := d1.pOutputBuffer,
                        OutputBufferSize := d1.OutputBufferSize } := by
  obtain ⟨hlen, hb, hs⟩ := hwf
  obtain ⟨channels, hdoc, hent⟩ := CreateJsonConfig_entries b m s jsonConfig hb
    (fun j d hd => (hs j d hd).1)
  have hbound : ∀ k, k < b.OutputChannelId_End →
      ∃ d : c_OutputCommon, s.pOutputChannelDrivers[k]? = some (some d) :=
    fun k hk => AllBound_getElem? _ hb k (by rw [hlen]; exact hk)
  have hvalid : ∀ (k : Nat) (d : c_OutputCommon), s.pOutputChannelDrivers[k]? = some (some d) →
      b.toInt d.OutputType < b.OutputType_End ∧
        b.toOutputType (b.toInt d.OutputType) = d.OutputType := by
    intro k d hd
    apply henum d
    rw [List.reduceOption_mem_iff]
    obtain ⟨hk, hget⟩ := List.getElem?_eq_some_iff.mp hd
    rw [← hget]
    exact List.getElem_mem hk
  -- the version check
  obtain ⟨s0, hs0, hdrv0, hnext0, pre, htr0, hpre⟩ : ∃ s0 : c_OutputMgr,
      (if jsonConfig.cfgver.getD (if b.CurrentConfigVersion = 0 then 1 else 0) ≠
          b.CurrentConfigVersion
        then logcon LogMsg.IncorrectVersion s else s) = s0 ∧
      s0.pOutputChannelDrivers = s.pOutputChannelDrivers ∧
      s0.nextInstanceId = s.nextInstanceId ∧
      ∃ pre, s0.trace = s.trace ++ pre ∧ ∀ e ∈ pre, e.isReplacement = false := by
    by_cases hv : jsonConfig.cfgver.getD (if b.CurrentConfigVersion = 0 then 1 else 0) ≠
        b.CurrentConfigVersion
    · rw [if_pos hv]
      refine ⟨_, rfl, rfl, rfl, [Event.Log LogMsg.IncorrectVersion], rfl, ?_⟩
      intro e he
      simp only [List.mem_singleton] at he; subst he; rfl
    · rw [if_neg hv]; exact ⟨_, rfl, rfl, rfl, [], by simp, by simp⟩
  -- the loop over the slots
  obtain ⟨s2, evs2, hrun2, htr2, hrep2, hnext2, hslots2⟩ :=
    ProcessChannelLoop_same_types b m channels (List.range b.OutputChannelId_End) s0 (by
      intro i hi
      obtain ⟨d, hd⟩ := hbound i (List.mem_range.mp hi)
      obtain ⟨ch, prev, h1, h2, h3⟩ := hent i d hd
      exact ⟨d, ch, _, _, by rw [hdrv0]; exact hd, h1, h2, (hvalid i d hd).1, h3,
        (hvalid i d hd).2⟩)
  obtain ⟨s2', _, hev2, hb2, _, _, _⟩ := ProcessChannelLoop_ok b m (fun _ _ => True)
    (trivial_invariant b m) channels (List.range b.OutputChannelId_End) s0
    (fun j hj => by rw [hdrv0, hlen]; exact List.mem_range.mp hj)
    (by rw [hdrv0]; exact hb) (fun _ _ _ => trivial)
  have hsame : s2' = s2 := by
    have := hrun2
    simp_all
  subst hsame
  -- the buffer partition
  obtain ⟨s3, evs3, hrun3, htr3, hrep3, hnext3, hslots3⟩ :=
    UpdateDisplayBufferReferences_keeps b m s2' hb2
  refine ⟨channels, s3, pre ++ evs2 ++ evs3, hdoc, ?_, ?_, ?_, ?_, ?_, ?_⟩
  · intro k hk
    obtain ⟨d, hd⟩ := hbound k hk
    obtain ⟨ch, prev, h1, h2, h3⟩ := hent k d hd
    exact ⟨d, ch, _, hd, h1, h2, h3⟩
  · simp only [ProcessJsonConfig, ProcessJsonConfigBody, hs0, hrun2, if_true, hrun3]
  · rw [htr3, htr2, htr0, List.append_assoc, List.append_assoc, List.append_assoc]
  · intro e he
    rcases List.mem_append.mp he with he | he
    · rcases List.mem_append.mp he with he | he
      · exact hpre e he
      · exact hrep2 e he
    · exact hrep3 e he
  · rw [hnext3, hnext2, hnext0]
  · intro k hk
    obtain ⟨d, hd⟩ := hbound k hk
    obtain ⟨d1, hd1, hrel1⟩ := hslots2 k d (by rw [hdrv0]; exact hd)
    obtain ⟨d2, hd2, hrel2⟩ := hslots3 k d1 hd1
    refine ⟨d, d2, hd, hd2, ?_⟩
    rw [hrel2, hrel1]

/-- Witness of C15: two running WS2811 slots, written into an empty object. -/
theorem CreateJsonConfig_round_trip_witness :
    WellFormed (BoardWith 9000 2) (DemoManager [10, 20]) ∧
    TypeCodesValid (BoardWith 9000 2) (DemoManager [10, 20]).pOutputChannelDrivers ∧
    ∃ (channels : List (Nat × JsonChannel)) (s1 : c_OutputMgr) (evs : List Event),
      CreateJsonConfig (BoardWith 9000 2) DemoDrivers (DemoManager [10, 20]) EmptyOutputConfig
        = some { EmptyOutputConfig with channels := some channels } ∧
      (∀ k, k < (BoardWith 9000 2).OutputChannelId_End →
        ∃ (d : c_OutputCommon) (ch : JsonChannel) (config : JsonSection),
          (DemoManager [10, 20]).pOutputChannelDrivers[k]? = some (some d) ∧
          JsonLookup k channels = some ch ∧
          ch.type = some ((BoardWith 9000 2).toInt d.OutputType) ∧
          JsonLookup ((BoardWith 9000 2).toInt d.OutputType) ch.byType = some config) ∧
      ProcessJsonConfig (BoardWith 9000 2) DemoDrivers
          { output_config := some { EmptyOutputConfig with channels := some channels } }
          (DemoManager [10, 20])
        = some (true, s1) ∧
      s1.trace = (DemoManager [10, 20]).trace ++ evs ∧
      (∀ e ∈ evs, e.isReplacement = false) ∧
      s1.nextInstanceId = (DemoManager [10, 20]).nextInstanceId ∧
      ∀ k, k < (BoardWith 9000 2).OutputChannelId_End →
        ∃ d d1 : c_OutputCommon,
          (DemoManager [10, 20]).pOutputChannelDrivers[k]? = some (some d) ∧
          s1.pOutputChannelDrivers[k]? = some (some d1) ∧
          d1 = { d with config := d1.config, pOutputBuffer := d1.pOutputBuffer,
                        OutputBufferSize := d1.OutputBufferSize } :=
  ⟨by decide, by decide,
    CreateJsonConfig_round_trip (BoardWith 9000 2) DemoDrivers (DemoManager [10, 20])
      EmptyOutputConfig (by decide) (by decide)⟩

/-! ## Theorems on the UCS1903 serial driver -/

theorem JsonLookup_foldl_store (value : Nat → Int) (key : Nat) :
    ∀ (keys : List Nat) (json : DriverParams),
      JsonLookup key (keys.foldl (fun json k => JsonStore k (value k) json) json) =
        if key ∈ keys then some (value key) else JsonLookup key json := by
  intro keys
  induction keys with
  | nil => intro json; simp
  | cons k rest ih =>
    intro json
    rw [List.foldl_cons, ih]
    by_cases hr : key ∈ rest
    · simp [hr]
    · by_cases hk : key = k
      · subst hk
        simp [hr, JsonLookup_store_self]
      · simp [hr, hk, JsonLookup_store_ne _ _ _ _ hk]

theorem ConfigFields_GetConfig_lookup (c : ConfigFields) (json : DriverParams) (key : Nat) :
    JsonLookup key (c.GetConfig json) =
      if key ∈ c.recognised then some (c.value key) else JsonLookup key json :=
  JsonLookup_foldl_store c.value key c.recognised json

/-- C16: for the UCS1903 serial driver in any state, any document `cfg` and any object
`out` that `GetConfig` writes into: every key of `cfg` that the base driver or the serial
engine recognises is found in the output of `GetConfig` after `SetConfig cfg` with the value
it has in `cfg`, and a key that neither layer recognises is in the output only if it was in
`out` before (so, written into an empty object, it does not appear). -/
theorem c_OutputUCS1903Uart_GetConfig_SetConfig (d : c_OutputUCS1903Uart)
    (cfg out : DriverParams) :
    (∀ (key : Nat) (v : Int),
      key ∈ d.UCS1903.recognised ∨ key ∈ d.Uart.Config.recognised →
      JsonLookup key cfg = some v →
      JsonLookup key ((d.SetConfig cfg).2.GetConfig out) = some v) ∧
    (∀ key : Nat, key ∉ d.UCS1903.recognised → key ∉ d.Uart.Config.recognised →
      JsonLookup key ((d.SetConfig cfg).2.GetConfig out) = JsonLookup key out) ∧
    (∀ key : Nat, key ∉ d.UCS1903.recognised → key ∉ d.Uart.Config.recognised →
      JsonLookup key ((d.SetConfig cfg).2.GetConfig []) = none) := by
  have hall : ∀ (o : DriverParams) (key : Nat),
      JsonLookup key ((d.SetConfig cfg).2.GetConfig o) =
        if key ∈ d.Uart.Config.recognised then
          some ((JsonLookup key cfg).getD (d.Uart.Config.value key))
        else if key ∈ d.UCS1903.recognised then
          some ((JsonLookup key cfg).getD (d.UCS1903.value key))
        else JsonLookup key o := by
    intro o key
    simp only [c_OutputUCS1903Uart.GetConfig, c_OutputUCS1903Uart.SetConfig,
      ConfigFields_GetConfig_lookup, ConfigFields.SetConfig]
    by_cases h1 : key ∈ d.Uart.Config.recognised
    · simp [h1]
    · by_cases h2 : key ∈ d.UCS1903.recognised
      · simp [h1, h2]
      · simp [h1, h2]
  refine ⟨?_, ?_, ?_⟩
  · intro key v hrec hv
    rw [hall, hv]
    by_cases h1 : key ∈ d.Uart.Config.recognised
    · simp [h1]
    · rcases hrec with h2 | h2
      · simp [h1, h2]
      · exact absurd h2 h1
  · intro key h1 h2
    rw [hall]
    simp [h1, h2]
  · intro key h1 h2
    rw [hall]
    simp [h1, h2, JsonLookup]

/-- Witness of C16: the keys 1 (base driver) and 3 (serial engine) come back with the values
of the document, the key 9, which no layer recognises, does not appear. -/
theorem c_OutputUCS1903Uart_GetConfig_SetConfig_witness :
    JsonLookup 1 ((DemoUCS1903Uart.SetConfig [(1, 5), (3, 7), (9, 9)]).2.GetConfig [])
      = some 5 ∧
    JsonLookup 3 ((DemoUCS1903Uart.SetConfig [(1, 5), (3, 7), (9, 9)]).2.GetConfig [])
      = some 7 ∧
    JsonLookup 9 ((DemoUCS1903Uart.SetConfig [(1, 5), (3, 7), (9, 9)]).2.GetConfig [])
      = none :=
  ⟨(c_OutputUCS1903Uart_GetConfig_SetConfig DemoUCS1903Uart [(1, 5), (3, 7), (9, 9)] []).1
      1 5 (Or.inl (by decide)) (by decide),
    (c_OutputUCS1903Uart_GetConfig_SetConfig DemoUCS1903Uart [(1, 5), (3, 7), (9, 9)] []).1
      3 7 (Or.inr (by decide)) (by decide),
    (c_OutputUCS1903Uart_GetConfig_SetConfig DemoUCS1903Uart [(1, 5), (3, 7), (9, 9)] []).2.2
      9 (by decide) (by decide)⟩
/-- Two calls of `Render` that both come before the minimum frame duration has elapsed since
the previous frame start are both declined: no frame call is made, the frame counter and the
time of the frame start stay, and two dropped frames are counted. -/
theorem c_OutputUCS1903Uart_Render_twice_early (d : c_OutputUCS1903Uart) (t1 t2 : Nat)
    (hpin : d.DataPin ≠ -1) (h1 : ¬ d.FrameMinDuration ≤ t1 - d.FrameStartTime)
    (h2 : ¬ d.FrameMinDuration ≤ t2 - d.FrameStartTime) :
    (d.Render t1).Render t2 = { d with DroppedFrameCount := d.DroppedFrameCount + 2 } := by
  simp [c_OutputUCS1903Uart.Render, c_OutputUCS1903Uart.canRefresh, hpin, h1, h2]

/-- C18: whatever the serial engine held before, after `Begin` of the UCS1903 serial driver
its translation table holds the entries of `Convert2BitIntensityToUCS1903UartDataStream`.
The intensity byte `0b10110100` is cut into the groups `10`, `11`, `01`, `00`, and its
encoding is the serial bytes `0b00110100`, `0b00000100`, `0b00000111`, `0b00110111` in that
order; every intensity byte is encoded as the translations of its four groups, most
significant pair first.  The four translations of the table are pairwise distinct and every
2-bit group has exactly one entry. -/
theorem c_OutputUCS1903Uart_encoding (n : Nat) (d : c_OutputUCS1903Uart) (Intensity : Nat) :
    IntensityGroups 0b10110100 = [0b10, 0b11, 0b01, 0b00] ∧
    (c_OutputUCS1903Uart.Begin n d).Uart.Encode 0b10110100
      = [0b00110100, 0b00000100, 0b00000111, 0b00110111] ∧
    Convert2BitIntensityToUCS1903UartDataStream.map
        (fun e => (c_OutputUCS1903Uart.Begin n d).Uart.Intensity2Uart e.2)
      = Convert2BitIntensityToUCS1903UartDataStream.map (fun e => e.1) ∧
    (c_OutputUCS1903Uart.Begin n d).Uart.Encode Intensity
      = (IntensityGroups Intensity).map (fun g =>
          (c_OutputUCS1903Uart.Begin n d).Uart.Intensity2Uart
            (UartDataBitTranslationId_t.ofGroup g)) ∧
    (Convert2BitIntensityToUCS1903UartDataStream.map (fun e => e.1)).Nodup ∧
    (List.range 4).map (fun g => (Convert2BitIntensityToUCS1903UartDataStream.filter
        (fun e => decide (e.2 = UartDataBitTranslationId_t.ofGroup g))).length)
      = [1, 1, 1, 1] := by
  refine ⟨by decide, rfl, rfl, rfl, by decide, by decide⟩

set_option maxRecDepth 100000 in
/-- C19 fails on the path on which the configuration file does not load.  Two WS2811 slots
run with slices of 10 and 20 bytes and a reload is pending.  Without a loadable file,
`Render` replaces both drivers (instances 16 and 17 are bound at the end) and calls their
`Render` although no buffer call was made in the pass: the new drivers have no slice and
`UsedBufferSize` still is 30.  On the two other paths (a document without `output_config`,
which is rejected, and a document that is processed) the buffer calls come after the
replacement and before the first `Render` of the new drivers. -/
theorem Render_load_failure_skips_buffer_update :
    (Render (BoardWith 9000 2) DemoDrivers (ReloadPending none)).map BufferViewOf
      = some { calls := [Event.DriverRender 0 16, Event.DriverRender 1 17]
               slices := [some (16, none), some (17, none)]
               UsedBufferSize := 30 } ∧
    (Render (BoardWith 9000 2) DemoDrivers
        (ReloadPending (some { output_config := none }))).map BufferViewOf
      = some { calls := [Event.SetOutputBufferAddress 0 16 0, Event.SetOutputBufferSize 0 16 0,
                 Event.SetOutputBufferAddress 1 17 0, Event.SetOutputBufferSize 1 17 0,
                 Event.SetBufferInfo 0 0, Event.DriverRender 0 16, Event.DriverRender 1 17]
               slices := [some (16, some 0), some (17, some 0)]
               UsedBufferSize := 0 } ∧
    (Render (BoardWith 9000 2) DemoDrivers
        (ReloadPending (some DocumentRelayOnSlot1))).map BufferViewOf
      = some { calls := [Event.SetOutputBufferAddress 0 0 0, Event.SetOutputBufferSize 0 0 30,
                 Event.SetOutputBufferAddress 1 2 30, Event.SetOutputBufferSize 1 2 8,
                 Event.SetBufferInfo 0 38, Event.DriverRender 0 0, Event.DriverRender 1 2]
               slices := [some (0, some 0), some (2, some 30)]
               UsedBufferSize := 38 } := by
  decide

set_option maxRecDepth 100000 in
/-- C20 fails on the pulse-train slots.  On the generic ESP32 board (slots 0 and 1 serial,
slots 2 to 5 pulse-train, slot 6 relay) and on the TTGO-T8 board (slots 2 to 4 pulse-train)
a request for UCS1903 binds the UCS1903 serial driver on the serial slots and `Disabled` on
every pulse-train slot, where the same request for WS2811 on the generic board binds the
WS2811 pulse-train driver: the UCS1903 branch asks for `SUPPORT_RMT`, the boards define
`SUPPORT_RMT_OUTPUT`. -/
theorem InstantiateNewOutputChannel_UCS1903_no_pulse_train :
    GenericESP32.SUPPORT_RMT_OUTPUT = true ∧ TTGO_T8.SUPPORT_RMT_OUTPUT = true ∧
    RequestOnEverySlot GenericESP32 DemoDrivers e_OutputType.OutputType_UCS1903
      = some [some (DriverClass.c_OutputUCS1903Uart, e_OutputType.OutputType_UCS1903),
              some (DriverClass.c_OutputUCS1903Uart, e_OutputType.OutputType_UCS1903),
              some (DriverClass.c_OutputDisabled, e_OutputType.OutputType_Disabled),
              some (DriverClass.c_OutputDisabled, e_OutputType.OutputType_Disabled),
              some (DriverClass.c_OutputDisabled, e_OutputType.OutputType_Disabled),
              some (DriverClass.c_OutputDisabled, e_OutputType.OutputType_Disabled),
              some (DriverClass.c_OutputDisabled, e_OutputType.OutputType_Disabled)] ∧
    RequestOnEverySlot TTGO_T8 DemoDrivers e_OutputType.OutputType_UCS1903
      = RequestOnEverySlot GenericESP32 DemoDrivers e_OutputType.OutputType_UCS1903 ∧
    RequestOnEverySlot GenericESP32 DemoDrivers e_OutputType.OutputType_WS2811
      = some [some (DriverClass.c_OutputWS2811Uart, e_OutputType.OutputType_WS2811),
              some (DriverClass.c_OutputWS2811Uart, e_OutputType.OutputType_WS2811),
              some (DriverClass.c_OutputWS2811Rmt, e_OutputType.OutputType_WS2811),
              some (DriverClass.c_OutputWS2811Rmt, e_OutputType.OutputType_WS2811),
              some (DriverClass.c_OutputWS2811Rmt, e_OutputType.OutputType_WS2811),
              some (DriverClass.c_OutputWS2811Rmt, e_OutputType.OutputType_WS2811),
              some (DriverClass.c_OutputDisabled, e_OutputType.OutputType_Disabled)] := by
  decide

/-- C21: `Begin` of the UCS1903 serial driver starts the engine with six data bits and
inverted polarity and loads the table; with these settings the byte the table holds for the
2-bit group with high bit `h` and low bit `l` appears on the line as the eight slots
`1, h, h, 0, 1, l, l, 0`.  For the four entries of the table in source order (groups `00`,
`01`, `10`, `11`) the waveforms are `1000 1000`, `1000 1110`, `1110 1000`, `1110 1110`, and
every entry is below 64, so that its two top bits are clear. -/
theorem c_OutputUCS1903Uart_waveform (n : Nat) (d : c_OutputUCS1903Uart) (h l : Bool) :
    ∃ cfg : OutputUartConfig_t,
      (c_OutputUCS1903Uart.Begin n d).Uart.OutputUartConfig = some cfg ∧
      cfg.UartDataSize = UartDataSize_t.OUTPUT_UART_6N1 ∧ cfg.InvertOutputPolarity = true ∧
      LineWaveform cfg ((c_OutputUCS1903Uart.Begin n d).Uart.Intensity2Uart
          (UartDataBitTranslationId_t.ofGroup (GroupOfBits h l)))
        = [true, h, h, false, true, l, l, false] ∧
      Convert2BitIntensityToUCS1903UartDataStream.map (fun e => LineWaveform cfg e.1)
        = [[true, false, false, false, true, false, false, false],
           [true, false, false, false, true, true, true, false],
           [true, true, true, false, true, false, false, false],
           [true, true, true, false, true, true, true, false]] ∧
      Convert2BitIntensityToUCS1903UartDataStream.map (fun e => decide (e.1 < 64))
        = [true, true, true, true] := by
  refine ⟨_, rfl, rfl, rfl, ?_, rfl, by decide⟩
  cases h <;> cases l
  · have hb : (c_OutputUCS1903Uart.Begin n d).Uart.Intensity2Uart
        (UartDataBitTranslationId_t.ofGroup (GroupOfBits false false)) = 0b00110111 := rfl
    rw [hb]; rfl
  · have hb : (c_OutputUCS1903Uart.Begin n d).Uart.Intensity2Uart
        (UartDataBitTranslationId_t.ofGroup (GroupOfBits false true)) = 0b00000111 := rfl
    rw [hb]; rfl
  · have hb : (c_OutputUCS1903Uart.Begin n d).Uart.Intensity2Uart
        (UartDataBitTranslationId_t.ofGroup (GroupOfBits true false)) = 0b00110100 := rfl
    rw [hb]; rfl
  · have hb : (c_OutputUCS1903Uart.Begin n d).Uart.Intensity2Uart
        (UartDataBitTranslationId_t.ofGroup (GroupOfBits true true)) = 0b00000100 := rfl
    rw [hb]; rfl

/-- C22 fails for a missing slot entry.  Two WS2811 slots run.  For a document without
`output_config` and for one without `channels` `ProcessJsonConfig` returns false, as
claimed; for a document whose `channels` object has no entry for any slot it logs that the
settings of slot 0 are missing and returns true. -/
theorem ProcessJsonConfig_missing_entry_returns_true :
    (ProcessJsonConfig (BoardWith 9000 2) DemoDrivers { output_config := none }
        (DemoManager [10, 20])).map (fun r => r.1) = some false ∧
    (ProcessJsonConfig (BoardWith 9000 2) DemoDrivers DocumentWithoutChannels
        (DemoManager [10, 20])).map (fun r => r.1) = some false ∧
    (ProcessJsonConfig (BoardWith 9000 2) DemoDrivers DocumentWithoutEntries
        (DemoManager [10, 20])).map
      (fun r => (r.1, r.2.trace.filter
        (fun e => decide (e = Event.Log (LogMsg.NoOutputSettingsForChannel 0)))))
      = some (true, [Event.Log (LogMsg.NoOutputSettingsForChannel 0)]) := by
  decide

/-- C23 fails: the version check only logs.  Two WS2811 slots run (instances 0 and 1) and
the current version is 1.  A document with `cfgver` 7, and likewise one without `cfgver`,
has its channel settings applied after the "Incorrect Version" line: `SetConfig` is called
on the driver of slot 0 with the section of the document, and the driver of slot 1 is
destroyed and replaced by a generic serial driver, which is configured from the document
as well. -/
theorem ProcessJsonConfig_version_mismatch_applies :
    (BoardWith 9000 2).CurrentConfigVersion = 1 ∧
    (ProcessJsonConfig (BoardWith 9000 2) DemoDrivers (DocumentWithVersion (some 7))
        (DemoManager [10, 20])).map (fun r => (r.1, BoundTypes r.2, ConfigEffects r.2.trace))
      = some (true,
          [some e_OutputType.OutputType_WS2811, some e_OutputType.OutputType_Serial],
          [Event.Log LogMsg.IncorrectVersion,
           Event.DriverSetConfig 0 0 { driverName := none, params := [(0, 30)] },
           Event.Delete 1 1,
           Event.New 1 2 DriverClass.c_OutputSerial e_OutputType.OutputType_Serial,
           Event.DriverSetConfig 1 2 { driverName := none, params := [(0, 40)] }]) ∧
    (ProcessJsonConfig (BoardWith 9000 2) DemoDrivers (DocumentWithVersion none)
        (DemoManager [10, 20])).map (fun r => (r.1, BoundTypes r.2, ConfigEffects r.2.trace))
      = (ProcessJsonConfig (BoardWith 9000 2) DemoDrivers (DocumentWithVersion (some 7))
        (DemoManager [10, 20])).map
          (fun r => (r.1, BoundTypes r.2, ConfigEffects r.2.trace)) := by
  decide

/-! ## Theorems on the interrupt-enable register of the pulse-train engine -/

theorem land_land_eq_zero (v a b : Nat) (h : a &&& b = 0) : (v &&& a) &&& b = 0 := by
  rw [Nat.and_assoc, h, Nat.and_zero]

theorem land_land_keep (v a b : Nat) (h : a &&& b = b) : (v &&& a) &&& b = v &&& b := by
  rw [Nat.and_assoc, h]

theorem lor_land_distrib (a b c : Nat) : (a ||| b) &&& c = (a &&& c) ||| (b &&& c) := by
  apply Nat.eq_of_testBit_eq
  intro i
  simp only [Nat.testBit_and, Nat.testBit_or]
  cases a.testBit i <;> cases b.testBit i <;> cases c.testBit i <;> rfl

theorem lor_mod_land_keep (v a b : Nat) (h : a &&& b = 0) (hb : 4294967295 &&& b = b) :
    ((v ||| a) % 4294967296) &&& b = v &&& b := by
  have hmod : (v ||| a) % 4294967296 = (v ||| a) &&& 4294967295 :=
    (Nat.and_pow_two_sub_one_eq_mod (v ||| a) 32).symm
  rw [hmod, Nat.and_assoc, hb, lor_land_distrib, h, Nat.or_zero]

theorem lor_mod_land_ne_zero (v a i : Nat) (hi : i < 32) (ha : a.testBit i = true) :
    ((v ||| a) % 4294967296) &&& a ≠ 0 := by
  intro h
  have hbit : (((v ||| a) % 4294967296) &&& a).testBit i = true := by
    have hmod : (v ||| a) % 4294967296 = (v ||| a) % 2 ^ 32 := rfl
    rw [Nat.testBit_and, hmod, Nat.testBit_mod_two_pow, Nat.testBit_or, ha]
    simp [hi]
  rw [h, Nat.zero_testBit] at hbit
  exact absurd hbit (by decide)

theorem RmtMask_disable : ∀ c, c < 8 →
    (4294967295 ^^^ (RMT_INT_TX_END_BIT c ||| RMT_INT_THR_EVNT_BIT c)) &&&
      (RMT_INT_TX_END_BIT c ||| RMT_INT_THR_EVNT_BIT c) = 0 := by
  decide

theorem RmtMask_testBit : ∀ c, c < 8 →
    (RMT_INT_TX_END_BIT c ||| RMT_INT_THR_EVNT_BIT c).testBit (c * 3) = true := by
  decide

theorem RmtChannelBits_disable : ∀ c, c < 8 → ∀ c1, c1 < 8 → c1 ≠ c →
    (4294967295 ^^^ (RMT_INT_TX_END_BIT c ||| RMT_INT_THR_EVNT_BIT c)) &&& RmtChannelBits c1
      = RmtChannelBits c1 := by
  decide

theorem RmtChannelBits_enable : ∀ c, c < 8 → ∀ c1, c1 < 8 → c1 ≠ c →
    (RMT_INT_TX_END_BIT c ||| RMT_INT_THR_EVNT_BIT c) &&& RmtChannelBits c1 = 0 := by
  decide

theorem RmtChannelBits_32 : ∀ c1, c1 < 8 →
    4294967295 &&& RmtChannelBits c1 = RmtChannelBits c1 := by
  decide

theorem RmtMask_other_disable : ∀ c, c < 8 → ∀ c1, c1 < 8 → c1 ≠ c →
    (4294967295 ^^^ (RMT_INT_TX_END_BIT c ||| RMT_INT_THR_EVNT_BIT c)) &&&
        (RMT_INT_TX_END_BIT c1 ||| RMT_INT_THR_EVNT_BIT c1)
      = RMT_INT_TX_END_BIT c1 ||| RMT_INT_THR_EVNT_BIT c1 := by
  decide

theorem RmtMask_other_enable : ∀ c, c < 8 → ∀ c1, c1 < 8 → c1 ≠ c →
    (RMT_INT_TX_END_BIT c ||| RMT_INT_THR_EVNT_BIT c) &&&
        (RMT_INT_TX_END_BIT c1 ||| RMT_INT_THR_EVNT_BIT c1) = 0 := by
  decide

theorem RmtMask_32 : ∀ c1, c1 < 8 →
    4294967295 &&& (RMT_INT_TX_END_BIT c1 ||| RMT_INT_THR_EVNT_BIT c1)
      = RMT_INT_TX_END_BIT c1 ||| RMT_INT_THR_EVNT_BIT c1 := by
  decide

/-- C25: for every value `int_ena` of the interrupt-enable register and all channel ids `c`
and `c1` from 0 to 7 with `c1` different from `c`: after `DisableInterrupts` on channel `c`
`NoFrameInProgress` of `c` is true, after `EnableInterrupts` it is false; both leave the
TX-end, RX-end, error and threshold bits of channel `c1` as they were, and with them the
value of `NoFrameInProgress` of `c1`. -/
theorem RMT_interrupts_per_channel (int_ena c c1 : Nat) (hc : c < 8) (hc1 : c1 < 8)
    (hne : c1 ≠ c) :
    NoFrameInProgress (DisableInterrupts int_ena c) c = true ∧
    NoFrameInProgress (EnableInterrupts int_ena c) c = false ∧
    DisableInterrupts int_ena c &&& RmtChannelBits c1 = int_ena &&& RmtChannelBits c1 ∧
    EnableInterrupts int_ena c &&& RmtChannelBits c1 = int_ena &&& RmtChannelBits c1 ∧
    NoFrameInProgress (DisableInterrupts int_ena c) c1 = NoFrameInProgress int_ena c1 ∧
    NoFrameInProgress (EnableInterrupts int_ena c) c1 = NoFrameInProgress int_ena c1 := by
  have h0 := RmtMask_disable c hc
  have hbit := RmtMask_testBit c hc
  have h1 := RmtChannelBits_disable c hc c1 hc1 hne
  have h2 := RmtChannelBits_enable c hc c1 hc1 hne
  have h3 := RmtChannelBits_32 c1 hc1
  have h4 := RmtMask_other_disable c hc c1 hc1 hne
  have h5 := RmtMask_other_enable c hc c1 hc1 hne
  have h6 := RmtMask_32 c1 hc1
  have hi : c * 3 < 32 := by omega
  refine ⟨?_, ?_, ?_, ?_, ?_, ?_⟩
  · simp only [NoFrameInProgress, DisableInterrupts, land_land_eq_zero _ _ _ h0, decide_True]
  · have := lor_mod_land_ne_zero int_ena _ (c * 3) hi hbit
    simp only [NoFrameInProgress, EnableInterrupts, decide_eq_false_iff_not]
    exact fun h => this h.symm
  · simp only [DisableInterrupts, land_land_keep _ _ _ h1]
  · simp only [EnableInterrupts, lor_mod_land_keep _ _ _ h2 h3]
  · simp only [NoFrameInProgress, DisableInterrupts, land_land_keep _ _ _ h4]
  · simp only [NoFrameInProgress, EnableInterrupts, lor_mod_land_keep _ _ _ h5 h6]

/-- Witness of C25: every interrupt enabled, channel 3 operated on, channel 5 looked at. -/
theorem RMT_interrupts_per_channel_witness :
    NoFrameInProgress (DisableInterrupts 4294967295 3) 3 = true ∧
    NoFrameInProgress (EnableInterrupts 4294967295 3) 3 = false ∧
    DisableInterrupts 4294967295 3 &&& RmtChannelBits 5 = 4294967295 &&& RmtChannelBits 5 ∧
    EnableInterrupts 4294967295 3 &&& RmtChannelBits 5 = 4294967295 &&& RmtChannelBits 5 ∧
    NoFrameInProgress (DisableInterrupts 4294967295 3) 5 = NoFrameInProgress 4294967295 5 ∧
    NoFrameInProgress (EnableInterrupts 4294967295 3) 5 = NoFrameInProgress 4294967295 5 :=
  RMT_interrupts_per_channel 4294967295 3 5 (by decide) (by decide) (by decide)

/-! ## Theorems on the configuration of the inputs and of the network -/

/-- C26 fails for the keys `ip` and `port`.  The MQTT input is configured with a document
that names broker 10.0.0.5 and port 1884; `SetConfig` stores both.  `GetConfig`, called
afterwards on an empty object, writes `user`, `password`, `topic`, `clean`, `hadisco`,
`haprefix`, `effects` and `play`: the object has neither `ip` nor `port`. -/
theorem c_InputMQTT_GetConfig_omits_ip_port :
    (c_InputMQTT.SetConfig DemoConvert false DemoMQTT DocumentMQTT).2.2.ip = "10.0.0.5" ∧
    (c_InputMQTT.SetConfig DemoConvert false DemoMQTT DocumentMQTT).2.2.port = 1884 ∧
    ((c_InputMQTT.SetConfig DemoConvert false DemoMQTT DocumentMQTT).2.2.GetConfig []).map
        (fun e => e.1)
      = [ConstName.CN_user, ConstName.CN_password, ConstName.CN_topic, ConstName.CN_clean,
         ConstName.CN_hadisco, ConstName.CN_haprefix, ConstName.CN_effects,
         ConstName.CN_play] ∧
    JsonObject.get?
      ((c_InputMQTT.SetConfig DemoConvert false DemoMQTT DocumentMQTT).2.2.GetConfig [])
      ConstName.CN_ip = none ∧
    JsonObject.get?
      ((c_InputMQTT.SetConfig DemoConvert false DemoMQTT DocumentMQTT).2.2.GetConfig [])
      ConstName.CN_port = none ∧
    JsonObject.get?
      ((c_InputMQTT.SetConfig DemoConvert false DemoMQTT DocumentMQTT).2.2.GetConfig [])
      ConstName.CN_user = some (JsonValue.str "pixel") := by
  decide

/-- C27 fails on a build with Ethernet support.  The document changes the WiFi network name
and passphrase and nothing else.  `c_WiFiDriver::SetConfig` reports a change for the `wifi`
section; on a WiFi-only build `c_NetworkMgr::SetConfig` returns true, but with
`SUPPORT_ETHERNET` it returns false, although the new name has been stored: the result of
`setFromJSON` for `weus` is assigned to `ConfigChanged` and replaces what the WiFi driver
reported. -/
theorem c_NetworkMgr_SetConfig_drops_wifi_change :
    (c_WiFiDriver.SetConfig (DemoNetworkParams true) DemoNetwork.WiFiDriver
        [(ConstName.CN_ssid, JsonValue.str "workshop"),
         (ConstName.CN_passphrase, JsonValue.str "lights")]).1 = true ∧
    (c_NetworkMgr.SetConfig (DemoNetworkParams false) DemoNetwork (some DocumentNewSsid)).1
      = true ∧
    (c_NetworkMgr.SetConfig (DemoNetworkParams true) DemoNetwork (some DocumentNewSsid)).1
      = false ∧
    (c_NetworkMgr.SetConfig (DemoNetworkParams true) DemoNetwork
        (some DocumentNewSsid)).2.WiFiDriver.ssid = "workshop" := by
  decide

/-- The flag of the network manager agrees with the state machine of the Ethernet driver. -/
theorem EthStep_invariant (n : c_NetworkMgr) (i : EthInput)
    (h : n.IsEthernetConnected = c_EthernetDriver.IsConnected n) :
    (EthStep n i).IsEthernetConnected = c_EthernetDriver.IsConnected (EthStep n i) := by
  unfold c_EthernetDriver.IsConnected at h ⊢
  cases i with
  | Event event AddressIsSet now =>
    cases event <;> cases hs : n.EthernetDriver.pCurrentFsmState <;>
      simp [hs] at h <;>
      simp [EthStep, c_EthernetDriver.onEventHandler, fsm_Eth_state.OnConnect,
        fsm_Eth_state.OnGotIp, fsm_Eth_state.OnDisconnect, fsm_Eth_state.Init,
        c_EthernetDriver.SetUpIp, c_EthernetDriver.NetworkStateChanged,
        c_NetworkMgr.SetEthernetIsConnected, c_NetworkMgr.SetWiFiEnable, c_NetworkMgr.call,
        c_EthernetDriver.SetFsmState, c_EthernetDriver.SetFsmStartTime,
        c_EthernetDriver.AnnounceState, hs, h] <;>
      (repeat' split) <;> simp [c_NetworkMgr.call, hs, h]
  | Poll beginOk now =>
    by_cases hp : n.EthernetDriver.NextPollTime < now
    · cases beginOk <;> cases hs : n.EthernetDriver.pCurrentFsmState <;>
        simp [hs] at h <;>
        simp [EthStep, c_EthernetDriver.Poll, fsm_Eth_state.Poll, fsm_Eth_state.Init,
          c_EthernetDriver.StartEth, c_EthernetDriver.NetworkStateChanged,
          c_NetworkMgr.SetEthernetIsConnected, c_NetworkMgr.SetWiFiEnable, c_NetworkMgr.call,
          c_EthernetDriver.SetFsmState, c_EthernetDriver.SetFsmStartTime,
          c_EthernetDriver.AnnounceState, hs, h, hp] <;>
        (repeat' split) <;> simp [c_NetworkMgr.call, hs, h]
    · simp [EthStep, c_EthernetDriver.Poll, hp, h]
  | Reset stopOk now =>
    cases stopOk <;> cases hf : n.IsEthernetConnected <;>
      simp [EthStep, c_EthernetDriver.reset, fsm_Eth_state.Init,
        c_EthernetDriver.NetworkStateChanged, c_NetworkMgr.SetEthernetIsConnected,
        c_NetworkMgr.SetWiFiEnable, c_NetworkMgr.call, c_EthernetDriver.SetFsmState,
        c_EthernetDriver.SetFsmStartTime, hf]
  | FailedStartEth now =>
    cases hf : n.IsEthernetConnected <;>
      simp [EthStep, c_EthernetDriver.StartEth, fsm_Eth_state.Init,
        c_EthernetDriver.NetworkStateChanged, c_NetworkMgr.SetEthernetIsConnected,
        c_NetworkMgr.SetWiFiEnable, c_NetworkMgr.call, c_EthernetDriver.SetFsmState,
        c_EthernetDriver.SetFsmStartTime, c_EthernetDriver.AnnounceState, hf]

/-- C28: when the flag `IsEthernetConnected` of the network manager agrees with the state
machine at the start (as it does after the constructors, with the flag clear and the state
`Boot`), then after any sequence of hardware events, `Poll` calls, resets and failed
`StartEth` calls, each handler run to its end, the flag is set if and only if the state
machine is in `ConnectedToEth`, which is what `c_EthernetDriver::IsConnected` returns. -/
theorem Ethernet_flag_matches_state (n : c_NetworkMgr) (inputs : List EthInput)
    (h : n.IsEthernetConnected = c_EthernetDriver.IsConnected n) :
    (EthRun n inputs).IsEthernetConnected = c_EthernetDriver.IsConnected (EthRun n inputs) ∧
    ((EthRun n inputs).IsEthernetConnected = true ↔
      (EthRun n inputs).EthernetDriver.pCurrentFsmState = fsm_Eth_state.ConnectedToEth) := by
  have hinv : ∀ (l : List EthInput) (m : c_NetworkMgr),
      m.IsEthernetConnected = c_EthernetDriver.IsConnected m →
      (EthRun m l).IsEthernetConnected = c_EthernetDriver.IsConnected (EthRun m l) := by
    intro l
    induction l with
    | nil => intro m hm; exact hm
    | cons i rest ih =>
      intro m hm
      exact ih (EthStep m i) (EthStep_invariant m i hm)
  have h1 := hinv inputs n h
  refine ⟨h1, ?_⟩
  rw [h1]
  simp [c_EthernetDriver.IsConnected]

/-- Witness of C28: from the constructed state the driver powers up, connects, gets an
address, loses the link and is reset. -/
theorem Ethernet_flag_matches_state_witness :
    DemoNetwork.IsEthernetConnected = c_EthernetDriver.IsConnected DemoNetwork ∧
    (EthRun DemoNetwork
        [EthInput.Poll true 20000, EthInput.Poll true 21000,
         EthInput.Event EthHwEvent.ARDUINO_EVENT_ETH_CONNECTED false 21500,
         EthInput.Event EthHwEvent.ARDUINO_EVENT_ETH_GOT_IP false 22000,
         EthInput.Event EthHwEvent.ARDUINO_EVENT_ETH_DISCONNECTED false 23000,
         EthInput.Reset true 24000]).IsEthernetConnected
      = c_EthernetDriver.IsConnected (EthRun DemoNetwork
        [EthInput.Poll true 20000, EthInput.Poll true 21000,
         EthInput.Event EthHwEvent.ARDUINO_EVENT_ETH_CONNECTED false 21500,
         EthInput.Event EthHwEvent.ARDUINO_EVENT_ETH_GOT_IP false 22000,
         EthInput.Event EthHwEvent.ARDUINO_EVENT_ETH_DISCONNECTED false 23000,
         EthInput.Reset true 24000]) ∧
    ((EthRun DemoNetwork
        [EthInput.Poll true 20000, EthInput.Poll true 21000,
         EthInput.Event EthHwEvent.ARDUINO_EVENT_ETH_CONNECTED false 21500,
         EthInput.Event EthHwEvent.ARDUINO_EVENT_ETH_GOT_IP false 22000,
         EthInput.Event EthHwEvent.ARDUINO_EVENT_ETH_DISCONNECTED false 23000,
         EthInput.Reset true 24000]).IsEthernetConnected = true ↔
      (EthRun DemoNetwork
        [EthInput.Poll true 20000, EthInput.Poll true 21000,
         EthInput.Event EthHwEvent.ARDUINO_EVENT_ETH_CONNECTED false 21500,
         EthInput.Event EthHwEvent.ARDUINO_EVENT_ETH_GOT_IP false 22000,
         EthInput.Event EthHwEvent.ARDUINO_EVENT_ETH_DISCONNECTED false 23000,
         EthInput.Reset true 24000]).EthernetDriver.pCurrentFsmState
        = fsm_Eth_state.ConnectedToEth) :=
  ⟨by decide,
    Ethernet_flag_matches_state DemoNetwork
      [EthInput.Poll true 20000, EthInput.Poll true 21000,
       EthInput.Event EthHwEvent.ARDUINO_EVENT_ETH_CONNECTED false 21500,
       EthInput.Event EthHwEvent.ARDUINO_EVENT_ETH_GOT_IP false 22000,
       EthInput.Event EthHwEvent.ARDUINO_EVENT_ETH_DISCONNECTED false 23000,
       EthInput.Reset true 24000] (by decide)⟩

/-! ## Theorems on the collection of web socket fragments -/

theorem memcpy_length (buffer : List Nat) (index : Nat) (data buffer1 : List Nat)
    (h : memcpy buffer index data = some buffer1) : buffer1.length = buffer.length := by
  unfold memcpy at h
  split at h
  · next hfit =>
    simp only [Option.some.injEq] at h
    subst h
    simp only [List.length_append, List.length_take, List.length_drop]
    omega
  · simp at h

theorem onWsEventData_text_fits (Size : Nat) (parses : List Nat → Bool) (w : c_WebMgr)
    (MessageInfo : AwsFrameInfo) (data : List Nat) (buffer1 : List Nat)
    (htext : MessageInfo.isText = true)
    (hmod : (MessageInfo.index + data.length) % 18446744073709551616
      = MessageInfo.index + data.length)
    (hfit : MessageInfo.index + data.length ≤ Size)
    (hcopy : memcpy (if MessageInfo.index = 0
        then List.replicate w.WebSocketFrameCollectionBuffer.length 0
        else w.WebSocketFrameCollectionBuffer) MessageInfo.index data = some buffer1) :
    ∃ evs : List WebCall,
      onWsEventData Size parses w MessageInfo data
        = some { WebSocketFrameCollectionBuffer := buffer1, calls := w.calls ++ evs } ∧
      ((∃ c ∈ evs, c.isRequestHandler = true) →
        MessageInfo.index + data.length = MessageInfo.len ∧ MessageInfo.final = true) := by
  have hnot : ¬ Size < MessageInfo.index + data.length := by omega
  unfold onWsEventData
  simp only [hmod, htext, hcopy, if_neg hnot]
  by_cases hlen : MessageInfo.index + data.length = MessageInfo.len
  · cases hfin : MessageInfo.final with
    | false =>
      refine ⟨[], by simp [hlen], ?_⟩
      rintro ⟨c, hc, _⟩; simp at hc
    | true =>
      by_cases hX : buffer1.head? = some 88
      · exact ⟨[WebCall.FeedWDT, WebCall.ProcessXseriesRequests],
          by simp [hlen, hX], fun _ => ⟨hlen, rfl⟩⟩
      · by_cases hV : buffer1.head? = some 86
        · exact ⟨[WebCall.FeedWDT, WebCall.ProcessVseriesRequests],
            by simp [hlen, hX, hV], fun _ => ⟨hlen, rfl⟩⟩
        · by_cases hG : buffer1.head? = some 71
          · exact ⟨[WebCall.FeedWDT, WebCall.ProcessGseriesRequests],
              by simp [hlen, hX, hV, hG], fun _ => ⟨hlen, rfl⟩⟩
          · cases hp : parses buffer1 with
            | false =>
              exact ⟨[WebCall.FeedWDT, WebCall.PauseOutputs, WebCall.deserializeJson,
                  WebCall.LogParseError],
                by simp [hlen, hX, hV, hG], fun _ => ⟨hlen, rfl⟩⟩
            | true =>
              exact ⟨[WebCall.FeedWDT, WebCall.PauseOutputs, WebCall.deserializeJson,
                  WebCall.ProcessReceivedJsonMessage],
                by simp [hlen, hX, hV, hG], fun _ => ⟨hlen, rfl⟩⟩
  · refine ⟨[], by simp [hlen], ?_⟩
    rintro ⟨c, hc, _⟩; simp at hc

/-- C29: a fragment of `len` bytes at the offset `index` (with `index + len` below `2 ^ 64`)
arrives for a collection buffer that has at least `WebSocketFrameCollectionBufferSize`
bytes.  `onWsEvent` returns without writing past the buffer, whose size stays as it is.  The
buffer it starts from is the old one, cleared when a text fragment has the offset 0.  If the
fragment is text and `index + len` is at most `WebSocketFrameCollectionBufferSize`, the
bytes are copied to the offsets from `index` on, which lie inside the buffer; otherwise
none of its bytes is stored and no request handler is called.  A request handler is called
only if the fragment is text, fits, ends at the announced length of the message and
belongs to a final frame. -/
theorem onWsEvent_fragment (WebSocketFrameCollectionBufferSize : Nat) (parses : List Nat → Bool)
    (w : c_WebMgr) (MessageInfo : AwsFrameInfo) (data : List Nat)
    (hcap : WebSocketFrameCollectionBufferSize ≤ w.WebSocketFrameCollectionBuffer.length)
    (hsum : MessageInfo.index + data.length < 18446744073709551616) :
    ∃ (w1 : c_WebMgr) (evs : List WebCall),
      onWsEvent WebSocketFrameCollectionBufferSize parses w AwsEventType.WS_EVT_DATA
        MessageInfo data = some w1 ∧
      w1.calls = w.calls ++ evs ∧
      w1.WebSocketFrameCollectionBuffer.length = w.WebSocketFrameCollectionBuffer.length ∧
      (MessageInfo.isText = true →
        MessageInfo.index + data.length ≤ WebSocketFrameCollectionBufferSize →
        MessageInfo.index + data.length ≤ w.WebSocketFrameCollectionBuffer.length ∧
        memcpy (if MessageInfo.index = 0
            then List.replicate w.WebSocketFrameCollectionBuffer.length 0
            else w.WebSocketFrameCollectionBuffer) MessageInfo.index data
          = some w1.WebSocketFrameCollectionBuffer) ∧
      (MessageInfo.isText = true →
        WebSocketFrameCollectionBufferSize < MessageInfo.index + data.length →
        w1.WebSocketFrameCollectionBuffer = (if MessageInfo.index = 0
            then List.replicate w.WebSocketFrameCollectionBuffer.length 0
            else w.WebSocketFrameCollectionBuffer) ∧
        ∀ c ∈ evs, c.isRequestHandler = false) ∧
      (MessageInfo.isText = false →
        w1.WebSocketFrameCollectionBuffer = w.WebSocketFrameCollectionBuffer ∧
        ∀ c ∈ evs, c.isRequestHandler = false) ∧
      ((∃ c ∈ evs, c.isRequestHandler = true) →
        MessageInfo.isText = true ∧
        MessageInfo.index + data.length ≤ WebSocketFrameCollectionBufferSize ∧
        MessageInfo.index + data.length = MessageInfo.len ∧ MessageInfo.final = true) := by
  have hmod : (MessageInfo.index + data.length) % 18446744073709551616
      = MessageInfo.index + data.length := Nat.mod_eq_of_lt hsum
  have hquiet : ∀ (l : List WebCall), (∀ c ∈ l, c.isRequestHandler = false) →
      ¬ ∃ c ∈ l ++ [WebCall.FeedWDT], c.isRequestHandler = true := by
    rintro l hl ⟨c, hc, hreq⟩
    rcases List.mem_append.mp hc with hc | hc
    · rw [hl c hc] at hreq; exact absurd hreq (by decide)
    · simp only [List.mem_singleton] at hc
      subst hc
      exact absurd hreq (by decide)
  have hmem : ∀ (l : List WebCall), (∀ c ∈ l, c.isRequestHandler = false) →
      ∀ c ∈ l ++ [WebCall.FeedWDT], c.isRequestHandler = false := by
    intro l hl c hc
    rcases List.mem_append.mp hc with hc | hc
    · exact hl c hc
    · simp only [List.mem_singleton] at hc
      subst hc
      rfl
  have hone : ∀ x : WebCall, x.isRequestHandler = false →
      ∀ c ∈ [x], c.isRequestHandler = false := by
    intro x hx c hc
    simp only [List.mem_singleton] at hc
    subst hc
    exact hx
  cases htext : MessageInfo.isText with
  | false =>
    refine ⟨{ w with calls := w.calls ++ [WebCall.LogIgnoreBinary] ++ [WebCall.FeedWDT] },
      [WebCall.LogIgnoreBinary] ++ [WebCall.FeedWDT],
      by simp [onWsEvent, onWsEventData, htext], by simp, rfl, ?_, ?_, ?_, ?_⟩
    · intro h; simp at h
    · intro h; simp at h
    · exact fun _ => ⟨rfl, hmem _ (hone _ rfl)⟩
    · exact fun h => absurd h (hquiet _ (hone _ rfl))
  | true =>
    by_cases hfit : MessageInfo.index + data.length ≤ WebSocketFrameCollectionBufferSize
    · have hin : MessageInfo.index + data.length ≤ (if MessageInfo.index = 0
          then List.replicate w.WebSocketFrameCollectionBuffer.length 0
          else w.WebSocketFrameCollectionBuffer).length := by
        split
        · rw [List.length_replicate]; omega
        · omega
      have hcopy : memcpy (if MessageInfo.index = 0
          then List.replicate w.WebSocketFrameCollectionBuffer.length 0
          else w.WebSocketFrameCollectionBuffer) MessageInfo.index data
          = some ((if MessageInfo.index = 0
              then List.replicate w.WebSocketFrameCollectionBuffer.length 0
              else w.WebSocketFrameCollectionBuffer).take MessageInfo.index ++ data ++
            (if MessageInfo.index = 0
              then List.replicate w.WebSocketFrameCollectionBuffer.length 0
              else w.WebSocketFrameCollectionBuffer).drop (MessageInfo.index + data.length)) := by
        simp only [memcpy, if_pos hin]
      obtain ⟨evs, hrun, hdisp⟩ := onWsEventData_text_fits WebSocketFrameCollectionBufferSize
        parses w MessageInfo data _ htext hmod hfit hcopy
      refine ⟨_, evs ++ [WebCall.FeedWDT], by simp only [onWsEvent, hrun, Option.map_some']; rfl,
        by simp, ?_, ?_, ?_, ?_, ?_⟩
      · have hl := memcpy_length _ _ _ _ hcopy
        have hbase : (if MessageInfo.index = 0
            then List.replicate w.WebSocketFrameCollectionBuffer.length 0
            else w.WebSocketFrameCollectionBuffer).length
            = w.WebSocketFrameCollectionBuffer.length := by
          split
          · rw [List.length_replicate]
          · rfl
        exact hl.trans hbase
      · exact fun _ _ => ⟨by omega, hcopy⟩
      · intro _ h; omega
      · intro h; simp at h
      · rintro ⟨c, hc, hreq⟩
        rcases List.mem_append.mp hc with hc | hc
        · obtain ⟨h1, h2⟩ := hdisp ⟨c, hc, hreq⟩
          exact ⟨rfl, hfit, h1, h2⟩
        · simp only [List.mem_singleton] at hc
          subst hc
          exact absurd hreq (by decide)
    · have hlong : WebSocketFrameCollectionBufferSize < MessageInfo.index + data.length := by
        omega
      refine ⟨c_WebMgr.mk (if MessageInfo.index = 0
            then List.replicate w.WebSocketFrameCollectionBuffer.length 0
            else w.WebSocketFrameCollectionBuffer)
          (w.calls ++ [WebCall.LogTooLong] ++ [WebCall.FeedWDT]),
        [WebCall.LogTooLong] ++ [WebCall.FeedWDT],
        by simp [onWsEvent, onWsEventData, htext, hmod, hlong], by simp, ?_, ?_, ?_, ?_, ?_⟩
      · show (if MessageInfo.index = 0
            then List.replicate w.WebSocketFrameCollectionBuffer.length 0
            else w.WebSocketFrameCollectionBuffer).length = _
        split
        · rw [List.length_replicate]
        · rfl
      · intro _ h; omega
      · exact fun _ _ => ⟨rfl, hmem _ (hone _ rfl)⟩
      · intro h; simp at h
      · exact fun h => absurd h (hquiet _ (hone _ rfl))

/-- Witness of C29: the three bytes `X`, `A`, 0 arrive as a complete text message for a
buffer of 17 bytes whose limit is 16. -/
theorem onWsEvent_fragment_witness :
    16 ≤ DemoWebMgr.WebSocketFrameCollectionBuffer.length ∧
    ({ isText := true, index := 0, len := 3, final := true } : AwsFrameInfo).index
      + [88, 65, 0].length < 18446744073709551616 ∧
    ∃ (w1 : c_WebMgr) (evs : List WebCall),
      onWsEvent 16 (fun _ => true) DemoWebMgr AwsEventType.WS_EVT_DATA
        { isText := true, index := 0, len := 3, final := true } [88, 65, 0] = some w1 ∧
      w1.calls = DemoWebMgr.calls ++ evs ∧
      w1.WebSocketFrameCollectionBuffer.length
        = DemoWebMgr.WebSocketFrameCollectionBuffer.length ∧
      (({ isText := true, index := 0, len := 3, final := true } : AwsFrameInfo).isText = true →
        ({ isText := true, index := 0, len := 3, final := true } : AwsFrameInfo).index
          + [88, 65, 0].length ≤ 16 →
        ({ isText := true, index := 0, len := 3, final := true } : AwsFrameInfo).index
          + [88, 65, 0].length ≤ DemoWebMgr.WebSocketFrameCollectionBuffer.length ∧
        memcpy (if ({ isText := true, index := 0, len := 3, final := true } :
              AwsFrameInfo).index = 0
            then List.replicate DemoWebMgr.WebSocketFrameCollectionBuffer.length 0
            else DemoWebMgr.WebSocketFrameCollectionBuffer)
            ({ isText := true, index := 0, len := 3, final := true } : AwsFrameInfo).index
            [88, 65, 0]
          = some w1.WebSocketFrameCollectionBuffer) ∧
      (({ isText := true, index := 0, len := 3, final := true } : AwsFrameInfo).isText = true →
        16 < ({ isText := true, index := 0, len := 3, final := true } : AwsFrameInfo).index
          + [88, 65, 0].length →
        w1.WebSocketFrameCollectionBuffer
          = (if ({ isText := true, index := 0, len := 3, final := true } :
              AwsFrameInfo).index = 0
            then List.replicate DemoWebMgr.WebSocketFrameCollectionBuffer.length 0
            else DemoWebMgr.WebSocketFrameCollectionBuffer) ∧
        ∀ c ∈ evs, c.isRequestHandler = false) ∧
      (({ isText := true, index := 0, len := 3, final := true } : AwsFrameInfo).isText = false →
        w1.WebSocketFrameCollectionBuffer = DemoWebMgr.WebSocketFrameCollectionBuffer ∧
        ∀ c ∈ evs, c.isRequestHandler = false) ∧
      ((∃ c ∈ evs, c.isRequestHandler = true) →
        ({ isText := true, index := 0, len := 3, final := true } : AwsFrameInfo).isText = true ∧
        ({ isText := true, index := 0, len := 3, final := true } : AwsFrameInfo).index
          + [88, 65, 0].length ≤ 16 ∧
        ({ isText := true, index := 0, len := 3, final := true } : AwsFrameInfo).index
          + [88, 65, 0].length
          = ({ isText := true, index := 0, len := 3, final := true } : AwsFrameInfo).len ∧
        ({ isText := true, index := 0, len := 3, final := true } : AwsFrameInfo).final = true) :=
  ⟨by decide, by decide,
    onWsEvent_fragment 16 (fun _ => true) DemoWebMgr
      { isText := true, index := 0, len := 3, final := true } [88, 65, 0]
      (by decide) (by decide)⟩

/-- C30 fails for the TTGO-T8 board.  The pins of the generic ESP32 board (slots 2, 13, 12,
14, 32, 33 and 10, SD card 19, 23, 18 and 4) are pairwise distinct.  On the TTGO-T8 board
the slots have the pins 0, 4, 25, 26, 27, 14 and 10 and the SD card 2, 15, 14 and 13: slot 5
(`DEFAULT_RMT_3_GPIO`) and the clock line of the SD card both are GPIO 14. -/
theorem TTGO_T8_pin_shared :
    BoardPins GenericESP32 GenericESP32_SdCard = [2, 13, 12, 14, 32, 33, 10, 19, 23, 18, 4] ∧
    (BoardPins GenericESP32 GenericESP32_SdCard).Nodup ∧
    BoardPins TTGO_T8 TTGO_T8_SdCard = [0, 4, 25, 26, 27, 14, 10, 2, 15, 14, 13] ∧
    ¬ (BoardPins TTGO_T8 TTGO_T8_SdCard).Nodup ∧
    (TTGO_T8.OutputChannelIdToGpioAndPort.map (fun e => e.1))[5]? = some 14 ∧
    TTGO_T8_SdCard.SD_CARD_CLK_PIN = 14 := by
  decide

/-! ## Theorems on the composite document of `CreateNewConfig` -/

theorem LegalOn_named (b : Board) (k : Nat) (t : e_OutputType) (h : LegalOn b k t = true) :
    t ∈ NamedOutputTypes := by
  cases t <;> simp [NamedOutputTypes, LegalOn] at h ⊢

theorem CreateJsonChannel_lookup (b : Board) (m : DriverModel) (d : c_OutputCommon)
    (X : List (Nat × JsonChannel)) :
    JsonLookup d.OutputChannelId (CreateJsonChannel b m d X) = some
      { type := some (b.toInt d.OutputType)
        byType := JsonStore (b.toInt d.OutputType)
          (m.GetConfig d.driverClass d.config
            { (JsonLookup (b.toInt d.OutputType)
                ((JsonLookup d.OutputChannelId X).getD ⟨none, []⟩).byType).getD ⟨none, []⟩ with
              driverName := some d.driverClass })
          ((JsonLookup d.OutputChannelId X).getD ⟨none, []⟩).byType } := by
  simp only [CreateJsonChannel]
  exact JsonLookup_store_self _ _ _

theorem CreateJsonLoop_exact (b : Board) (m : DriverModel) :
    ∀ (l : List (Option c_OutputCommon)) (data : List (Nat × JsonChannel)), AllBound l →
      l.Pairwise (fun x y => ∀ dx dy : c_OutputCommon, x = some dx → y = some dy →
        dx.OutputChannelId ≠ dy.OutputChannelId) →
      ∃ data1, CreateJsonLoop b m l data = some data1 ∧
        ∀ d : c_OutputCommon, some d ∈ l →
          JsonLookup d.OutputChannelId data1
            = JsonLookup d.OutputChannelId (CreateJsonChannel b m d data) := by
  intro l
  induction l with
  | nil =>
    intro data _ _
    exact ⟨data, rfl, fun d hd => absurd hd (List.not_mem_nil _)⟩
  | cons x rest ih =>
    intro data hb hpw
    cases x with
    | none => exact absurd rfl (hb none (List.mem_cons_self _ _))
    | some d =>
      obtain ⟨hhead, htail⟩ := List.pairwise_cons.mp hpw
      obtain ⟨data1, hrun, hent⟩ := ih (CreateJsonChannel b m d data)
        (fun x hx => hb x (List.mem_cons_of_mem _ hx)) htail
      refine ⟨data1, by simp only [CreateJsonLoop, hrun], ?_⟩
      intro d0 hd0
      rcases List.mem_cons.mp hd0 with h | h
      · simp only [Option.some.injEq] at h
        subst h
        exact CreateJsonLoop_frame b m d0.OutputChannelId rest _ data1
          (fun d1 hd1 => Ne.symm (hhead (some d1) hd1 d0 d1 rfl rfl)) hrun
      · rw [hent d0 h, CreateJsonChannel_lookup, CreateJsonChannel_lookup]
        have hne : d0.OutputChannelId ≠ d.OutputChannelId :=
          Ne.symm (hhead (some d0) h d d0 rfl rfl)
        have hsame : JsonLookup d0.OutputChannelId (CreateJsonChannel b m d data)
            = JsonLookup d0.OutputChannelId data := by
          simp only [CreateJsonChannel]
          exact JsonLookup_store_ne _ _ _ _ hne
        rw [hsame]

theorem CreateJsonConfig_sections (b : Board) (m : DriverModel) (s : c_OutputMgr)
    (jsonConfig : JsonOutputConfig) (hb : AllBound s.pOutputChannelDrivers)
    (hid : SlotsSatisfy (fun j d => d.OutputChannelId = j) s.pOutputChannelDrivers) :
    ∃ data, CreateJsonConfig b m s jsonConfig = some { jsonConfig with channels := some data } ∧
      (∀ (k : Nat) (d : c_OutputCommon), s.pOutputChannelDrivers[k]? = some (some d) →
        HasSection b m data k d.OutputType ∧
        ∃ ch : JsonChannel, JsonLookup k data = some ch ∧
          ch.type = some (b.toInt d.OutputType)) ∧
      (∀ (k : Nat) (d : c_OutputCommon) (t : e_OutputType),
        s.pOutputChannelDrivers[k]? = some (some d) →
        (b.toInt d.OutputType = b.toInt t → d.OutputType = t) →
        HasSection b m (jsonConfig.channels.getD []) k t → HasSection b m data k t) := by
  have hpw : s.pOutputChannelDrivers.Pairwise (fun x y => ∀ dx dy : c_OutputCommon,
      x = some dx → y = some dy → dx.OutputChannelId ≠ dy.OutputChannelId) := by
    rw [List.pairwise_iff_getElem]
    intro i j hi hj hij dx dy hx hy
    have h1 := hid i dx (by rw [List.getElem?_eq_getElem hi, hx])
    have h2 := hid j dy (by rw [List.getElem?_eq_getElem hj, hy])
    omega
  obtain ⟨data1, hrun, hent⟩ := CreateJsonLoop_exact b m s.pOutputChannelDrivers
    (jsonConfig.channels.getD []) hb hpw
  have hlook : ∀ (k : Nat) (d : c_OutputCommon), s.pOutputChannelDrivers[k]? = some (some d) →
      ∃ (prev : JsonSection) (old : List (Nat × JsonSection)),
        old = ((JsonLookup k (jsonConfig.channels.getD [])).getD ⟨none, []⟩).byType ∧
        JsonLookup k data1 = some
          { type := some (b.toInt d.OutputType)
            byType := JsonStore (b.toInt d.OutputType)
              (m.GetConfig d.driverClass d.config { prev with driverName := some d.driverClass })
              old } := by
    intro k d hd
    have hmem : some d ∈ s.pOutputChannelDrivers := by
      obtain ⟨hk, hget⟩ := List.getElem?_eq_some_iff.mp hd
      rw [← hget]
      exact List.getElem_mem hk
    have h1 := hent d hmem
    rw [CreateJsonChannel_lookup, hid k d hd] at h1
    exact ⟨_, _, rfl, h1⟩
  refine ⟨data1, by simp only [CreateJsonConfig, hrun], ?_, ?_⟩
  · intro k d hd
    obtain ⟨prev, old, _, hl⟩ := hlook k d hd
    exact ⟨⟨_, d, prev, hl, hid k d hd, rfl, JsonLookup_store_self _ _ _⟩, _, hl, rfl⟩
  · intro k d t hd hinj hsec
    obtain ⟨ch, d0, prev0, hch, hid0, ht0, hs0⟩ := hsec
    obtain ⟨prev, old, hold, hl⟩ := hlook k d hd
    by_cases hcode : b.toInt d.OutputType = b.toInt t
    · have ht := hinj hcode
      refine ⟨_, d, prev, hl, hid k d hd, ht, ?_⟩
      rw [← hcode]
      exact JsonLookup_store_self _ _ _
    · refine ⟨_, d0, prev0, hl, hid0, ht0, ?_⟩
      show JsonLookup (b.toInt t) (JsonStore (b.toInt d.OutputType) _ old) = _
      rw [JsonLookup_store_ne _ _ _ _ (Ne.symm hcode), hold, hch]
      exact hs0

theorem codes_injective (b : Board) (henum : EnumeratorsValid b) (k : Nat)
    (hk : k < b.OutputChannelId_End) (t1 t2 : e_OutputType) (h1 : LegalOn b k t1 = true)
    (h2 : LegalOn b k t2 = true) (h : b.toInt t1 = b.toInt t2) : t1 = t2 := by
  have e1 := (henum t1 (LegalOn_named b k t1 h1) k hk h1).2.2
  have e2 := (henum t2 (LegalOn_named b k t2 h2) k hk h2).2.2
  rw [← e1, ← e2, h]

theorem InstantiateAll_types (b : Board) (m : DriverModel) (t : e_OutputType) (st : Bool)
    (s : c_OutputMgr) (hlen : s.pOutputChannelDrivers.length = b.OutputChannelId_End)
    (hs : SlotsSatisfy (SlotOK b) s.pOutputChannelDrivers) :
    ∃ s1, InstantiateAll b m t st s = some s1 ∧ Evolves s s1 ∧
      s1.pOutputChannelDrivers.length = b.OutputChannelId_End ∧
      SlotsSatisfy (SlotOK b) s1.pOutputChannelDrivers ∧ AllBound s1.pOutputChannelDrivers ∧
      ∀ (k : Nat) (d : c_OutputCommon), s1.pOutputChannelDrivers[k]? = some (some d) →
        d.OutputType = if LegalOn b k t then t else e_OutputType.OutputType_Disabled := by
  obtain ⟨s1, hrun, hev, hs1, hb1, ht1⟩ :=
    InstantiateAll_ok b m (SlotOK b) (SlotOK_invariant b m) t st s hs
  refine ⟨s1, hrun, hev, hev.1.trans hlen, hs1, hb1, ?_⟩
  intro k d hd
  rcases ht1 k d hd with h | h
  · have hl : LegalOn b k t = true := by rw [← h]; exact (hs1 k d hd).2
    rw [h, if_pos hl]
  · rw [h, FactorySwitch_type]

theorem CreateNewConfigLoop_sections (b : Board) (m : DriverModel) (henum : EnumeratorsValid b) :
    ∀ (types : List Nat) (s : c_OutputMgr) (doc : JsonOutputConfig),
      s.pOutputChannelDrivers.length = b.OutputChannelId_End →
      SlotsSatisfy (SlotOK b) s.pOutputChannelDrivers →
      ∃ s1 doc1, CreateNewConfigLoop b m types s doc = some (s1, doc1) ∧ Evolves s s1 ∧
        s1.pOutputChannelDrivers.length = b.OutputChannelId_End ∧
        SlotsSatisfy (SlotOK b) s1.pOutputChannelDrivers ∧
        doc1.cfgver = doc.cfgver ∧ doc1.MaxChannels = doc.MaxChannels ∧
        (∀ (k : Nat) (t : e_OutputType), k < b.OutputChannelId_End → LegalOn b k t = true →
          HasSection b m (doc.channels.getD []) k t →
          HasSection b m (doc1.channels.getD []) k t) ∧
        (∀ i ∈ types, ∀ k, k < b.OutputChannelId_End →
          LegalOn b k (b.toOutputType i) = true →
          HasSection b m (doc1.channels.getD []) k (b.toOutputType i)) := by
  intro types
  induction types with
  | nil =>
    intro s doc hlen hs
    exact ⟨s, doc, rfl, Evolves.refl s, hlen, hs, rfl, rfl, fun _ _ _ _ h => h,
      fun i hi => absurd hi (List.not_mem_nil _)⟩
  | cons i rest ih =>
    intro s doc hlen hs
    obtain ⟨sa, hrun1, heva, hlena, hsa, hba, hta⟩ :=
      InstantiateAll_types b m (b.toOutputType i) false s hlen hs
    obtain ⟨data, hrun2, hnew, hkeep⟩ := CreateJsonConfig_sections b m sa doc hba
      (fun j d hd => (hsa j d hd).1)
    obtain ⟨s1, doc1, hrun3, hev1, hlen1, hs1, hver, hmax, hkeep1, hnew1⟩ :=
      ih sa { doc with channels := some data } hlena hsa
    have hstep : ∀ (k : Nat) (t : e_OutputType), k < b.OutputChannelId_End →
        LegalOn b k t = true → HasSection b m (doc.channels.getD []) k t →
        HasSection b m data k t := by
      intro k t hk hl hsec
      obtain ⟨d, hd⟩ := AllBound_getElem? _ hba k (by rw [hlena]; exact hk)
      exact hkeep k d t hd (codes_injective b henum k hk _ _ (hsa k d hd).2 hl) hsec
    refine ⟨s1, doc1, by simp only [CreateNewConfigLoop, hrun1, hrun2, hrun3],
      heva.trans hev1, hlen1, hs1, hver, hmax, ?_, ?_⟩
    · intro k t hk hl hsec
      exact hkeep1 k t hk hl (hstep k t hk hl hsec)
    · intro j hj k hk hl
      rcases List.mem_cons.mp hj with h | h
      · subst h
        obtain ⟨d, hd⟩ := AllBound_getElem? _ hba k (by rw [hlena]; exact hk)
        have htype := hta k d hd
        rw [if_pos hl] at htype
        have hsec := (hnew k d hd).1
        rw [htype] at hsec
        exact hkeep1 k _ hk hl hsec
      · exact hnew1 j h k hk hl

theorem SetConfig_trace (ConfigData : Option JsonDocument) (s : c_OutputMgr) :
    (SetConfig ConfigData s).trace = s.trace ++ Event.SaveConfigFile ConfigData ::
      (if s.FileSystemWritable then [] else [Event.Log LogMsg.ErrorSavingConfigFile]) := by
  cases h : s.FileSystemWritable <;> simp [SetConfig, emit, logcon, h]

end ESPixelStick
